import Mathlib

/-!
# HydroChrono: hydrodynamic force classes (`hydro_forces.cpp`)

A shallow embedding of `BodyFileInfo`, `LinRestorForce`,
`ImpulseResponseForce`, `BuoyancyForce` and `ChLoadAddedMass`, followed by
theorems about them.

Modelling conventions

* `double` is the field `ℚ`: arithmetic is exact; rounding, infinities and NaN
  are outside the model.
* `int` values are `Int` and sizes are `Nat`. The member `K_dims` is declared in
  `hydro_forces.h`, which is not among the sources; it is passed to
  `getSimpleExtentDims`, so its entries are `hsize_t` values, taken as natural
  numbers. The one place where the width of the machine integers decides the
  result is the local `int index` of `get_impulse_resp`: its initialiser is
  evaluated in `hsize_t` arithmetic (modulo 2^64) and narrowed to `int` (the low
  32 bits in two's complement), and `flatIndex` models exactly that. Elsewhere
  the arithmetic is exact: `get_K_dims` returns the entry itself (the value of
  the `int` it returns for every entry below 2^31), and the element count
  `K_dims[0] * K_dims[1] * K_dims[2]` is the product of the naturals (its
  `hsize_t` value whenever the kernel block can exist, below 2^64 elements).
  The remainder `%` on `int` is the truncating `Int.tmod`.
* An operation that can leave defined behaviour (an index outside a
  `std::vector`, a read of a never-written cell, a failed Eigen size check) or
  throw (HDF5) returns `Except Fault _`.
* Text sent to `std::cout` is returned as a list of `Event.print`; an
  `Event.probe` marks the execution of one named statement (an instrumentation
  counter) and has no counterpart in the data.
* The `ChBody` a force object points to is owned by the host; its kinematic
  state at the moment of a call is an argument of the call.
-/

namespace HydroChrono

/-- The two ways a call can end without a value. -/
inductive Fault
  | h5Exception
  | undefined
  deriving DecidableEq, Repr

/-- What a call leaves behind besides its result: text sent to `std::cout`, and
instrumentation probes placed at a named statement of the source. -/
inductive Event
  | print (text : String)
  | probe (label : String)
  deriving DecidableEq, Repr

/-- The type `ChVector<>`: three doubles. -/
abbrev ChVector := Fin 3 → ℚ

/-- The type `ChVectorN<double, 6>`: six doubles. -/
abbrev ChVectorN6 := Fin 6 → ℚ

/-- The comma initialiser `v << a, b` that fills a 6-vector from two 3-vectors. -/
def comma (a b : ChVector) : ChVectorN6 :=
  fun i => if h : i.val < 3 then a ⟨i.val, h⟩ else b ⟨i.val - 3, by omega⟩

/-- Loop `for (int i = start; i < start + fuel; i++) body`. -/
def forLoopFrom {σ : Type} (body : Nat → σ → Except Fault σ) : Nat → Nat → σ → Except Fault σ
  | 0, _, s => .ok s
  | fuel + 1, i, s =>
    match body i s with
    | .ok s1 => forLoopFrom body fuel (i + 1) s1
    | .error e => .error e

/-- Loop `for (int i = 0; i < n; i++) body`. -/
def forLoop {σ : Type} (n : Nat) (body : Nat → σ → Except Fault σ) (s : σ) : Except Fault σ :=
  forLoopFrom body n 0 s

/-- Checked element read of a `std::vector` or of an initialised heap block. -/
def readAt {α : Type} (xs : List α) (i : Nat) : Except Fault α :=
  match xs[i]? with
  | some v => .ok v
  | none => .error Fault.undefined

/-- Checked element write of a `std::vector`. -/
def writeAt {α : Type} (xs : List α) (i : Nat) (v : α) : Except Fault (List α) :=
  if i < xs.length then .ok (xs.set i v) else .error Fault.undefined

/-! ## HDF5 file contents -/

/-- One dataset: the extents of its dataspace and its elements in row-major order. -/
structure H5DataSet where
  dims : List Nat
  elems : Nat → ℚ

/-- Number of elements of the dataspace. -/
def H5DataSet.npoints (d : H5DataSet) : Nat := d.dims.prod

/-- An opened file: datasets by path. -/
structure H5File where
  dataSets : String → Option H5DataSet

/-- Call of `H5File::openDataSet`: throws when the path names no dataset. -/
def H5File.openDataSet (f : H5File) (name : String) : Except Fault H5DataSet :=
  match f.dataSets name with
  | some d => .ok d
  | none => .error Fault.h5Exception

/-- Call of `H5::H5File(name, H5F_ACC_RDONLY)`: throws when the file cannot be opened. -/
def openFile (fs : String → Option H5File) (name : String) : Except Fault H5File :=
  match fs name with
  | some f => .ok f
  | none => .error Fault.h5Exception

/-- Call of `DataSpace::getSimpleExtentDims(dims)`: stores the extents in the first `rank`
cells of the caller's array (cells are `none` while never written) and returns the
rank; the array is overrun when the rank exceeds its length. -/
def getSimpleExtentDims (d : H5DataSet) (dims : List (Option Nat)) :
    Except Fault (Nat × List (Option Nat)) :=
  if d.dims.length ≤ dims.length then
    .ok (d.dims.length, d.dims.map some ++ dims.drop d.dims.length)
  else .error Fault.undefined

/-- Read of `dims[i]`. -/
def dimAt (dims : List (Option Nat)) (i : Nat) : Except Fault Nat :=
  match dims[i]? with
  | some (some v) => .ok v
  | _ => .error Fault.undefined

/-- Call of `dataset.read(temp, ...)` into a block of `cap` doubles: the block then starts
with the dataset's elements; the block is overrun when it is too small. -/
def readInto (d : H5DataSet) (cap : Nat) : Except Fault (List ℚ) :=
  if d.npoints ≤ cap then .ok ((List.range d.npoints).map d.elems)
  else .error Fault.undefined

/-! ## Matrices -/

/-- The type `ChMatrixDynamic<double>`: a size and the coefficients by row and column. -/
structure ChMatrixDynamic where
  rows : Nat
  cols : Nat
  coeff : Nat → Nat → ℚ

namespace ChMatrixDynamic

/-- Call of `M.resize(r, c)`; every coefficient is assigned by the loops that follow. -/
def resize (r c : Nat) : ChMatrixDynamic := ⟨r, c, fun _ _ => 0⟩

/-- Assignment `M(i, j) = v`. -/
def set (M : ChMatrixDynamic) (i j : Nat) (v : ℚ) : Except Fault ChMatrixDynamic :=
  if i < M.rows ∧ j < M.cols then
    .ok { M with coeff := fun a b => if a = i ∧ b = j then v else M.coeff a b }
  else .error Fault.undefined

/-- Scaling `M *= k` and `M * k`. -/
def scale (M : ChMatrixDynamic) (k : ℚ) : ChMatrixDynamic :=
  { M with coeff := fun a b => M.coeff a b * k }

/-- Product `M * v` for a 6-vector `v`, assigned to a 6-vector. -/
def mulVec6 (M : ChMatrixDynamic) (v : ChVectorN6) : Except Fault ChVectorN6 :=
  if M.rows = 6 ∧ M.cols = 6 then
    .ok (fun i => ∑ j : Fin 6, M.coeff i.val j.val * v j)
  else .error Fault.undefined

end ChMatrixDynamic

/-- The loops `for i < d0, for j < d1: M(i, j) = temp[i * d1 + j]`. -/
def fillMatrix (d0 d1 : Nat) (temp : List ℚ) (M : ChMatrixDynamic) : Except Fault ChMatrixDynamic :=
  forLoop d0 (fun i M =>
    forLoop d1 (fun j M =>
      match readAt temp (i * d1 + j) with
      | .ok v => M.set i j v
      | .error e => .error e) M) M

/-- The loop `for i < d0: v[i] = temp[i]` on a `ChVector`. -/
def fillVector (d0 : Nat) (temp : List ℚ) (v : ChVector) : Except Fault ChVector :=
  forLoop d0 (fun i v =>
    match readAt temp i with
    | .ok x => if h : i < 3 then .ok (Function.update v ⟨i, h⟩ x) else .error Fault.undefined
    | .error e => .error e) v

/-- The loop `for i < d0: timesteps[i] = temp[i]` on a `std::vector<double>`. -/
def fillTimes (d0 : Nat) (temp : List ℚ) (ts : List ℚ) : Except Fault (List ℚ) :=
  forLoop d0 (fun i ts =>
    match readAt temp i with
    | .ok x => writeAt ts i x
    | .error e => .error e) ts

/-! ## BodyFileInfo -/

/-- The data members of `BodyFileInfo`. `K_matrix` is the heap block
`new double[K_dims[0] * K_dims[1] * K_dims[2]]` after `dataset.read`. -/
structure BodyFileInfo where
  h5_file_name : String
  bodyNum : String
  lin_matrix : ChMatrixDynamic
  inf_freq : ChMatrixDynamic
  cb : ChVector
  cg : ChVector
  disp_vol : ℚ
  rho : ℚ
  g : ℚ
  K_matrix : List ℚ
  K_dims : Fin 3 → Nat
  timesteps : List ℚ

namespace BodyFileInfo

/-- Member function `BodyFileInfo::read_data()`, run by the constructor on `h5_file_name` and
`bodyNum`; `fs` maps a file name to the file's contents. -/
def read_data (fs : String → Option H5File) (h5_file_name bodyNum : String) :
    Except Fault BodyFileInfo := do
  let sphereFile ← openFile fs h5_file_name
  -- linear restoring stiffness
  let dataset ← sphereFile.openDataSet (bodyNum ++ "/hydro_coeffs/linear_restoring_stiffness")
  let (_, dims) ← getSimpleExtentDims dataset [none, none]
  let d0 ← dimAt dims 0
  let d1 ← dimAt dims 1
  let temp ← readInto dataset (d0 * d1)
  let lin_matrix ← fillMatrix d0 d1 temp (ChMatrixDynamic.resize d0 d1)
  -- added mass at infinite frequency
  let dataset ← sphereFile.openDataSet (bodyNum ++ "/hydro_coeffs/added_mass/inf_freq")
  let (_, dims) ← getSimpleExtentDims dataset dims
  let d0 ← dimAt dims 0
  let d1 ← dimAt dims 1
  let temp ← readInto dataset (d0 * d1)
  let inf_freq ← fillMatrix d0 d1 temp (ChMatrixDynamic.resize d0 d1)
  -- cb
  let dataset ← sphereFile.openDataSet (bodyNum ++ "/properties/cb")
  let (_, dims) ← getSimpleExtentDims dataset dims
  let d0 ← dimAt dims 0
  let d1 ← dimAt dims 1
  let cap := d0 * d1
  let temp ← readInto dataset cap
  let cb ← fillVector d0 temp (fun _ => 0)
  -- cg, read into the block allocated for cb
  let dataset ← sphereFile.openDataSet (bodyNum ++ "/properties/cg")
  let (_, dims) ← getSimpleExtentDims dataset dims
  let d0 ← dimAt dims 0
  let temp ← readInto dataset cap
  let cg ← fillVector d0 temp (fun _ => 0)
  -- displaced volume
  let dataset ← sphereFile.openDataSet (bodyNum ++ "/properties/disp_vol")
  let (_, dims) ← getSimpleExtentDims dataset dims
  let d0 ← dimAt dims 0
  let d1 ← dimAt dims 1
  let cap := d0 * d1
  let temp ← readInto dataset cap
  let disp_vol ← readAt temp 0
  -- rho, read into the block allocated for disp_vol
  let dataset ← sphereFile.openDataSet "simulation_parameters/rho"
  let (_, dims) ← getSimpleExtentDims dataset dims
  let temp ← readInto dataset cap
  let rho ← readAt temp 0
  -- g, read into the same block
  let dataset ← sphereFile.openDataSet "simulation_parameters/g"
  let (_, dims) ← getSimpleExtentDims dataset dims
  let temp ← readInto dataset cap
  let g ← readAt temp 0
  let lin_matrix := lin_matrix.scale (rho * g)
  -- impulse response kernel K
  let dataset ← sphereFile.openDataSet
    (bodyNum ++ "/hydro_coeffs/radiation_damping/impulse_response_fun/K")
  let (_, K_dims) ← getSimpleExtentDims dataset [none, none, none]
  let k0 ← dimAt K_dims 0
  let k1 ← dimAt K_dims 1
  let k2 ← dimAt K_dims 2
  let K_matrix ← readInto dataset (k0 * k1 * k2)
  -- time samples
  let dataset ← sphereFile.openDataSet
    (bodyNum ++ "/hydro_coeffs/radiation_damping/impulse_response_fun/t")
  let (_, dims) ← getSimpleExtentDims dataset dims
  let d0 ← dimAt dims 0
  let d1 ← dimAt dims 1
  let temp ← readInto dataset (d0 * d1)
  let timesteps ← fillTimes d0 temp (List.replicate d0 0)
  pure { h5_file_name := h5_file_name, bodyNum := bodyNum, lin_matrix := lin_matrix,
         inf_freq := inf_freq, cb := cb, cg := cg, disp_vol := disp_vol, rho := rho, g := g,
         K_matrix := K_matrix, K_dims := ![k0, k1, k2], timesteps := timesteps }

/-- Member function `BodyFileInfo::get_lin_matrix()`. -/
def get_lin_matrix (self : BodyFileInfo) : ChMatrixDynamic := self.lin_matrix

/-- Member function `BodyFileInfo::get_added_mass_matrix()`. -/
def get_added_mass_matrix (self : BodyFileInfo) : ChMatrixDynamic := self.inf_freq.scale self.rho

/-- Member function `BodyFileInfo::get_equil_cg()`. -/
def get_equil_cg (self : BodyFileInfo) : ChVector := self.cg

/-- Member function `BodyFileInfo::get_equil_cb()`. -/
def get_equil_cb (self : BodyFileInfo) : ChVector := self.cb

/-- Member function `BodyFileInfo::get_rho()`. -/
def get_rho (self : BodyFileInfo) : ℚ := self.rho

/-- Member function `BodyFileInfo::get_g()`. -/
def get_g (self : BodyFileInfo) : ℚ := self.g

/-- Member function `BodyFileInfo::get_disp_vol()`. -/
def get_disp_vol (self : BodyFileInfo) : ℚ := self.disp_vol

/-- The value of an expression evaluated in `hsize_t` (64-bit unsigned) arithmetic, given
its value over the integers: operands of type `int` are converted to `hsize_t` and every
sum and product is reduced modulo 2^64. -/
def hsize (x : Int) : Int := x % 18446744073709551616

/-- Conversion of an `hsize_t` value to `int`: the low 32 bits, read in two's complement
(a low part from 2^31 on stands for the negative number 2^32 below it). -/
def toInt32 (x : Int) : Int :=
  let r := x % 4294967296
  if 2147483648 ≤ r then r - 4294967296 else r

/-- The value of `int index` in `get_impulse_resp`: the expression
`s + K_dims[2] * (n + m * K_dims[1])` is evaluated in `hsize_t` and narrowed to `int`. -/
def flatIndex (self : BodyFileInfo) (m n s : Int) : Int :=
  toInt32 (hsize (s + (self.K_dims 2 : Int) * (n + m * (self.K_dims 1 : Int))))

/-- Member function `BodyFileInfo::get_impulse_resp(m, n, s)`: the returned double and the text printed. -/
def get_impulse_resp (self : BodyFileInfo) (m n s : Int) : Except Fault (ℚ × List Event) :=
  let index : Int := self.flatIndex m n s
  if index < 0 ∨ index ≥ ((self.K_dims 0 * self.K_dims 1 * self.K_dims 2 : Nat) : Int) then
    .ok (0, [Event.print "out of bounds IRF\n"])
  else
    match readAt self.K_matrix index.toNat with
    | .ok v => .ok (v * self.get_rho, [])
    | .error e => .error e

/-- Member function `BodyFileInfo::get_K_dims(i)`. -/
def get_K_dims (self : BodyFileInfo) (i : Fin 3) : Int := (self.K_dims i : Int)

/-- Member function `BodyFileInfo::get_times()`. -/
def get_times (self : BodyFileInfo) : List ℚ := self.timesteps

end BodyFileInfo

/-! ## Closed forms of what loading produces -/

/-- The matrix whose coefficient (a, b) is `temp[a * d1 + b]`. -/
def matrixOf (d0 d1 : Nat) (temp : List ℚ) : ChMatrixDynamic :=
  ⟨d0, d1, fun a b => if a < d0 ∧ b < d1 then temp.getD (a * d1 + b) 0 else 0⟩

/-- The elements of a dataset as a list. -/
def H5DataSet.data (d : H5DataSet) : List ℚ := (List.range d.npoints).map d.elems

/-! ## The host body -/

/-- The part of a `ChBody` the force classes read. The Euler angles are the values of
`GetRot().Q_to_Euler123()` and `GetRot_dt().Q_to_Euler123()`. -/
structure ChBody where
  ChTime : ℚ
  Pos : ChVector
  RotEuler123 : ChVector
  Pos_dt : ChVector
  Rot_dtEuler123 : ChVector

/-- Read `v[i]` of a 6-vector. -/
def getComp6 (v : ChVectorN6) (i : Nat) : Except Fault ℚ :=
  if h : i < 6 then .ok (v ⟨i, h⟩) else .error Fault.undefined

/-- The six doubles of a vector, held by value. -/
def pack (v : ChVectorN6) : ChVectorN6 := ![v 0, v 1, v 2, v 3, v 4, v 5]

/-- Assignment `v[i] = x` on a 6-vector. -/
def setComp6 (v : ChVectorN6) (i : Nat) (x : ℚ) : Except Fault ChVectorN6 :=
  if h : i < 6 then .ok (pack (Function.update v ⟨i, h⟩ x)) else .error Fault.undefined

/-! ## LinRestorForce -/

/-- The data members of `LinRestorForce` (without the function objects). -/
structure LinRestorForce where
  fileInfo : BodyFileInfo
  equil : ChVectorN6
  currentForce : ChVectorN6
  prevTime : ℚ

namespace LinRestorForce

/-- Constructor `LinRestorForce::LinRestorForce(BodyFileInfo&, shared_ptr<ChBody>)`. The
constructor does not assign `currentForce`; `indet` is its indeterminate content. -/
def new (lin : BodyFileInfo) (indet : ChVectorN6) : LinRestorForce :=
  { fileInfo := lin
    equil := comma lin.get_equil_cg (fun _ => 0)
    currentForce := indet
    prevTime := -1 }

/-- Member function `LinRestorForce::matrixMult()`. -/
def matrixMult (self : LinRestorForce) (bobber : ChBody) :
    Except Fault (ChVectorN6 × LinRestorForce × List Event) :=
  if bobber.ChTime = self.prevTime then
    .ok (self.currentForce, self, [])
  else
    let prevTime := bobber.ChTime
    let currentForce : ChVectorN6 := comma bobber.Pos bobber.RotEuler123
    let currentForce : ChVectorN6 := self.equil - currentForce
    match self.fileInfo.get_lin_matrix.mulVec6 currentForce with
    | .ok currentForce =>
      .ok (currentForce, { self with prevTime := prevTime, currentForce := currentForce },
           [Event.probe "matrixMult"])
    | .error e => .error e

/-- Member function `LinRestorForce::coordinateFunc(i)`. -/
def coordinateFunc (self : LinRestorForce) (bobber : ChBody) (i : Int) :
    Except Fault (ℚ × LinRestorForce × List Event) :=
  if i ≥ 0 ∧ i < 6 then
    match self.matrixMult bobber with
    | .ok (v, self1, out) =>
      match getComp6 v i.toNat with
      | .ok x => .ok (x, self1, out)
      | .error e => .error e
    | .error e => .error e
  else
    .ok (0, self, [Event.print "wrong index\n"])

end LinRestorForce

/-! ## ImpulseResponseForce -/

/-- A heap block from `new double[cap]`; a cell is `none` until it is written. -/
structure Buf where
  cap : Nat
  cell : Nat → Option ℚ

namespace Buf

/-- Allocation `new double[cap]`. -/
def alloc (cap : Nat) : Buf := ⟨cap, fun _ => none⟩

/-- Assignment `b[i] = v`. -/
def write (b : Buf) (i : Nat) (v : ℚ) : Except Fault Buf :=
  if i < b.cap then .ok { b with cell := Function.update b.cell i (some v) }
  else .error Fault.undefined

/-- Read of `b[i]`. -/
def read (b : Buf) (i : Nat) : Except Fault ℚ :=
  if i < b.cap then
    match b.cell i with
    | some v => .ok v
    | none => .error Fault.undefined
  else .error Fault.undefined

end Buf

/-- The data members of `ImpulseResponseForce` (without the function objects). -/
structure ImpulseResponseForce where
  fileInfo : BodyFileInfo
  velHistory : List ChVectorN6
  timeSteps : List ℚ
  currentForce : ChVectorN6
  offset : Int
  prevTime : ℚ

namespace ImpulseResponseForce

/-- The literal `1001`: the bound of the constructor's fill loop and the local
`int size = 1001;` of `convolutionIntegral`. -/
def size : Nat := 1001

/-- Index of a `std::vector` given as an `int`. -/
def vecIndex {α : Type} (xs : List α) (i : Int) : Except Fault Nat :=
  if 0 ≤ i ∧ i.toNat < xs.length then .ok i.toNat else .error Fault.undefined

/-- Assignment `velHistory[idx][comp] = x`. -/
def setVel (velHistory : List ChVectorN6) (idx : Int) (comp : Nat) (x : ℚ) :
    Except Fault (List ChVectorN6) := do
  let k ← vecIndex velHistory idx
  let v ← readAt velHistory k
  let v ← setComp6 v comp x
  writeAt velHistory k v

/-- Read of `velHistory[idx][comp]`. -/
def getVel (velHistory : List ChVectorN6) (idx : Int) (comp : Nat) : Except Fault ℚ := do
  let k ← vecIndex velHistory idx
  let v ← readAt velHistory k
  getComp6 v comp

/-- Constructor `ImpulseResponseForce::ImpulseResponseForce(BodyFileInfo&,
shared_ptr<ChBody>)`. The call `resize` creates `get_K_dims(2)` vectors without assigning
them, and neither the member `currentForce` nor the local `temp` is assigned before the
first loop: `indet`, `indetForce` and `indetTemp` are their indeterminate contents. -/
def new (file : BodyFileInfo) (indet : Nat → ChVectorN6) (indetForce indetTemp : ChVectorN6) :
    Except Fault ImpulseResponseForce := do
  let velHistory := (List.range (file.get_K_dims 2).toNat).map indet
  let timeSteps := file.get_times
  let (temp, currentForce) ← forLoop 6 (fun i (p : ChVectorN6 × ChVectorN6) => do
    let temp ← setComp6 p.1 i 0
    let currentForce ← setComp6 p.2 i 0
    pure (temp, currentForce)) (indetTemp, indetForce)
  let velHistory ← forLoop 1001 (fun i vh => writeAt vh i temp) velHistory
  pure { fileInfo := file, velHistory := velHistory, timeSteps := timeSteps,
         currentForce := currentForce, offset := 0, prevTime := -1 }

/-- The index expression `(((k) % size) + size) % size` on `int`. -/
def wrap (k : Int) : Int := Int.tmod (Int.tmod k (size : Int) + (size : Int)) (size : Int)

/-- What the loops of `convolutionIntegral` modify. -/
structure Work where
  currentForce : ChVectorN6
  timeseries : Buf
  tmp_s : Buf
  out : List Event

/-- Body of the loop over `col`. -/
def colBody (fileInfo : BodyFileInfo) (velHistory : List ChVectorN6) (vi : Int)
    (row st col : Nat) (w : Work) : Except Fault Work := do
  let (k, printed) ← fileInfo.get_impulse_resp row col st
  let v ← getVel velHistory vi col
  let timeseries ← w.timeseries.write (row * 6 * size + col * size + st) (k * v)
  let x ← timeseries.read (row * 6 * size + col * size + st)
  let acc ← w.tmp_s.read (row * size + st)
  let tmp_s ← w.tmp_s.write (row * size + st) (acc + x)
  pure { w with timeseries := timeseries, tmp_s := tmp_s, out := w.out ++ printed }

/-- Body of the loop over `st`. -/
def stBody (fileInfo : BodyFileInfo) (velHistory : List ChVectorN6) (timeSteps : List ℚ)
    (offset : Int) (row st : Nat) (w : Work) : Except Fault Work := do
  let vi := wrap ((st : Int) + offset)
  let tmp_s ← w.tmp_s.write (row * size + st) 0
  let w ← forLoop 6 (colBody fileInfo velHistory vi row st) { w with tmp_s := tmp_s }
  if st > 0 then
    let a ← w.tmp_s.read (row * size + (st - 1))
    let b ← w.tmp_s.read (row * size + st)
    let t1 ← readAt timeSteps st
    let t0 ← readAt timeSteps (st - 1)
    let f ← getComp6 w.currentForce row
    let currentForce ← setComp6 w.currentForce row (f - (a + b) / 2 * (t1 - t0))
    pure { w with currentForce := currentForce }
  else
    pure w

/-- Body of the loop over `row`. -/
def rowBody (fileInfo : BodyFileInfo) (velHistory : List ChVectorN6) (timeSteps : List ℚ)
    (offset : Int) (row : Nat) (w : Work) : Except Fault Work := do
  let currentForce ← setComp6 w.currentForce row 0
  forLoop size (stBody fileInfo velHistory timeSteps offset row)
    { w with currentForce := currentForce }

/-- Body of the loop that stores the body's velocity. -/
def velBody (body : ChBody) (offset : Int) (i : Nat) (velHistory : List ChVectorN6) :
    Except Fault (List ChVectorN6) :=
  if h : i < 3 then do
    let velHistory ← setVel velHistory (wrap ((size : Int) + offset)) i (body.Pos_dt ⟨i, h⟩)
    setVel velHistory (wrap ((size : Int) + offset)) (i + 3) (body.Rot_dtEuler123 ⟨i, h⟩)
  else .error Fault.undefined

/-- Member function `ImpulseResponseForce::convolutionIntegral()`. -/
def convolutionIntegral (self : ImpulseResponseForce) (body : ChBody) :
    Except Fault (ChVectorN6 × ImpulseResponseForce × List Event) :=
  if body.ChTime = self.prevTime then
    .ok (self.currentForce, self, [])
  else do
    let prevTime := body.ChTime
    let offset := self.offset - 1
    let offset := if offset < -1 * (size : Int) then offset + (size : Int) else offset
    let timeseries := Buf.alloc (6 * 6 * size)
    let tmp_s := Buf.alloc (6 * size)
    let velHistory ← forLoop 3 (velBody body offset) self.velHistory
    let w ← forLoop 6 (rowBody self.fileInfo velHistory self.timeSteps offset)
      { currentForce := self.currentForce, timeseries := timeseries, tmp_s := tmp_s,
        out := [Event.probe "offset--"] }
    pure (w.currentForce,
          { self with prevTime := prevTime, offset := offset, velHistory := velHistory,
                      currentForce := w.currentForce },
          w.out)

/-- Member function `ImpulseResponseForce::coordinateFunc(i)`. -/
def coordinateFunc (self : ImpulseResponseForce) (body : ChBody) (i : Int) :
    Except Fault (ℚ × ImpulseResponseForce × List Event) :=
  if i ≥ 0 ∧ i < 6 then
    match self.convolutionIntegral body with
    | .ok (v, self1, out) =>
      match getComp6 v i.toNat with
      | .ok x => .ok (x, self1, out)
      | .error e => .error e
    | .error e => .error e
  else
    .ok (0, self, [Event.print "wrong index\n"])

end ImpulseResponseForce

/-! ## BuoyancyForce -/

/-- The class `ChFunction_Const` of the host: the function `y = yconst`. -/
structure ChFunction_Const where
  yconst : ℚ

namespace ChFunction_Const

/-- Member function `ChFunction_Const::Set_yconst(y)`. -/
def Set_yconst (_self : ChFunction_Const) (y : ℚ) : ChFunction_Const := ⟨y⟩

/-- Member function `ChFunction_Const::Get_y(x)`. -/
def Get_y (self : ChFunction_Const) (_x : ℚ) : ℚ := self.yconst

end ChFunction_Const

/-- The part of a `ChForce` that `BuoyancyForce` sets: the function object installed
with `SetF_z`. -/
structure ChForce where
  F_z : ChFunction_Const

/-- The data members of `BuoyancyForce`; `fc_ptr` and `force_ptr` point to `fc` and
`force`. -/
structure BuoyancyForce where
  fileInfo : BodyFileInfo
  bf : ℚ
  fc : ChFunction_Const
  force : ChForce

namespace BuoyancyForce

/-- Constructor `BuoyancyForce::BuoyancyForce(BodyFileInfo&)`. -/
def new (file : BodyFileInfo) : BuoyancyForce :=
  let fileInfo := file
  let bf := fileInfo.get_rho * fileInfo.get_g * fileInfo.get_disp_vol
  let fc := (ChFunction_Const.mk 0).Set_yconst bf
  { fileInfo := fileInfo, bf := bf, fc := fc, force := { F_z := fc } }

/-- Member function `BuoyancyForce::getForce_ptr()`. -/
def getForce_ptr (self : BuoyancyForce) : ChForce := self.force

end BuoyancyForce

/-! ## ChLoadAddedMass -/

/-- The class `ChLoadJacobians` of the host: the blocks `K`, `R` and `M`. -/
structure ChLoadJacobians where
  K : ChMatrixDynamic
  R : ChMatrixDynamic
  M : ChMatrixDynamic

/-- Call of `M.setZero()`: the size stays, every coefficient becomes 0. -/
def ChMatrixDynamic.setZero (M : ChMatrixDynamic) : ChMatrixDynamic :=
  { M with coeff := fun _ _ => 0 }

/-- The data members of `ChLoadAddedMass`: `inf_freq`, and the pointer `jacobians` of
the base class `ChLoadCustom`, which is null until the host allocates the blocks. -/
structure ChLoadAddedMass where
  inf_freq : ChMatrixDynamic
  jacobians : Option ChLoadJacobians

namespace ChLoadAddedMass

/-- Constructor `ChLoadAddedMass::ChLoadAddedMass(shared_ptr<ChBody>, const BodyFileInfo&)`. -/
def new (file : BodyFileInfo) : ChLoadAddedMass :=
  { inf_freq := file.get_added_mass_matrix, jacobians := none }

/-- Member function `ChLoadAddedMass::ComputeJacobian(state_x, state_w, mK, mR, mM)`;
the five arguments are not used. -/
def ComputeJacobian (self : ChLoadAddedMass) (_state_x _state_w : List ℚ)
    (_mK _mR _mM : ChMatrixDynamic) : Except Fault ChLoadAddedMass :=
  match self.jacobians with
  | some j =>
    let j := { j with M := self.inf_freq }
    let j := { j with R := j.R.setZero }
    let j := { j with K := j.K.setZero }
    .ok { self with jacobians := some j }
  | none => .error Fault.undefined

end ChLoadAddedMass

/-! ## Sequences of calls made by the host -/

namespace LinRestorForce

/-- The host calls `coordinateFunc(i)` once per query, each time with the body state of
that moment; the results, the final state and the output are collected. -/
def queries (self : LinRestorForce) :
    List (ChBody × Int) → Except Fault (List ℚ × LinRestorForce × List Event)
  | [] => .ok ([], self, [])
  | q :: qs =>
    match self.coordinateFunc q.1 q.2 with
    | .ok (x, self1, out1) =>
      match queries self1 qs with
      | .ok (xs, self2, out2) => .ok (x :: xs, self2, out1 ++ out2)
      | .error e => .error e
    | .error e => .error e

end LinRestorForce

namespace ImpulseResponseForce

/-- The host calls `coordinateFunc(i)` once per query, each time with the body state of
that moment; the results, the final state and the output are collected. -/
def queries (self : ImpulseResponseForce) :
    List (ChBody × Int) → Except Fault (List ℚ × ImpulseResponseForce × List Event)
  | [] => .ok ([], self, [])
  | q :: qs =>
    match self.coordinateFunc q.1 q.2 with
    | .ok (x, self1, out1) =>
      match queries self1 qs with
      | .ok (xs, self2, out2) => .ok (x :: xs, self2, out1 ++ out2)
      | .error e => .error e
    | .error e => .error e

/-- The host calls `convolutionIntegral()` once per body state of the list. -/
def steps (self : ImpulseResponseForce) :
    List ChBody → Except Fault (ImpulseResponseForce × List Event)
  | [] => .ok (self, [])
  | b :: bs =>
    match self.convolutionIntegral b with
    | .ok (_, self1, out1) =>
      match steps self1 bs with
      | .ok (self2, out2) => .ok (self2, out1 ++ out2)
      | .error e => .error e
    | .error e => .error e

end ImpulseResponseForce

/-! ## The laws the spec states for the force objects -/

/-- Component `i` of a 6-vector, for `i` in [0, 6). -/
def comp6 (v : ChVectorN6) (i : Nat) : ℚ := if h : i < 6 then v ⟨i, h⟩ else 0

/-- Spec 4.2: `F = K * (equilibrium - currentPose)` with `currentPose = [position,
eulerAngles]`. -/
def restoringLaw (K : ChMatrixDynamic) (equil : ChVectorN6) (p e : ChVector) : ChVectorN6 :=
  fun i => ∑ j : Fin 6, K.coeff i.val j.val * (equil j - comma p e j)

namespace ImpulseResponseForce

/-- The rho-scaled kernel lookup `kernel(r, c, s)`: the value `get_impulse_resp` returns. -/
def kernel (f : BodyFileInfo) (r c s : Nat) : ℚ :=
  match f.get_impulse_resp r c s with
  | .ok (v, _) => v
  | .error _ => 0

/-- Spec 4.4 step 3: `g(r, s) = Σ_c kernel(r, c, s) * velocityHistory[vi][c]` over the
columns `c` in [0, 6), with `vi = wrap(s + offset, S)`. -/
def integrand (f : BodyFileInfo) (velHistory : List ChVectorN6) (offset : Int) (r s : Nat) : ℚ :=
  ∑ c ∈ Finset.range 6,
    kernel f r c s * comp6 (velHistory.getD (wrap ((s : Int) + offset)).toNat 0) c

/-- Spec 4.4 step 3: `force[r] = - Σ_{s=1}^{S-1} (g(r,s-1) + g(r,s)) / 2 *
(timeSamples[s] - timeSamples[s-1])`. -/
def trapezoid (f : BodyFileInfo) (velHistory : List ChVectorN6) (timeSteps : List ℚ)
    (offset : Int) (r : Nat) : ℚ :=
  - ∑ s ∈ Finset.Ico 1 size,
      (integrand f velHistory offset r (s - 1) + integrand f velHistory offset r s) / 2
        * (timeSteps.getD s 0 - timeSteps.getD (s - 1) 0)

/-- Spec 4.4 step 1: the offset after one recomputation. -/
def nextOffset (offset : Int) : Int :=
  if offset - 1 < -1 * (size : Int) then offset - 1 + (size : Int) else offset - 1

/-- Spec 4.4 step 2: the six-component velocity sample of a body. -/
def velocity (body : ChBody) : ChVectorN6 := comma body.Pos_dt body.Rot_dtEuler123

/-- The slot of `velHistory` written by a recomputation that leaves the offset at `offset`. -/
def slot (offset : Int) : Nat := (wrap ((size : Int) + offset)).toNat

/-- The state a recomputation at the body state `body` leaves behind. -/
def recomputed (self : ImpulseResponseForce) (body : ChBody) : ImpulseResponseForce :=
  let offset := nextOffset self.offset
  let velHistory := self.velHistory.set (slot offset) (velocity body)
  { self with
    prevTime := body.ChTime
    offset := offset
    velHistory := velHistory
    currentForce := fun r => trapezoid self.fileInfo velHistory self.timeSteps offset r.val }

/-- The state after one recomputation per body state of the list. -/
def recomputedAll (self : ImpulseResponseForce) (bs : List ChBody) : ImpulseResponseForce :=
  bs.foldl recomputed self

/-- What the loops keep fixed: the sizes of the two scratch blocks and a property of the
output that survives the warning of `get_impulse_resp`. -/
structure Frame (Q : List Event → Prop) (w : Work) : Prop where
  capT : w.timeseries.cap = 6 * 6 * size
  capS : w.tmp_s.cap = 6 * size
  outQ : Q w.out

/-- The buffers are long enough for the literal window of 1001 steps and the kernel
block holds `K_dims[0] * K_dims[1] * K_dims[2]` doubles. -/
def Valid (self : ImpulseResponseForce) : Prop :=
  size ≤ self.velHistory.length ∧ size ≤ self.timeSteps.length ∧
  self.fileInfo.K_dims 0 * self.fileInfo.K_dims 1 * self.fileInfo.K_dims 2
    ≤ self.fileInfo.K_matrix.length

instance (self : ImpulseResponseForce) : Decidable self.Valid := by
  unfold Valid
  infer_instance

end ImpulseResponseForce

/-- Spec 6: the datasets a coefficient file must hold for the body `bodyNum`. -/
def requiredPaths (bodyNum : String) : List String :=
  [bodyNum ++ "/hydro_coeffs/linear_restoring_stiffness",
   bodyNum ++ "/hydro_coeffs/added_mass/inf_freq",
   bodyNum ++ "/properties/cb",
   bodyNum ++ "/properties/cg",
   bodyNum ++ "/properties/disp_vol",
   "simulation_parameters/rho",
   "simulation_parameters/g",
   bodyNum ++ "/hydro_coeffs/radiation_damping/impulse_response_fun/K",
   bodyNum ++ "/hydro_coeffs/radiation_damping/impulse_response_fun/t"]

/-! ## Example data used by the closed statements -/

/-- A store with a 2 x 2 x 2 kernel holding 1, ..., 8 and `rho = 1`. -/
def store222 : BodyFileInfo :=
  { h5_file_name := "sphere.h5", bodyNum := "body1"
    lin_matrix := ChMatrixDynamic.resize 6 6
    inf_freq := ChMatrixDynamic.resize 6 6
    cb := fun _ => 0, cg := fun _ => 0
    disp_vol := 1, rho := 1, g := 1
    K_matrix := [1, 2, 3, 4, 5, 6, 7, 8]
    K_dims := ![2, 2, 2]
    timesteps := [0, 1] }

/-- A coefficient file for `body1`: a 6 x 6 stiffness matrix with entries 0, 1, 2, ...,
an added-mass matrix, `cb`, `cg`, displaced volume 1/2, `rho = 1000`, `g = 981/100`,
a kernel of shape `k0 x k1 x k2` with element `i + 1` at flat position `i`, and
`n` time samples 0, 1, 2, ... -/
def sphereFile (k0 k1 k2 n : Nat) : H5File :=
  { dataSets := fun path =>
      if path = "body1/hydro_coeffs/linear_restoring_stiffness" then
        some ⟨[6, 6], fun i => (i : ℚ)⟩
      else if path = "body1/hydro_coeffs/added_mass/inf_freq" then
        some ⟨[6, 6], fun i => (i : ℚ) + 1⟩
      else if path = "body1/properties/cb" then some ⟨[3, 1], fun _ => 0⟩
      else if path = "body1/properties/cg" then some ⟨[3, 1], fun i => (i : ℚ)⟩
      else if path = "body1/properties/disp_vol" then some ⟨[1, 1], fun _ => 1 / 2⟩
      else if path = "simulation_parameters/rho" then some ⟨[1, 1], fun _ => 1000⟩
      else if path = "simulation_parameters/g" then some ⟨[1, 1], fun _ => 981 / 100⟩
      else if path = "body1/hydro_coeffs/radiation_damping/impulse_response_fun/K" then
        some ⟨[k0, k1, k2], fun i => (i : ℚ) + 1⟩
      else if path = "body1/hydro_coeffs/radiation_damping/impulse_response_fun/t" then
        some ⟨[n, 1], fun i => (i : ℚ)⟩
      else none }

/-- A file system holding `sphereFile` under the name `sphere.h5`. -/
def sphereFs (k0 k1 k2 n : Nat) : String → Option H5File :=
  fun name => if name = "sphere.h5" then some (sphereFile k0 k1 k2 n) else none

/-- The store `read_data` builds from `sphereFile`. -/
def sphereStore (k0 k1 k2 n : Nat) : BodyFileInfo :=
  { h5_file_name := "sphere.h5", bodyNum := "body1"
    lin_matrix :=
      (matrixOf 6 6 ((List.range 36).map (fun i : Nat => (i : ℚ)))).scale (1000 * (981 / 100))
    inf_freq := matrixOf 6 6 ((List.range 36).map (fun i : Nat => (i : ℚ) + 1))
    cb := fun _ => 0
    cg := fun i => (i.val : ℚ)
    disp_vol := 1 / 2, rho := 1000, g := 981 / 100
    K_matrix := (List.range (k0 * k1 * k2)).map (fun i : Nat => (i : ℚ) + 1)
    K_dims := ![k0, k1, k2]
    timesteps := (List.range n).map (fun i : Nat => (i : ℚ)) }

/-- A body at rest at position `p` at time `t`. -/
def restAt (t : ℚ) (p : ChVector) : ChBody :=
  { ChTime := t, Pos := p, RotEuler123 := fun _ => 0, Pos_dt := fun _ => 0,
    Rot_dtEuler123 := fun _ => 0 }

/-- A body at the origin moving with linear velocity `(v, v, v)` at time `t`. -/
def movingAt (t v : ℚ) : ChBody :=
  { ChTime := t, Pos := fun _ => 0, RotEuler123 := fun _ => 0, Pos_dt := fun _ => v,
    Rot_dtEuler123 := fun _ => 0 }

/-- The restoring force object built on `sphereStore`. -/
def sphereRestor : LinRestorForce :=
  LinRestorForce.new (sphereStore 6 6 1001 1001) (fun _ => 0)

/-- The object `sphereRestor` after `matrixMult` at time 0 with the body at its equilibrium. -/
def sphereRestorAtZero : LinRestorForce :=
  { sphereRestor with prevTime := 0, currentForce := fun _ => 0 }

/-- The impulse response force object the constructor builds on `sphereStore`. -/
def sphereIRF : ImpulseResponseForce :=
  { fileInfo := sphereStore 6 6 1001 1001
    velHistory := List.replicate 1001 (fun _ => 0)
    timeSteps := (sphereStore 6 6 1001 1001).timesteps
    currentForce := fun _ => 0
    offset := 0
    prevTime := -1 }

/-- Body states at the times 0, 1, ..., `n - 1`; the state at time `k` has the linear
velocity `(k + 1, k + 1, k + 1)`. -/
def taggedBodies (n : Nat) : List ChBody :=
  (List.range n).map (fun k : Nat => movingAt (k : ℚ) ((k : ℚ) + 1))

namespace ImpulseResponseForce

/-- Spec 4.4 with the window length `S` as the kernel's step count: `wrap(k, S)`, the
expression `((k % S) + S) % S` with the truncating remainder. -/
def specWrap (S : Nat) (k : Int) : Int := Int.tmod (Int.tmod k (S : Int) + (S : Int)) (S : Int)

/-- Spec 4.4 step 3 with window length `S`: `g(r, s) = Σ_c kernel(r, c, s) *
velocityHistory[wrap(s + offset, S)][c]`. -/
def specIntegrand (S : Nat) (f : BodyFileInfo) (velHistory : List ChVectorN6) (offset : Int)
    (r s : Nat) : ℚ :=
  ∑ c ∈ Finset.range 6,
    kernel f r c s * comp6 (velHistory.getD (specWrap S ((s : Int) + offset)).toNat 0) c

/-- Spec 4.4 step 3 with window length `S`: `force[r] = - Σ_{s=1}^{S-1} (g(r,s-1) +
g(r,s)) / 2 * (timeSamples[s] - timeSamples[s-1])`. -/
def specForce (S : Nat) (f : BodyFileInfo) (velHistory : List ChVectorN6) (timeSteps : List ℚ)
    (offset : Int) (r : Nat) : ℚ :=
  - ∑ s ∈ Finset.Ico 1 S,
      (specIntegrand S f velHistory offset r (s - 1) + specIntegrand S f velHistory offset r s) / 2
        * (timeSteps.getD s 0 - timeSteps.getD (s - 1) 0)

end ImpulseResponseForce

/-- A store with a 6 x 6 x 2000 kernel that holds 1 at the entry (0, 0, 1001), the first
lag beyond the literal window, and 0 elsewhere, `rho = 1`, and the time samples
0, 1, 2, ... -/
def lateKernelStore : BodyFileInfo :=
  { h5_file_name := "sphere.h5", bodyNum := "body1"
    lin_matrix := ChMatrixDynamic.resize 6 6
    inf_freq := ChMatrixDynamic.resize 6 6
    cb := fun _ => 0, cg := fun _ => 0
    disp_vol := 1, rho := 1, g := 1
    K_matrix := (List.range 72000).map (fun i : Nat => if i = 1001 then (1 : ℚ) else 0)
    K_dims := ![6, 6, 2000]
    timesteps := (List.range 2000).map (fun i : Nat => (i : ℚ)) }

/-! # Theorems -/

/-! ## Control flow -/

theorem bind_eq_ok {α β : Type} (x : Except Fault α) (f : α → Except Fault β) (b : β) :
    (x >>= f) = Except.ok b ↔ ∃ a, x = Except.ok a ∧ f a = Except.ok b := by
  cases x with
  | error e => simp [bind, Except.bind]
  | ok a => simp [bind, Except.bind]

theorem pack_eq (v : ChVectorN6) : pack v = v := by
  funext i
  fin_cases i <;> rfl

theorem ok_bind {α β : Type} (a : α) (f : α → Except Fault β) :
    ((Except.ok a : Except Fault α) >>= f) = f a := rfl

/-- A loop whose body keeps an invariant and never faults runs to the end. -/
theorem forLoopFrom_inv {σ : Type} (body : Nat → σ → Except Fault σ) (I : Nat → σ → Prop) :
    ∀ (fuel i : Nat) (s : σ), I i s →
      (∀ k t, i ≤ k → k < i + fuel → I k t → ∃ t1, body k t = .ok t1 ∧ I (k + 1) t1) →
      ∃ s1, forLoopFrom body fuel i s = .ok s1 ∧ I (i + fuel) s1 := by
  intro fuel
  induction fuel with
  | zero => intro i s h _; exact ⟨s, rfl, by simpa using h⟩
  | succ n ih =>
    intro i s h step
    obtain ⟨t1, hb, h1⟩ := step i s (Nat.le_refl i) (by omega) h
    obtain ⟨s1, hr, h2⟩ := ih (i + 1) t1 h1 (fun k t hk hk2 hI => step k t (by omega) (by omega) hI)
    refine ⟨s1, ?_, ?_⟩
    · simp only [forLoopFrom, hb]; exact hr
    · have : i + (n + 1) = i + 1 + n := by omega
      rw [this]; exact h2

theorem forLoop_inv {σ : Type} (n : Nat) (body : Nat → σ → Except Fault σ) (I : Nat → σ → Prop)
    (s : σ) (h0 : I 0 s)
    (step : ∀ k t, k < n → I k t → ∃ t1, body k t = .ok t1 ∧ I (k + 1) t1) :
    ∃ s1, forLoop n body s = .ok s1 ∧ I n s1 := by
  have := forLoopFrom_inv body I n 0 s h0 (fun k t _ hk hI => step k t (by omega) hI)
  simpa [forLoop] using this

/-- A loop that ran to the end kept every invariant its successful steps keep. -/
theorem forLoopFrom_ok_inv {σ : Type} (body : Nat → σ → Except Fault σ) (I : Nat → σ → Prop) :
    ∀ (fuel i : Nat) (s s1 : σ), forLoopFrom body fuel i s = .ok s1 → I i s →
      (∀ k t t1, i ≤ k → k < i + fuel → I k t → body k t = .ok t1 → I (k + 1) t1) →
      I (i + fuel) s1 := by
  intro fuel
  induction fuel with
  | zero =>
    intro i s s1 hr h _
    simp only [forLoopFrom, Except.ok.injEq] at hr
    subst hr; simpa using h
  | succ n ih =>
    intro i s s1 hr h step
    simp only [forLoopFrom] at hr
    cases hb : body i s with
    | error e => simp [hb] at hr
    | ok t1 =>
      simp only [hb] at hr
      have h1 := step i s t1 (Nat.le_refl i) (by omega) h hb
      have := ih (i + 1) t1 s1 hr h1 (fun k t t2 hk hk2 hI hbk => step k t t2 (by omega) (by omega) hI hbk)
      have e : i + (n + 1) = i + 1 + n := by omega
      rw [e]; exact this

theorem forLoop_ok_inv {σ : Type} (n : Nat) (body : Nat → σ → Except Fault σ) (I : Nat → σ → Prop)
    (s s1 : σ) (hr : forLoop n body s = .ok s1) (h0 : I 0 s)
    (step : ∀ k t t1, k < n → I k t → body k t = .ok t1 → I (k + 1) t1) : I n s1 := by
  have := forLoopFrom_ok_inv body I n 0 s s1 hr h0 (fun k t t1 _ hk hI hb => step k t t1 (by omega) hI hb)
  simpa using this

/-! ## Loading -/

theorem readAt_ok {α : Type} (xs : List α) (i : Nat) (h : i < xs.length) :
    readAt xs i = .ok (xs.get ⟨i, h⟩) := by
  simp [readAt, List.getElem?_eq_getElem h]

theorem readAt_eq_ok_iff {α : Type} (xs : List α) (i : Nat) (v : α) :
    readAt xs i = .ok v ↔ xs[i]? = some v := by
  unfold readAt
  cases h : xs[i]? <;> simp

theorem fillMatrix_ok (d0 d1 : Nat) (temp : List ℚ) (hlen : d0 * d1 ≤ temp.length) :
    fillMatrix d0 d1 temp (ChMatrixDynamic.resize d0 d1) = .ok (matrixOf d0 d1 temp) := by
  have key := forLoop_inv d0
    (fun i M => forLoop d1 (fun j M =>
      match readAt temp (i * d1 + j) with
      | .ok v => M.set i j v
      | .error e => .error e) M)
    (fun i M => M = ⟨d0, d1, fun a b => if a < i ∧ b < d1 then temp.getD (a * d1 + b) 0 else 0⟩)
    (ChMatrixDynamic.resize d0 d1) (by simp [ChMatrixDynamic.resize]) ?_
  · obtain ⟨M, hM, hI⟩ := key
    simp only [fillMatrix, hM, hI, matrixOf]
  · intro i M hi hI
    have inner := forLoop_inv d1
      (fun j M => match readAt temp (i * d1 + j) with
        | .ok v => M.set i j v
        | .error e => .error e)
      (fun j M => M = ⟨d0, d1, fun a b =>
        if (a < i ∧ b < d1) ∨ (a = i ∧ b < j) then temp.getD (a * d1 + b) 0 else 0⟩)
      M (by simp [hI]) ?_
    · obtain ⟨M1, hM1, hJ⟩ := inner
      refine ⟨M1, hM1, ?_⟩
      rw [hJ]
      congr 1
      funext a b
      have : ((a < i ∧ b < d1) ∨ (a = i ∧ b < d1)) ↔ (a < i + 1 ∧ b < d1) := by
        constructor
        · rintro (⟨h1, h2⟩ | ⟨h1, h2⟩) <;> exact ⟨by omega, h2⟩
        · rintro ⟨h1, h2⟩
          by_cases h : a < i
          · exact Or.inl ⟨h, h2⟩
          · exact Or.inr ⟨by omega, h2⟩
      simp only [this]
    · intro j M2 hj hJ
      have hb : i * d1 + j < temp.length := by
        have : (i + 1) * d1 ≤ d0 * d1 := Nat.mul_le_mul_right d1 hi
        have : i * d1 + j < (i + 1) * d1 := by rw [Nat.add_mul]; omega
        omega
      refine ⟨_, ?_, rfl⟩
      beta_reduce
      rw [readAt_ok temp _ hb]
      simp only [ChMatrixDynamic.set, hJ]
      rw [if_pos ⟨hi, hj⟩]
      congr 2
      funext a b
      by_cases hab : a = i ∧ b = j
      · obtain ⟨rfl, rfl⟩ := hab
        simp [List.getD_eq_getElem?_getD, List.getElem?_eq_getElem hb]
      · simp only [hab, if_false]
        have : ((a < i ∧ b < d1) ∨ (a = i ∧ b < j + 1)) ↔ ((a < i ∧ b < d1) ∨ (a = i ∧ b < j)) := by
          constructor
          · rintro (h | ⟨h1, h2⟩)
            · exact Or.inl h
            · refine Or.inr ⟨h1, ?_⟩
              have : b ≠ j := fun hbj => hab ⟨h1, hbj⟩
              omega
          · rintro (h | ⟨h1, h2⟩)
            · exact Or.inl h
            · exact Or.inr ⟨h1, by omega⟩
        simp only [this]

theorem fillTimes_ok (n : Nat) (temp : List ℚ) (hlen : n ≤ temp.length) :
    fillTimes n temp (List.replicate n 0) = .ok (temp.take n) := by
  have key := forLoop_inv n
    (fun i ts => match readAt temp i with
      | .ok x => writeAt ts i x
      | .error e => .error e)
    (fun i ts => ts = temp.take i ++ List.replicate (n - i) 0)
    (List.replicate n 0) (by simp) ?_
  · obtain ⟨ts, hts, hI⟩ := key
    simp only [fillTimes, hts, hI]
    simp
  · intro i ts hi hI
    have hb : i < temp.length := by omega
    refine ⟨_, ?_, rfl⟩
    beta_reduce
    rw [readAt_ok temp _ hb]
    have hl : i < ts.length := by
      rw [hI]; simp; omega
    simp only [writeAt, if_pos hl]
    congr 1
    rw [hI]
    apply List.ext_getElem?
    intro k
    simp only [List.getElem?_set, List.getElem?_append, List.length_take, List.getElem?_take,
      List.length_append, List.length_replicate, List.getElem?_replicate]
    have hmin : min i temp.length = i := by omega
    have hmin1 : min (i + 1) temp.length = i + 1 := by omega
    simp only [hmin, hmin1]
    by_cases hk : k < i
    · have : i ≠ k := by omega
      simp [hk, this, show k < i + 1 by omega]
    · by_cases hk2 : k = i
      · subst hk2
        simp [List.getElem?_eq_getElem hb, show k + (n - k) = n by omega, hi]
      · have h1 : ¬ k < i + 1 := by omega
        have h2 : i ≠ k := by omega
        simp only [hk, h1, h2, if_false]
        by_cases hk3 : k < n
        · simp [show k - i < n - i by omega, show k - (i + 1) < n - (i + 1) by omega]
        · simp [show ¬ k - i < n - i by omega, show ¬ k - (i + 1) < n - (i + 1) by omega]

theorem dims2_of_reads (ds : H5DataSet) (p : Nat × List (Option Nat)) (d0 d1 : Nat)
    (h : getSimpleExtentDims ds [none, none] = .ok p)
    (h0 : dimAt p.2 0 = .ok d0) (h1 : dimAt p.2 1 = .ok d1) : ds.dims = [d0, d1] := by
  unfold getSimpleExtentDims at h
  split at h
  · simp only [Except.ok.injEq] at h
    subst h
    match hd : ds.dims with
    | [] => simp [hd, dimAt] at h0
    | [a] => simp [hd, dimAt] at h1
    | [a, b] =>
      simp [hd, dimAt] at h0 h1
      simp [h0, h1]
    | a :: b :: c :: l => simp_all
  · simp at h

theorem dims3_of_reads (ds : H5DataSet) (p : Nat × List (Option Nat)) (d0 d1 d2 : Nat)
    (h : getSimpleExtentDims ds [none, none, none] = .ok p)
    (h0 : dimAt p.2 0 = .ok d0) (h1 : dimAt p.2 1 = .ok d1) (h2 : dimAt p.2 2 = .ok d2) :
    ds.dims = [d0, d1, d2] := by
  unfold getSimpleExtentDims at h
  split at h
  · simp only [Except.ok.injEq] at h
    subst h
    match hd : ds.dims with
    | [] => simp [hd, dimAt] at h0
    | [a] => simp [hd, dimAt] at h1
    | [a, b] => simp [hd, dimAt] at h2
    | [a, b, c] =>
      simp [hd, dimAt] at h0 h1 h2
      simp [h0, h1, h2]
    | a :: b :: c :: d :: l => simp_all
  · simp at h

theorem readInto_eq_ok (ds : H5DataSet) (cap : Nat) (temp : List ℚ)
    (h : readInto ds cap = .ok temp) : temp = ds.data ∧ ds.npoints ≤ cap := by
  unfold readInto at h
  split at h
  · simp only [Except.ok.injEq] at h
    exact ⟨h.symm, by assumption⟩
  · simp at h

theorem data_length (ds : H5DataSet) : ds.data.length = ds.npoints := by
  simp [H5DataSet.data]

theorem readAt_data_zero (ds : H5DataSet) (x : ℚ) (h : readAt ds.data 0 = .ok x) :
    x = ds.elems 0 := by
  rw [readAt_eq_ok_iff] at h
  simp only [H5DataSet.data, List.getElem?_map] at h
  by_cases hn : 0 < ds.npoints
  · simp [List.getElem?_range hn] at h
    exact h.symm
  · have : ds.npoints = 0 := by omega
    simp [this] at h

theorem fillVector_three (temp : List ℚ) (v : ChVector) (h : 3 ≤ temp.length) :
    fillVector 3 temp v = .ok (fun i => temp.getD i.val 0) := by
  match temp, h with
  | a :: b :: c :: l, _ =>
    simp only [fillVector, forLoop, forLoopFrom, readAt]
    simp only [List.getElem?_cons_zero, List.getElem?_cons_succ]
    simp
    funext i
    fin_cases i <;> simp [Function.update]

namespace BodyFileInfo

/-- What a successful `read_data` has read for the stiffness matrix, `rho`, `g` and the
kernel. -/
theorem read_data_inv (fs : String → Option H5File) (name body : String) (store : BodyFileInfo)
    (h : read_data fs name body = .ok store) :
    ∃ (f : H5File) (dsLin dsRho dsG dsK : H5DataSet) (rows cols k0 k1 k2 : Nat),
      openFile fs name = .ok f ∧
      f.openDataSet (body ++ "/hydro_coeffs/linear_restoring_stiffness") = .ok dsLin ∧
      f.openDataSet "simulation_parameters/rho" = .ok dsRho ∧
      f.openDataSet "simulation_parameters/g" = .ok dsG ∧
      f.openDataSet (body ++ "/hydro_coeffs/radiation_damping/impulse_response_fun/K") = .ok dsK ∧
      dsLin.dims = [rows, cols] ∧ dsK.dims = [k0, k1, k2] ∧
      store.rho = dsRho.elems 0 ∧ store.g = dsG.elems 0 ∧
      store.lin_matrix = (matrixOf rows cols dsLin.data).scale (store.rho * store.g) ∧
      store.K_dims = ![k0, k1, k2] ∧ store.K_matrix = dsK.data := by
  unfold read_data at h
  simp only [bind_eq_ok] at h
  obtain ⟨f, hf, dsLin, hdsLin, pLin, hpLin, d0, hd0, d1, hd1, tLin, htLin, lin, hlin, h⟩ := h
  obtain ⟨dsInf, _, pInf, _, e0, _, e1, _, tInf, _, inf, _, h⟩ := h
  obtain ⟨dsCb, _, pCb, _, b0, _, b1, _, tCb, _, cb, _, h⟩ := h
  obtain ⟨dsCg, _, pCg, _, c0, _, tCg, _, cg, _, h⟩ := h
  obtain ⟨dsV, _, pV, _, v0, _, v1, _, tV, _, vol, _, h⟩ := h
  obtain ⟨dsRho, hdsRho, pRho, _, tRho, htRho, rho, hrho, h⟩ := h
  obtain ⟨dsG, hdsG, pG, _, tG, htG, g, hg, h⟩ := h
  obtain ⟨dsK, hdsK, pK, hpK, k0, hk0, k1, hk1, k2, hk2, tK, htK, h⟩ := h
  obtain ⟨dsT, _, pT, _, n0, _, n1, _, tT, _, ts, _, h⟩ := h
  simp only [pure, Except.pure, Except.ok.injEq] at h
  have hdl := dims2_of_reads dsLin pLin d0 d1 hpLin hd0 hd1
  have hdk := dims3_of_reads dsK pK k0 k1 k2 hpK hk0 hk1 hk2
  obtain ⟨e1, _⟩ := readInto_eq_ok _ _ _ htLin
  obtain ⟨e2, _⟩ := readInto_eq_ok _ _ _ htRho
  obtain ⟨e3, _⟩ := readInto_eq_ok _ _ _ htG
  obtain ⟨e4, _⟩ := readInto_eq_ok _ _ _ htK
  subst e1 e2 e3 e4
  have hr := readAt_data_zero _ _ hrho
  have hgg := readAt_data_zero _ _ hg
  have hlen : d0 * d1 ≤ dsLin.data.length := by
    rw [data_length, H5DataSet.npoints, hdl]; simp
  rw [fillMatrix_ok d0 d1 _ hlen] at hlin
  simp only [Except.ok.injEq] at hlin
  refine ⟨f, dsLin, dsRho, dsG, dsK, d0, d1, k0, k1, k2, hf, hdsLin, hdsRho, hdsG, hdsK, hdl, hdk, ?_⟩
  subst h
  subst hlin
  simp [hr, hgg]

end BodyFileInfo

theorem getSimpleExtentDims_two (a b : Nat) (e : Nat → ℚ) (x y : Option Nat) :
    getSimpleExtentDims ⟨[a, b], e⟩ [x, y] = .ok (2, [some a, some b]) := by
  simp [getSimpleExtentDims]

theorem getSimpleExtentDims_three (a b c : Nat) (e : Nat → ℚ) (x y z : Option Nat) :
    getSimpleExtentDims ⟨[a, b, c], e⟩ [x, y, z] = .ok (3, [some a, some b, some c]) := by
  simp [getSimpleExtentDims]

theorem readInto_ok (ds : H5DataSet) (cap : Nat) (h : ds.npoints ≤ cap) :
    readInto ds cap = .ok ds.data := by
  simp [readInto, h, H5DataSet.data]

theorem read_data_sphere (k0 k1 k2 n : Nat) :
    BodyFileInfo.read_data (sphereFs k0 k1 k2 n) "sphere.h5" "body1"
      = .ok (sphereStore k0 k1 k2 n) := by
  have p1 : ("body1" ++ "/hydro_coeffs/linear_restoring_stiffness" : String)
      = "body1/hydro_coeffs/linear_restoring_stiffness" := by decide
  have p2 : ("body1" ++ "/hydro_coeffs/added_mass/inf_freq" : String)
      = "body1/hydro_coeffs/added_mass/inf_freq" := by decide
  have p3 : ("body1" ++ "/properties/cb" : String) = "body1/properties/cb" := by decide
  have p4 : ("body1" ++ "/properties/cg" : String) = "body1/properties/cg" := by decide
  have p5 : ("body1" ++ "/properties/disp_vol" : String) = "body1/properties/disp_vol" := by
    decide
  have p6 : ("body1" ++ "/hydro_coeffs/radiation_damping/impulse_response_fun/K" : String)
      = "body1/hydro_coeffs/radiation_damping/impulse_response_fun/K" := by decide
  have p7 : ("body1" ++ "/hydro_coeffs/radiation_damping/impulse_response_fun/t" : String)
      = "body1/hydro_coeffs/radiation_damping/impulse_response_fun/t" := by decide
  unfold BodyFileInfo.read_data
  simp only [p1, p2, p3, p4, p5, p6, p7]
  simp only [openFile, sphereFs, if_true, ok_bind]
  have o1 : (sphereFile k0 k1 k2 n).openDataSet "body1/hydro_coeffs/linear_restoring_stiffness"
      = .ok ⟨[6, 6], fun i => (i : ℚ)⟩ := by simp [H5File.openDataSet, sphereFile]
  have o2 : (sphereFile k0 k1 k2 n).openDataSet "body1/hydro_coeffs/added_mass/inf_freq"
      = .ok ⟨[6, 6], fun i => (i : ℚ) + 1⟩ := by simp [H5File.openDataSet, sphereFile]
  have o3 : (sphereFile k0 k1 k2 n).openDataSet "body1/properties/cb"
      = .ok ⟨[3, 1], fun _ => 0⟩ := by simp [H5File.openDataSet, sphereFile]
  have o4 : (sphereFile k0 k1 k2 n).openDataSet "body1/properties/cg"
      = .ok ⟨[3, 1], fun i => (i : ℚ)⟩ := by simp [H5File.openDataSet, sphereFile]
  have o5 : (sphereFile k0 k1 k2 n).openDataSet "body1/properties/disp_vol"
      = .ok ⟨[1, 1], fun _ => 1 / 2⟩ := by simp [H5File.openDataSet, sphereFile]
  have o6 : (sphereFile k0 k1 k2 n).openDataSet "simulation_parameters/rho"
      = .ok ⟨[1, 1], fun _ => 1000⟩ := by simp [H5File.openDataSet, sphereFile]
  have o7 : (sphereFile k0 k1 k2 n).openDataSet "simulation_parameters/g"
      = .ok ⟨[1, 1], fun _ => 981 / 100⟩ := by simp [H5File.openDataSet, sphereFile]
  have o8 : (sphereFile k0 k1 k2 n).openDataSet
      "body1/hydro_coeffs/radiation_damping/impulse_response_fun/K"
      = .ok ⟨[k0, k1, k2], fun i => (i : ℚ) + 1⟩ := by simp [H5File.openDataSet, sphereFile]
  have o9 : (sphereFile k0 k1 k2 n).openDataSet
      "body1/hydro_coeffs/radiation_damping/impulse_response_fun/t"
      = .ok ⟨[n, 1], fun i => (i : ℚ)⟩ := by simp [H5File.openDataSet, sphereFile]
  have d0 : ∀ a b : Nat, dimAt [some a, some b] 0 = .ok a := fun _ _ => rfl
  have d1 : ∀ a b : Nat, dimAt [some a, some b] 1 = .ok b := fun _ _ => rfl
  have e0 : ∀ a b c : Nat, dimAt [some a, some b, some c] 0 = .ok a := fun _ _ _ => rfl
  have e1 : ∀ a b c : Nat, dimAt [some a, some b, some c] 1 = .ok b := fun _ _ _ => rfl
  have e2 : ∀ a b c : Nat, dimAt [some a, some b, some c] 2 = .ok c := fun _ _ _ => rfl
  have r1 : ∀ (a b : Nat) (e : Nat → ℚ), readInto ⟨[a, b], e⟩ (a * b)
      = .ok (H5DataSet.data ⟨[a, b], e⟩) :=
    fun a b e => readInto_ok _ _ (by simp [H5DataSet.npoints])
  have r2 : ∀ (e : Nat → ℚ), readInto ⟨[3, 1], e⟩ (3 * 1)
      = .ok (H5DataSet.data ⟨[3, 1], e⟩) :=
    fun e => readInto_ok _ _ (by simp [H5DataSet.npoints])
  have r3 : ∀ (e : Nat → ℚ), readInto ⟨[1, 1], e⟩ (1 * 1)
      = .ok (H5DataSet.data ⟨[1, 1], e⟩) :=
    fun e => readInto_ok _ _ (by simp [H5DataSet.npoints])
  have r4 : ∀ (a b c : Nat) (e : Nat → ℚ), readInto ⟨[a, b, c], e⟩ (a * b * c)
      = .ok (H5DataSet.data ⟨[a, b, c], e⟩) :=
    fun a b c e => readInto_ok _ _ (by simp [H5DataSet.npoints, Nat.mul_assoc])
  have f1 : ∀ (e : Nat → ℚ), fillMatrix 6 6 (H5DataSet.data ⟨[6, 6], e⟩)
      (ChMatrixDynamic.resize 6 6) = .ok (matrixOf 6 6 (H5DataSet.data ⟨[6, 6], e⟩)) :=
    fun e => fillMatrix_ok _ _ _ (by simp [H5DataSet.data, H5DataSet.npoints])
  have f2 : ∀ (e : Nat → ℚ) (v : ChVector), fillVector 3 (H5DataSet.data ⟨[3, 1], e⟩) v
      = .ok (fun i => (H5DataSet.data ⟨[3, 1], e⟩).getD i.val 0) :=
    fun e v => fillVector_three _ _ (by simp [H5DataSet.data, H5DataSet.npoints])
  have f3 : ∀ (e : Nat → ℚ), readAt (H5DataSet.data ⟨[1, 1], e⟩) 0 = .ok (e 0) := by
    intro e; simp [H5DataSet.data, H5DataSet.npoints, readAt]
  have f4 : fillTimes n (H5DataSet.data ⟨[n, 1], fun i => (i : ℚ)⟩) (List.replicate n 0)
      = .ok ((H5DataSet.data ⟨[n, 1], fun i => (i : ℚ)⟩).take n) :=
    fillTimes_ok _ _ (by simp [H5DataSet.data, H5DataSet.npoints])
  simp only [o1, o2, o3, o4, o5, o6, o7, o8, o9, ok_bind, getSimpleExtentDims_two,
    getSimpleExtentDims_three, d0, d1, e0, e1, e2, r1, r2, r3, r4, f1, f2, f3, f4]
  simp only [pure, Except.pure, sphereStore, Except.ok.injEq, BodyFileInfo.mk.injEq, true_and]
  refine ⟨?_, ?_, ?_, ?_, ?_, ?_⟩
  · simp [H5DataSet.data, H5DataSet.npoints]
  · simp [H5DataSet.data, H5DataSet.npoints]
  · funext i; fin_cases i <;> simp [H5DataSet.data, H5DataSet.npoints]
  · funext i; fin_cases i <;> simp [H5DataSet.data, H5DataSet.npoints, List.range_succ]
  · simp [H5DataSet.data, H5DataSet.npoints, Nat.mul_assoc]
  · simp [H5DataSet.data, H5DataSet.npoints]

/-! ## BodyFileInfo::get_impulse_resp -/

namespace BodyFileInfo

theorem get_impulse_resp_outside (self : BodyFileInfo) (m n s : Int)
    (h : self.flatIndex m n s < 0 ∨
      ((self.K_dims 0 * self.K_dims 1 * self.K_dims 2 : Nat) : Int) ≤ self.flatIndex m n s) :
    self.get_impulse_resp m n s = .ok (0, [Event.print "out of bounds IRF\n"]) := by
  simp only [get_impulse_resp]
  rw [if_pos]
  simpa using h

theorem get_impulse_resp_inside (self : BodyFileInfo) (m n s : Int) (v : ℚ)
    (h0 : 0 ≤ self.flatIndex m n s)
    (h1 : self.flatIndex m n s < ((self.K_dims 0 * self.K_dims 1 * self.K_dims 2 : Nat) : Int))
    (hv : self.K_matrix[(self.flatIndex m n s).toNat]? = some v) :
    self.get_impulse_resp m n s = .ok (v * self.rho, []) := by
  simp only [get_impulse_resp]
  rw [if_neg (by push_neg; exact ⟨h0, h1⟩)]
  simp [readAt, hv, get_rho]

theorem toInt32_hsize (x : Int) (h0 : -2147483648 ≤ x) (h1 : x < 2147483648) :
    toInt32 (hsize x) = x := by
  simp only [toInt32, hsize]
  split <;> omega

theorem toInt32_range (x : Int) : -2147483648 ≤ toInt32 x ∧ toInt32 x < 2147483648 := by
  simp only [toInt32]
  split <;> omega

theorem toInt32_hsize_emod (x : Int) :
    toInt32 (hsize x) % 4294967296 = x % 4294967296 := by
  simp only [toInt32, hsize]
  split <;> omega

/-- A position that fits in an `int` is the value of `index`. -/
theorem flatIndex_of_int (self : BodyFileInfo) (m n s : Int)
    (h0 : -2147483648 ≤ s + (self.K_dims 2 : Int) * (n + m * (self.K_dims 1 : Int)))
    (h1 : s + (self.K_dims 2 : Int) * (n + m * (self.K_dims 1 : Int)) < 2147483648) :
    self.flatIndex m n s = s + (self.K_dims 2 : Int) * (n + m * (self.K_dims 1 : Int)) :=
  toInt32_hsize _ h0 h1

/-- An in-range triple has its position in `[0, K_dims[0] * K_dims[1] * K_dims[2])`. -/
theorem position_in_range (self : BodyFileInfo) (m n s : Int)
    (hm : 0 ≤ m ∧ m < (self.K_dims 0 : Int)) (hn : 0 ≤ n ∧ n < (self.K_dims 1 : Int))
    (hs : 0 ≤ s ∧ s < (self.K_dims 2 : Int)) :
    0 ≤ s + (self.K_dims 2 : Int) * (n + m * (self.K_dims 1 : Int)) ∧
    s + (self.K_dims 2 : Int) * (n + m * (self.K_dims 1 : Int))
      < ((self.K_dims 0 * self.K_dims 1 * self.K_dims 2 : Nat) : Int) := by
  constructor
  · have : 0 ≤ m * (self.K_dims 1 : Int) := mul_nonneg hm.1 (by omega)
    have : 0 ≤ (self.K_dims 2 : Int) * (n + m * (self.K_dims 1 : Int)) :=
      mul_nonneg (by omega) (by omega)
    omega
  · push_cast
    have a1 : m + 1 ≤ (self.K_dims 0 : Int) := by omega
    have a2 : (m + 1) * (self.K_dims 1 : Int) ≤ (self.K_dims 0 : Int) * self.K_dims 1 :=
      mul_le_mul_of_nonneg_right a1 (by omega)
    have a3 : n + m * (self.K_dims 1 : Int) + 1 ≤ (self.K_dims 0 : Int) * self.K_dims 1 := by
      linarith
    have a4 : (self.K_dims 2 : Int) * (n + m * (self.K_dims 1 : Int) + 1)
        ≤ self.K_dims 2 * ((self.K_dims 0 : Int) * self.K_dims 1) :=
      mul_le_mul_of_nonneg_left a3 (by omega)
    nlinarith

end BodyFileInfo

/-- C1, as written, fails: the 2 x 2 x 2 store answers the triple (0, 0, 2), whose step
is outside [0, 2), with rho times the element at flat position 2 and prints nothing. -/
theorem C1_counterexample :
    store222.get_impulse_resp 0 0 2 = .ok (3, []) ∧
    ¬ (∀ row col step : Int,
        (¬ (0 ≤ row ∧ row < (store222.K_dims 0 : Int)) ∨
         ¬ (0 ≤ col ∧ col < (store222.K_dims 1 : Int)) ∨
         ¬ (0 ≤ step ∧ step < (store222.K_dims 2 : Int))) →
        store222.get_impulse_resp row col step
          = .ok (0, [Event.print "out of bounds IRF\n"])) := by
  have hi : store222.flatIndex 0 0 2 = 2 := by decide
  have e : store222.get_impulse_resp 0 0 2 = .ok (3, []) := by
    have h := BodyFileInfo.get_impulse_resp_inside store222 0 0 2 3
      (by rw [hi]; decide) (by rw [hi]; decide) (by rw [hi]; rfl)
    rw [h]
    have hr : (3 : ℚ) * store222.rho = 3 := by norm_num [store222]
    rw [hr]
  refine ⟨e, fun h => ?_⟩
  have h2 := h 0 0 2 (by simp [store222])
  rw [e] at h2
  simp at h2

theorem mixed_radix_inj (K a b a1 b1 : Int) (ha : 0 ≤ a ∧ a < K) (ha1 : 0 ≤ a1 ∧ a1 < K)
    (h : a + K * b = a1 + K * b1) : a = a1 ∧ b = b1 := by
  have hb : b = b1 := by
    rcases lt_trichotomy b b1 with hlt | heq | hgt
    · have : K * (b1 - b) ≥ K * 1 := by
        apply mul_le_mul_of_nonneg_left (by omega) (by omega)
      nlinarith
    · exact heq
    · have : K * (b - b1) ≥ K * 1 := by
        apply mul_le_mul_of_nonneg_left (by omega) (by omega)
      nlinarith
  subst hb
  exact ⟨by linarith, rfl⟩

/-- C1 (amended): for every triple whose flattened position
`step + K_dims[2] * (col + row * K_dims[1])` fits in an `int`, the variable `index` holds
that position and `get_impulse_resp(row, col, step)` returns 0 with the warning exactly
when the position is outside `[0, K_dims[0] * K_dims[1] * K_dims[2])`; among these
triples that is the case for every one with `row >= K_dims[0]`, `col >= 0`, `step >= 0`
and for every one with `row < 0`, `col < K_dims[1]`, `step < K_dims[2]`. -/
theorem C1_rows_outside_return_zero_within_int (self : BodyFileInfo) (row col step : Int)
    (hlo : -2147483648 ≤ step + (self.K_dims 2 : Int) * (col + row * (self.K_dims 1 : Int)))
    (hhi : step + (self.K_dims 2 : Int) * (col + row * (self.K_dims 1 : Int)) < 2147483648) :
    self.flatIndex row col step
      = step + (self.K_dims 2 : Int) * (col + row * (self.K_dims 1 : Int)) ∧
    (self.get_impulse_resp row col step = .ok (0, [Event.print "out of bounds IRF\n"]) ↔
      (step + (self.K_dims 2 : Int) * (col + row * (self.K_dims 1 : Int)) < 0 ∨
        ((self.K_dims 0 * self.K_dims 1 * self.K_dims 2 : Nat) : Int)
          ≤ step + (self.K_dims 2 : Int) * (col + row * (self.K_dims 1 : Int)))) ∧
    (((self.K_dims 0 : Int) ≤ row ∧ 0 ≤ col ∧ 0 ≤ step) →
      self.get_impulse_resp row col step = .ok (0, [Event.print "out of bounds IRF\n"])) ∧
    ((row < 0 ∧ col < (self.K_dims 1 : Int) ∧ step < (self.K_dims 2 : Int)) →
      self.get_impulse_resp row col step = .ok (0, [Event.print "out of bounds IRF\n"])) := by
  have hfi := BodyFileInfo.flatIndex_of_int self row col step hlo hhi
  have h1 : (0 : Int) ≤ self.K_dims 1 := Int.natCast_nonneg _
  have h2 : (0 : Int) ≤ self.K_dims 2 := Int.natCast_nonneg _
  have hout : (step + (self.K_dims 2 : Int) * (col + row * (self.K_dims 1 : Int)) < 0 ∨
      ((self.K_dims 0 * self.K_dims 1 * self.K_dims 2 : Nat) : Int)
        ≤ step + (self.K_dims 2 : Int) * (col + row * (self.K_dims 1 : Int))) →
      self.get_impulse_resp row col step = .ok (0, [Event.print "out of bounds IRF\n"]) := by
    intro h
    apply BodyFileInfo.get_impulse_resp_outside
    rw [hfi]
    exact h
  refine ⟨hfi, ⟨fun h => ?_, hout⟩, fun ⟨hr, hc, hs⟩ => hout (Or.inr ?_),
    fun ⟨hr, hc, hs⟩ => hout (Or.inl ?_)⟩
  · by_contra hc
    push_neg at hc
    simp only [BodyFileInfo.get_impulse_resp] at h
    rw [if_neg (by rw [hfi]; push_neg; exact hc)] at h
    cases hr : readAt self.K_matrix (self.flatIndex row col step).toNat with
    | ok v => rw [hr] at h; simp at h
    | error e => rw [hr] at h; simp at h
  · push_cast
    have e1 : (self.K_dims 0 : Int) * self.K_dims 1 ≤ row * self.K_dims 1 :=
      mul_le_mul_of_nonneg_right hr h1
    have e2 : (self.K_dims 2 : Int) * ((self.K_dims 0 : Int) * self.K_dims 1)
        ≤ self.K_dims 2 * (col + row * self.K_dims 1) :=
      mul_le_mul_of_nonneg_left (by linarith) h2
    nlinarith
  · have e1 : row * (self.K_dims 1 : Int) ≤ (-1) * self.K_dims 1 :=
      mul_le_mul_of_nonneg_right (by omega) h1
    have e2 : (self.K_dims 2 : Int) * (col + row * self.K_dims 1) ≤ self.K_dims 2 * (-1) :=
      mul_le_mul_of_nonneg_left (by linarith) h2
    linarith

/-- The triple (2, 0, 0) of the 2 x 2 x 2 store has row 2 outside [0, 2) and position 8. -/
theorem C1_rows_outside_return_zero_within_int_witness :
    ((-2147483648 : Int) ≤ 0 + (store222.K_dims 2 : Int) * (0 + 2 * (store222.K_dims 1 : Int)) ∧
      (0 : Int) + (store222.K_dims 2 : Int) * (0 + 2 * (store222.K_dims 1 : Int)) < 2147483648 ∧
      ((store222.K_dims 0 : Int) ≤ 2 ∧ (0 : Int) ≤ 0 ∧ (0 : Int) ≤ 0)) ∧
    store222.get_impulse_resp 2 0 0 = .ok (0, [Event.print "out of bounds IRF\n"]) := by
  have a : (-2147483648 : Int)
      ≤ 0 + (store222.K_dims 2 : Int) * (0 + 2 * (store222.K_dims 1 : Int)) := by decide
  have b : (0 : Int) + (store222.K_dims 2 : Int) * (0 + 2 * (store222.K_dims 1 : Int))
      < 2147483648 := by decide
  have c : (store222.K_dims 0 : Int) ≤ 2 ∧ (0 : Int) ≤ 0 ∧ (0 : Int) ≤ 0 := by decide
  exact ⟨⟨a, b, c⟩, (C1_rows_outside_return_zero_within_int store222 2 0 0 a b).2.2.1 c⟩

/-- C2, as written, fails: the file `sphereFile 2 1 2147483647 3` has a kernel of shape
2 x 1 x (2^31 - 1) and loads; the triple (1, 0, 1) is in range and its row-major position
is `1 + (2^31 - 1) * (0 + 1 * 1) = 2^31`, which the `int` variable `index` holds as
`-2^31`, so the call returns 0 with the warning instead of `rho` times the element at
that position. -/
theorem C2_counterexample :
    BodyFileInfo.read_data (sphereFs 2 1 2147483647 3) "sphere.h5" "body1"
      = .ok (sphereStore 2 1 2147483647 3) ∧
    ((0 : Int) ≤ 1 ∧ (1 : Int) < ((sphereStore 2 1 2147483647 3).K_dims 0 : Int)) ∧
    ((0 : Int) ≤ 0 ∧ (0 : Int) < ((sphereStore 2 1 2147483647 3).K_dims 1 : Int)) ∧
    ((0 : Int) ≤ 1 ∧ (1 : Int) < ((sphereStore 2 1 2147483647 3).K_dims 2 : Int)) ∧
    (1 : Int) + ((sphereStore 2 1 2147483647 3).K_dims 2 : Int)
        * (0 + 1 * ((sphereStore 2 1 2147483647 3).K_dims 1 : Int)) = 2147483648 ∧
    (sphereStore 2 1 2147483647 3).flatIndex 1 0 1 = -2147483648 ∧
    (sphereStore 2 1 2147483647 3).get_impulse_resp 1 0 1
      = .ok (0, [Event.print "out of bounds IRF\n"]) ∧
    ¬ (∀ (fs : String → Option H5File) (name body : String) (store : BodyFileInfo)
        (m n s : Int),
        BodyFileInfo.read_data fs name body = .ok store →
        (0 ≤ m ∧ m < (store.K_dims 0 : Int)) → (0 ≤ n ∧ n < (store.K_dims 1 : Int)) →
        (0 ≤ s ∧ s < (store.K_dims 2 : Int)) →
        ∃ dsK : H5DataSet,
          store.get_impulse_resp m n s
            = .ok (dsK.elems (s + (store.K_dims 2 : Int)
                * (n + m * (store.K_dims 1 : Int))).toNat * store.get_rho, [])) := by
  have hl := read_data_sphere 2 1 2147483647 3
  have a : (0 : Int) ≤ 1 ∧ (1 : Int) < ((sphereStore 2 1 2147483647 3).K_dims 0 : Int) := by
    decide
  have b : (0 : Int) ≤ 0 ∧ (0 : Int) < ((sphereStore 2 1 2147483647 3).K_dims 1 : Int) := by
    decide
  have c : (0 : Int) ≤ 1 ∧ (1 : Int) < ((sphereStore 2 1 2147483647 3).K_dims 2 : Int) := by
    decide
  have hp : (1 : Int) + ((sphereStore 2 1 2147483647 3).K_dims 2 : Int)
      * (0 + 1 * ((sphereStore 2 1 2147483647 3).K_dims 1 : Int)) = 2147483648 := by decide
  have hi : (sphereStore 2 1 2147483647 3).flatIndex 1 0 1 = -2147483648 := by decide
  have e : (sphereStore 2 1 2147483647 3).get_impulse_resp 1 0 1
      = .ok (0, [Event.print "out of bounds IRF\n"]) :=
    BodyFileInfo.get_impulse_resp_outside _ 1 0 1 (Or.inl (by rw [hi]; decide))
  refine ⟨hl, a, b, c, hp, hi, e, fun h => ?_⟩
  obtain ⟨dsK, hd⟩ := h _ _ _ _ 1 0 1 hl a b c
  rw [e] at hd
  simp at hd

/-- C2 (amended): for a loaded store whose kernel block holds at most 2^31 doubles (so
that every in-range position fits in the `int` index) and an in-range triple (m, n, s),
`get_impulse_resp` returns `rho` times the element of the file's kernel dataset at
row-major position `s + K_dims[2] * (n + m * K_dims[1])`, which is that position of
`K_matrix`, and prints nothing; two in-range triples with the same flat position are the
same triple. -/
theorem C2_kernel_lookup_is_rho_times_row_major_element
    (fs : String → Option H5File) (name body : String) (store : BodyFileInfo)
    (hload : BodyFileInfo.read_data fs name body = .ok store)
    (hN : store.K_dims 0 * store.K_dims 1 * store.K_dims 2 ≤ 2147483648) (m n s : Int)
    (hm : 0 ≤ m ∧ m < (store.K_dims 0 : Int)) (hn : 0 ≤ n ∧ n < (store.K_dims 1 : Int))
    (hs : 0 ≤ s ∧ s < (store.K_dims 2 : Int)) :
    ∃ (f : H5File) (dsK : H5DataSet),
      openFile fs name = .ok f ∧
      f.openDataSet (body ++ "/hydro_coeffs/radiation_damping/impulse_response_fun/K")
        = .ok dsK ∧
      dsK.dims = [store.K_dims 0, store.K_dims 1, store.K_dims 2] ∧
      store.flatIndex m n s = s + (store.K_dims 2 : Int) * (n + m * (store.K_dims 1 : Int)) ∧
      0 ≤ store.flatIndex m n s ∧
      store.flatIndex m n s < ((store.K_dims 0 * store.K_dims 1 * store.K_dims 2 : Nat) : Int) ∧
      store.K_matrix.length = store.K_dims 0 * store.K_dims 1 * store.K_dims 2 ∧
      store.K_matrix[(store.flatIndex m n s).toNat]?
        = some (dsK.elems (store.flatIndex m n s).toNat) ∧
      store.get_impulse_resp m n s
        = .ok (dsK.elems (store.flatIndex m n s).toNat * store.get_rho, []) ∧
      ∀ m1 n1 s1 : Int, (0 ≤ m1 ∧ m1 < (store.K_dims 0 : Int)) →
        (0 ≤ n1 ∧ n1 < (store.K_dims 1 : Int)) → (0 ≤ s1 ∧ s1 < (store.K_dims 2 : Int)) →
        store.flatIndex m1 n1 s1 = store.flatIndex m n s → m1 = m ∧ n1 = n ∧ s1 = s := by
  obtain ⟨f, dsLin, dsRho, dsG, dsK, rows, cols, k0, k1, k2, hf, _, _, _, hK, _, hdK, _, _, _,
    hKd, hKm⟩ := BodyFileInfo.read_data_inv fs name body store hload
  have hd0 : store.K_dims 0 = k0 := by rw [hKd]; rfl
  have hd1 : store.K_dims 1 = k1 := by rw [hKd]; rfl
  have hd2 : store.K_dims 2 = k2 := by rw [hKd]; rfl
  have hlen : store.K_matrix.length = store.K_dims 0 * store.K_dims 1 * store.K_dims 2 := by
    rw [hKm, data_length, H5DataSet.npoints, hdK, hd0, hd1, hd2]
    simp [Nat.mul_assoc]
  have hNi : ((store.K_dims 0 * store.K_dims 1 * store.K_dims 2 : Nat) : Int) ≤ 2147483648 := by
    exact_mod_cast hN
  have hidx : ∀ a b c : Int, (0 ≤ a ∧ a < (store.K_dims 0 : Int)) →
      (0 ≤ b ∧ b < (store.K_dims 1 : Int)) → (0 ≤ c ∧ c < (store.K_dims 2 : Int)) →
      store.flatIndex a b c
        = c + (store.K_dims 2 : Int) * (b + a * (store.K_dims 1 : Int)) := by
    intro a b c ha hb hc
    obtain ⟨p0, p1⟩ := BodyFileInfo.position_in_range store a b c ha hb hc
    exact BodyFileInfo.flatIndex_of_int store a b c (by omega) (by omega)
  obtain ⟨p0, p1⟩ := BodyFileInfo.position_in_range store m n s hm hn hs
  have hfi := hidx m n s hm hn hs
  have h0 : 0 ≤ store.flatIndex m n s := by rw [hfi]; exact p0
  have h1 : store.flatIndex m n s
      < ((store.K_dims 0 * store.K_dims 1 * store.K_dims 2 : Nat) : Int) := by
    rw [hfi]; exact p1
  have hlt : (store.flatIndex m n s).toNat < store.K_matrix.length := by
    rw [hlen]; omega
  have hget : store.K_matrix[(store.flatIndex m n s).toNat]?
      = some (dsK.elems (store.flatIndex m n s).toNat) := by
    have hlt2 := hlt
    rw [hKm, data_length] at hlt2
    rw [hKm]
    simp [H5DataSet.data, List.getElem?_range hlt2]
  refine ⟨f, dsK, hf, hK, ?_, hfi, h0, h1, hlen, hget, ?_, ?_⟩
  · rw [hdK, hd0, hd1, hd2]
  · exact BodyFileInfo.get_impulse_resp_inside store m n s _ h0 h1 hget
  · intro m1 n1 s1 hm1 hn1 hs1 heq
    rw [hidx m1 n1 s1 hm1 hn1 hs1, hfi] at heq
    obtain ⟨e1, e2⟩ := mixed_radix_inj _ _ _ _ _ hs1 hs heq
    have e3 : n1 + (store.K_dims 1 : Int) * m1 = n + (store.K_dims 1 : Int) * m := by
      linarith
    obtain ⟨e4, e5⟩ := mixed_radix_inj _ _ _ _ _ hn1 hn e3
    exact ⟨e5, e4, e1⟩

/-- The store loaded from `sphereFile` with a 6 x 6 x 1001 kernel, at the triple (5, 5, 1000). -/
theorem C2_kernel_lookup_is_rho_times_row_major_element_witness :
    (BodyFileInfo.read_data (sphereFs 6 6 1001 1001) "sphere.h5" "body1"
        = .ok (sphereStore 6 6 1001 1001) ∧
      (sphereStore 6 6 1001 1001).K_dims 0 * (sphereStore 6 6 1001 1001).K_dims 1
        * (sphereStore 6 6 1001 1001).K_dims 2 ≤ 2147483648 ∧
      ((0 : Int) ≤ 5 ∧ (5 : Int) < ((sphereStore 6 6 1001 1001).K_dims 0 : Int)) ∧
      ((0 : Int) ≤ 5 ∧ (5 : Int) < ((sphereStore 6 6 1001 1001).K_dims 1 : Int)) ∧
      ((0 : Int) ≤ 1000 ∧ (1000 : Int) < ((sphereStore 6 6 1001 1001).K_dims 2 : Int))) ∧
    (sphereStore 6 6 1001 1001).get_impulse_resp 5 5 1000
      = .ok ((((sphereStore 6 6 1001 1001).flatIndex 5 5 1000).toNat + 1 : ℚ) * 1000, []) := by
  have hl := read_data_sphere 6 6 1001 1001
  have hN : (sphereStore 6 6 1001 1001).K_dims 0 * (sphereStore 6 6 1001 1001).K_dims 1
      * (sphereStore 6 6 1001 1001).K_dims 2 ≤ 2147483648 := by
    simp [sphereStore]
  have a : (0 : Int) ≤ 5 ∧ (5 : Int) < ((sphereStore 6 6 1001 1001).K_dims 0 : Int) := by
    simp [sphereStore]
  have b : (0 : Int) ≤ 5 ∧ (5 : Int) < ((sphereStore 6 6 1001 1001).K_dims 1 : Int) := by
    simp [sphereStore]
  have c : (0 : Int) ≤ 1000 ∧ (1000 : Int) < ((sphereStore 6 6 1001 1001).K_dims 2 : Int) := by
    simp [sphereStore]
  refine ⟨⟨hl, hN, a, b, c⟩, ?_⟩
  obtain ⟨f, dsK, hf, hK, _, _, _, _, _, _, hres, _⟩ :=
    C2_kernel_lookup_is_rho_times_row_major_element _ _ _ _ hl hN 5 5 1000 a b c
  have hf2 : f = sphereFile 6 6 1001 1001 := by
    simp [openFile, sphereFs] at hf
    exact hf.symm
  subst hf2
  have hK2 : dsK = ⟨[6, 6, 1001], fun i => (i : ℚ) + 1⟩ := by
    have : ("body1" ++ "/hydro_coeffs/radiation_damping/impulse_response_fun/K" : String)
        = "body1/hydro_coeffs/radiation_damping/impulse_response_fun/K" := by decide
    rw [this] at hK
    simp [H5File.openDataSet, sphereFile] at hK
    exact hK.symm
  subst hK2
  rw [hres]
  rfl

/-- C3: for a loaded store, entry (i, j) of `get_lin_matrix()` is the file's raw entry
`raw[i * cols + j]` times `rho * g`, with `rho` and `g` read from the same file; the
accessor returns the stored matrix as it is. -/
theorem C3_lin_matrix_is_raw_times_rho_g
    (fs : String → Option H5File) (name body : String) (store : BodyFileInfo)
    (hload : BodyFileInfo.read_data fs name body = .ok store) :
    ∃ (f : H5File) (dsLin dsRho dsG : H5DataSet) (rows cols : Nat),
      openFile fs name = .ok f ∧
      f.openDataSet (body ++ "/hydro_coeffs/linear_restoring_stiffness") = .ok dsLin ∧
      f.openDataSet "simulation_parameters/rho" = .ok dsRho ∧
      f.openDataSet "simulation_parameters/g" = .ok dsG ∧
      dsLin.dims = [rows, cols] ∧
      store.get_rho = dsRho.elems 0 ∧ store.get_g = dsG.elems 0 ∧
      store.get_lin_matrix.rows = rows ∧ store.get_lin_matrix.cols = cols ∧
      (∀ i j : Nat, i < rows → j < cols →
        store.get_lin_matrix.coeff i j
          = dsLin.elems (i * cols + j) * (store.get_rho * store.get_g)) ∧
      store.get_lin_matrix = store.lin_matrix := by
  obtain ⟨f, dsLin, dsRho, dsG, dsK, rows, cols, k0, k1, k2, hf, hL, hR, hG, _, hdL, _, hr, hg,
    hlin, _, _⟩ := BodyFileInfo.read_data_inv fs name body store hload
  refine ⟨f, dsLin, dsRho, dsG, rows, cols, hf, hL, hR, hG, hdL, hr, hg, ?_, ?_, ?_, rfl⟩
  · simp [BodyFileInfo.get_lin_matrix, hlin, ChMatrixDynamic.scale, matrixOf]
  · simp [BodyFileInfo.get_lin_matrix, hlin, ChMatrixDynamic.scale, matrixOf]
  · intro i j hi hj
    have hb : i * cols + j < dsLin.npoints := by
      rw [H5DataSet.npoints, hdL]
      have : (i + 1) * cols ≤ rows * cols := Nat.mul_le_mul_right cols hi
      have : i * cols + j < (i + 1) * cols := by rw [Nat.add_mul]; omega
      simp
      omega
    simp only [BodyFileInfo.get_lin_matrix, BodyFileInfo.get_rho, BodyFileInfo.get_g]
    rw [hlin]
    simp only [ChMatrixDynamic.scale, matrixOf, hi, hj, and_self, if_true]
    congr 1
    simp [H5DataSet.data, List.getD_eq_getElem?_getD, List.getElem?_range hb]

/-- The store loaded from `sphereFile`. -/
theorem C3_lin_matrix_is_raw_times_rho_g_witness :
    BodyFileInfo.read_data (sphereFs 6 6 1001 1001) "sphere.h5" "body1"
        = .ok (sphereStore 6 6 1001 1001) ∧
    ∃ (f : H5File) (dsLin dsRho dsG : H5DataSet) (rows cols : Nat),
      openFile (sphereFs 6 6 1001 1001) "sphere.h5" = .ok f ∧
      f.openDataSet ("body1" ++ "/hydro_coeffs/linear_restoring_stiffness") = .ok dsLin ∧
      f.openDataSet "simulation_parameters/rho" = .ok dsRho ∧
      f.openDataSet "simulation_parameters/g" = .ok dsG ∧
      dsLin.dims = [rows, cols] ∧
      (sphereStore 6 6 1001 1001).get_rho = dsRho.elems 0 ∧
      (sphereStore 6 6 1001 1001).get_g = dsG.elems 0 ∧
      (sphereStore 6 6 1001 1001).get_lin_matrix.rows = rows ∧
      (sphereStore 6 6 1001 1001).get_lin_matrix.cols = cols ∧
      (∀ i j : Nat, i < rows → j < cols →
        (sphereStore 6 6 1001 1001).get_lin_matrix.coeff i j
          = dsLin.elems (i * cols + j)
            * ((sphereStore 6 6 1001 1001).get_rho * (sphereStore 6 6 1001 1001).get_g)) ∧
      (sphereStore 6 6 1001 1001).get_lin_matrix = (sphereStore 6 6 1001 1001).lin_matrix :=
  ⟨read_data_sphere 6 6 1001 1001,
   C3_lin_matrix_is_raw_times_rho_g _ _ _ _ (read_data_sphere 6 6 1001 1001)⟩

/-! ## ImpulseResponseForce: index arithmetic -/

namespace ImpulseResponseForce

theorem tmod_of_neg (k : Int) (hk : k < 0) : Int.tmod k 1001 = -((-k) % 1001) := by
  obtain ⟨m, rfl⟩ := Int.eq_negSucc_of_lt_zero hk
  have e : -(Int.negSucc m) = ((m + 1 : Nat) : Int) := rfl
  rw [e]
  rfl

/-- The C++ expression `((k % size) + size) % size` is the mathematical remainder. -/
theorem wrap_eq_emod (k : Int) : wrap k = k % 1001 := by
  have hs : (size : Int) = 1001 := rfl
  simp only [wrap, hs]
  rcases le_or_lt 0 k with hk | hk
  · have e : Int.tmod k 1001 = k % 1001 := Int.tmod_eq_emod hk (by norm_num)
    rw [e]
    have h2 : 0 ≤ k % 1001 + 1001 := by omega
    rw [Int.tmod_eq_emod h2 (by norm_num)]
    omega
  · rw [tmod_of_neg k hk]
    have h2 : 0 ≤ -(-k % 1001) + 1001 := by omega
    rw [Int.tmod_eq_emod h2 (by norm_num)]
    omega

theorem wrap_nonneg (k : Int) : 0 ≤ wrap k := by rw [wrap_eq_emod]; omega

theorem wrap_lt (k : Int) : wrap k < 1001 := by rw [wrap_eq_emod]; omega

theorem wrap_toNat_lt (k : Int) : (wrap k).toNat < size := by
  have h1 := wrap_nonneg k
  have h2 := wrap_lt k
  have hs : size = 1001 := rfl
  omega

theorem slot_lt (offset : Int) : slot offset < size := wrap_toNat_lt _

/-! ## ImpulseResponseForce: storing the velocity -/

theorem setVel_set (vh : List ChVectorN6) (k : Nat) (v : ChVectorN6) (comp : Nat) (x : ℚ)
    (hk : k < vh.length) (hc : comp < 6) :
    setVel (vh.set k v) (k : Int) comp x = .ok (vh.set k (Function.update v ⟨comp, hc⟩ x)) := by
  have h1 : vecIndex (vh.set k v) (k : Int) = .ok k := by
    simp [vecIndex, hk]
  have h2 : readAt (vh.set k v) k = .ok v := by
    simp [readAt, List.getElem?_set, hk]
  simp only [setVel, h1, ok_bind, h2, setComp6, pack_eq, dif_pos hc, writeAt, List.length_set, if_pos hk,
    List.set_set]

theorem velLoop_set (body : ChBody) (offset : Int) (vh : List ChVectorN6) (v : ChVectorN6)
    (hlen : size ≤ vh.length) :
    forLoop 3 (velBody body offset) (vh.set (slot offset) v)
      = .ok (vh.set (slot offset) (velocity body)) := by
  have hk : slot offset < vh.length := lt_of_lt_of_le (slot_lt offset) hlen
  have hw : wrap ((size : Int) + offset) = ((slot offset : Nat) : Int) := by
    simp only [slot]
    rw [Int.toNat_of_nonneg (wrap_nonneg _)]
  simp only [forLoop, forLoopFrom, velBody, hw]
  simp only [show (0 : Nat) < 3 by norm_num, show (0 + 1 : Nat) < 3 by norm_num,
    show (0 + 1 + 1 : Nat) < 3 by norm_num, dif_pos]
  simp only [bind, Except.bind]
  rw [setVel_set vh _ _ 0 _ hk (by norm_num)]
  simp only []
  rw [setVel_set vh _ _ (0 + 3) _ hk (by norm_num)]
  simp only []
  rw [setVel_set vh _ _ (0 + 1) _ hk (by norm_num)]
  simp only []
  rw [setVel_set vh _ _ (0 + 1 + 3) _ hk (by norm_num)]
  simp only []
  rw [setVel_set vh _ _ (0 + 1 + 1) _ hk (by norm_num)]
  simp only []
  rw [setVel_set vh _ _ (0 + 1 + 1 + 3) _ hk (by norm_num)]
  simp only []
  congr 2
  funext i
  fin_cases i <;> simp [Function.update, velocity, comma]

theorem velLoop_ok (body : ChBody) (offset : Int) (vh : List ChVectorN6)
    (hlen : size ≤ vh.length) :
    forLoop 3 (velBody body offset) vh = .ok (vh.set (slot offset) (velocity body)) := by
  have hk : slot offset < vh.length := lt_of_lt_of_le (slot_lt offset) hlen
  have h0 : vh.set (slot offset) (vh.get ⟨slot offset, hk⟩) = vh := by
    apply List.ext_getElem?
    intro j
    rw [List.getElem?_set]
    by_cases hj : slot offset = j
    · subst hj
      simp [hk, List.getElem?_eq_getElem hk]
    · simp [hj]
  have := velLoop_set body offset vh (vh.get ⟨slot offset, hk⟩) hlen
  rwa [h0] at this

end ImpulseResponseForce

/-! ## ImpulseResponseForce: the convolution loops -/

namespace ImpulseResponseForce

theorem get_impulse_resp_total (f : BodyFileInfo)
    (hK : f.K_dims 0 * f.K_dims 1 * f.K_dims 2 ≤ f.K_matrix.length) (m n s : Int) :
    ∃ out, f.get_impulse_resp m n s = .ok (
        (match f.get_impulse_resp m n s with
          | .ok (v, _) => v
          | .error _ => 0), out) ∧
      (out = [] ∨ out = [Event.print "out of bounds IRF\n"]) := by
  by_cases h : f.flatIndex m n s < 0 ∨
      ((f.K_dims 0 * f.K_dims 1 * f.K_dims 2 : Nat) : Int) ≤ f.flatIndex m n s
  · have e := BodyFileInfo.get_impulse_resp_outside f m n s h
    exact ⟨_, by rw [e], Or.inr rfl⟩
  · push_neg at h
    have hlt : (f.flatIndex m n s).toNat < f.K_matrix.length := by omega
    have e := BodyFileInfo.get_impulse_resp_inside f m n s _ h.1 h.2
      (List.getElem?_eq_getElem hlt)
    exact ⟨_, by rw [e], Or.inl rfl⟩

theorem kernel_spec (f : BodyFileInfo)
    (hK : f.K_dims 0 * f.K_dims 1 * f.K_dims 2 ≤ f.K_matrix.length) (r c s : Nat) :
    ∃ out, f.get_impulse_resp r c s = .ok (kernel f r c s, out) ∧
      (out = [] ∨ out = [Event.print "out of bounds IRF\n"]) :=
  get_impulse_resp_total f hK r c s

theorem getVel_ok (vh : List ChVectorN6) (k : Int) (c : Nat) (hlen : size ≤ vh.length) :
    getVel vh (wrap k) c = if c < 6 then .ok (comp6 (vh.getD (wrap k).toNat 0) c)
      else .error Fault.undefined := by
  have hk : (wrap k).toNat < vh.length := lt_of_lt_of_le (wrap_toNat_lt k) hlen
  have h1 : vecIndex vh (wrap k) = .ok (wrap k).toNat := by
    simp [vecIndex, hk, wrap_nonneg]
  have h2 : readAt vh (wrap k).toNat = .ok (vh.getD (wrap k).toNat 0) := by
    simp [readAt, List.getD_eq_getElem?_getD, List.getElem?_eq_getElem hk]
  simp only [getVel, h1, ok_bind, h2, getComp6, comp6]
  by_cases hc : c < 6 <;> simp [hc]

theorem colBody_ok (f : BodyFileInfo) (vh : List ChVectorN6) (offset : Int)
    (hK : f.K_dims 0 * f.K_dims 1 * f.K_dims 2 ≤ f.K_matrix.length)
    (hvh : size ≤ vh.length) (Q : List Event → Prop)
    (hQ : ∀ o, Q o → Q (o ++ [Event.print "out of bounds IRF\n"]))
    (r st c : Nat) (hr : r < 6) (hst : st < size) (hc : c < 6) (w : Work) (acc : ℚ)
    (hw : Frame Q w) (hacc : w.tmp_s.cell (r * size + st) = some acc) :
    ∃ w1, colBody f vh (wrap ((st : Int) + offset)) r st c w = .ok w1 ∧ Frame Q w1 ∧
      w1.currentForce = w.currentForce ∧
      w1.tmp_s.cell (r * size + st)
        = some (acc + kernel f r c st
            * comp6 (vh.getD (wrap ((st : Int) + offset)).toNat 0) c) ∧
      ∀ q, q ≠ r * size + st → w1.tmp_s.cell q = w.tmp_s.cell q := by
  obtain ⟨printed, hk, hp⟩ := kernel_spec f hK r c st
  have hs : size = 1001 := rfl
  have b1 : r * 6 * size + c * size + st < w.timeseries.cap := by
    rw [hw.capT, hs]; omega
  have b2 : r * size + st < w.tmp_s.cap := by
    rw [hw.capS, hs]; omega
  refine ⟨{ w with
      timeseries := { w.timeseries with
        cell := Function.update w.timeseries.cell (r * 6 * size + c * size + st)
          (some (kernel f r c st * comp6 (vh.getD (wrap ((st : Int) + offset)).toNat 0) c)) }
      tmp_s := { w.tmp_s with
        cell := Function.update w.tmp_s.cell (r * size + st)
          (some (acc + kernel f r c st
            * comp6 (vh.getD (wrap ((st : Int) + offset)).toNat 0) c)) }
      out := w.out ++ printed }, ?_, ?_, ?_, ?_, ?_⟩
  · simp only [colBody, hk, ok_bind, getVel_ok vh _ c hvh, if_pos hc, Buf.write, if_pos b1,
      Buf.read, Function.update_same, if_pos b2, hacc]
    rfl
  · refine ⟨hw.capT, hw.capS, ?_⟩
    rcases hp with hp | hp
    · simpa [hp] using hw.outQ
    · simpa [hp] using hQ _ hw.outQ
  · rfl
  · simp
  · intro q hq
    simp [Function.update_noteq hq]

theorem colLoop_ok (f : BodyFileInfo) (vh : List ChVectorN6) (offset : Int)
    (hK : f.K_dims 0 * f.K_dims 1 * f.K_dims 2 ≤ f.K_matrix.length)
    (hvh : size ≤ vh.length) (Q : List Event → Prop)
    (hQ : ∀ o, Q o → Q (o ++ [Event.print "out of bounds IRF\n"]))
    (r st : Nat) (hr : r < 6) (hst : st < size) (w : Work)
    (hw : Frame Q w) (hacc : w.tmp_s.cell (r * size + st) = some 0) :
    ∃ w1, forLoop 6 (colBody f vh (wrap ((st : Int) + offset)) r st) w = .ok w1 ∧ Frame Q w1 ∧
      w1.currentForce = w.currentForce ∧
      w1.tmp_s.cell (r * size + st) = some (integrand f vh offset r st) ∧
      ∀ q, q ≠ r * size + st → w1.tmp_s.cell q = w.tmp_s.cell q := by
  have key := forLoop_inv 6 (colBody f vh (wrap ((st : Int) + offset)) r st)
    (fun c w1 => Frame Q w1 ∧ w1.currentForce = w.currentForce ∧
      w1.tmp_s.cell (r * size + st)
        = some (∑ c1 ∈ Finset.range c, kernel f r c1 st
            * comp6 (vh.getD (wrap ((st : Int) + offset)).toNat 0) c1) ∧
      ∀ q, q ≠ r * size + st → w1.tmp_s.cell q = w.tmp_s.cell q)
    w ⟨hw, rfl, by simpa using hacc, fun _ _ => rfl⟩ ?_
  · obtain ⟨w1, h1, h2, h3, h4, h5⟩ := key
    exact ⟨w1, h1, h2, h3, h4, h5⟩
  · intro c w1 hc ⟨i1, i2, i3, i4⟩
    obtain ⟨w2, e1, e2, e3, e4, e5⟩ := colBody_ok f vh offset hK hvh Q hQ r st c hr hst hc w1 _ i1 i3
    refine ⟨w2, e1, e2, e3.trans i2, ?_, fun q hq => (e5 q hq).trans (i4 q hq)⟩
    rw [e4, Finset.sum_range_succ]

end ImpulseResponseForce

namespace ImpulseResponseForce

/-- One term of the trapezoidal sum. -/
theorem stBody_ok (f : BodyFileInfo) (vh : List ChVectorN6) (ts : List ℚ) (offset : Int)
    (hK : f.K_dims 0 * f.K_dims 1 * f.K_dims 2 ≤ f.K_matrix.length)
    (hvh : size ≤ vh.length) (hts : size ≤ ts.length) (Q : List Event → Prop)
    (hQ : ∀ o, Q o → Q (o ++ [Event.print "out of bounds IRF\n"]))
    (r st : Nat) (hr : r < 6) (hst : st < size) (w : Work) (hw : Frame Q w)
    (hprev : 0 < st → w.tmp_s.cell (r * size + (st - 1)) = some (integrand f vh offset r (st - 1))) :
    ∃ w1, stBody f vh ts offset r st w = .ok w1 ∧ Frame Q w1 ∧
      w1.tmp_s.cell (r * size + st) = some (integrand f vh offset r st) ∧
      w1.currentForce = (if 0 < st then
        Function.update w.currentForce ⟨r, hr⟩ (w.currentForce ⟨r, hr⟩ -
          (integrand f vh offset r (st - 1) + integrand f vh offset r st) / 2
            * (ts.getD st 0 - ts.getD (st - 1) 0))
        else w.currentForce) := by
  have hs : size = 1001 := rfl
  have b2 : r * size + st < w.tmp_s.cap := by
    rw [hw.capS, hs]; omega
  obtain ⟨w1, e1, fr1, cf1, cell1, other1⟩ := colLoop_ok f vh offset hK hvh Q hQ r st hr hst
    { w with tmp_s := { w.tmp_s with
        cell := Function.update w.tmp_s.cell (r * size + st) (some 0) } }
    ⟨hw.capT, hw.capS, hw.outQ⟩ (by simp)
  by_cases h0 : 0 < st
  · have hne : r * size + (st - 1) ≠ r * size + st := by omega
    have cprev : w1.tmp_s.cell (r * size + (st - 1))
        = some (integrand f vh offset r (st - 1)) := by
      rw [other1 _ hne]
      simp only [Function.update_noteq hne]
      exact hprev h0
    have b3 : r * size + (st - 1) < w1.tmp_s.cap := by
      rw [fr1.capS, hs]; omega
    have b4 : r * size + st < w1.tmp_s.cap := by
      rw [fr1.capS, hs]; omega
    have t1 : readAt ts st = .ok (ts.getD st 0) := by
      have : st < ts.length := by omega
      simp [readAt, List.getD_eq_getElem?_getD, List.getElem?_eq_getElem this]
    have t0 : readAt ts (st - 1) = .ok (ts.getD (st - 1) 0) := by
      have : st - 1 < ts.length := by omega
      simp [readAt, List.getD_eq_getElem?_getD, List.getElem?_eq_getElem this]
    refine ⟨{ w1 with currentForce := (Function.update w1.currentForce ⟨r, hr⟩
        (w1.currentForce ⟨r, hr⟩ -
          (integrand f vh offset r (st - 1) + integrand f vh offset r st) / 2
            * (ts.getD st 0 - ts.getD (st - 1) 0))) }, ?_, ⟨fr1.capT, fr1.capS, fr1.outQ⟩,
      cell1, ?_⟩
    · simp only [stBody, Buf.write, if_pos b2, ok_bind, e1, gt_iff_lt, if_pos h0, Buf.read,
        if_pos b3, if_pos b4, cprev, cell1, t1, t0, getComp6, setComp6, pack_eq, dif_pos hr]
      rfl
    · simp only [if_pos h0, cf1]
  · refine ⟨w1, ?_, fr1, cell1, ?_⟩
    · simp only [stBody, Buf.write, if_pos b2, ok_bind, e1, gt_iff_lt, if_neg h0]
      rfl
    · simp only [if_neg h0, cf1]

theorem stLoop_ok (f : BodyFileInfo) (vh : List ChVectorN6) (ts : List ℚ) (offset : Int)
    (hK : f.K_dims 0 * f.K_dims 1 * f.K_dims 2 ≤ f.K_matrix.length)
    (hvh : size ≤ vh.length) (hts : size ≤ ts.length) (Q : List Event → Prop)
    (hQ : ∀ o, Q o → Q (o ++ [Event.print "out of bounds IRF\n"]))
    (r : Nat) (hr : r < 6) (w : Work) (hw : Frame Q w) :
    ∃ w1, forLoop size (stBody f vh ts offset r) w = .ok w1 ∧ Frame Q w1 ∧
      w1.currentForce = Function.update w.currentForce ⟨r, hr⟩
        (w.currentForce ⟨r, hr⟩ - ∑ s ∈ Finset.Ico 1 size,
          (integrand f vh offset r (s - 1) + integrand f vh offset r s) / 2
            * (ts.getD s 0 - ts.getD (s - 1) 0)) := by
  have key := forLoop_inv size (stBody f vh ts offset r)
    (fun st w1 => Frame Q w1 ∧
      (0 < st → w1.tmp_s.cell (r * size + (st - 1)) = some (integrand f vh offset r (st - 1))) ∧
      w1.currentForce = Function.update w.currentForce ⟨r, hr⟩
        (w.currentForce ⟨r, hr⟩ - ∑ s ∈ Finset.Ico 1 st,
          (integrand f vh offset r (s - 1) + integrand f vh offset r s) / 2
            * (ts.getD s 0 - ts.getD (s - 1) 0)))
    w ⟨hw, fun h => absurd h (lt_irrefl 0), by simp⟩ ?_
  · obtain ⟨w1, h1, h2, _, h4⟩ := key
    exact ⟨w1, h1, h2, h4⟩
  · intro st w1 hst ⟨i1, i2, i3⟩
    obtain ⟨w2, e1, e2, e3, e4⟩ := stBody_ok f vh ts offset hK hvh hts Q hQ r st hr hst w1 i1 i2
    refine ⟨w2, e1, e2, fun _ => by simpa using e3, ?_⟩
    rw [e4]
    by_cases h0 : 0 < st
    · rw [if_pos h0, i3, Finset.sum_Ico_succ_top (by omega : 1 ≤ st)]
      simp only [Function.update_same, Function.update_idem, sub_sub]
    · have : st = 0 := by omega
      subst this
      rw [if_neg h0, i3]
      simp

theorem rowBody_ok (f : BodyFileInfo) (vh : List ChVectorN6) (ts : List ℚ) (offset : Int)
    (hK : f.K_dims 0 * f.K_dims 1 * f.K_dims 2 ≤ f.K_matrix.length)
    (hvh : size ≤ vh.length) (hts : size ≤ ts.length) (Q : List Event → Prop)
    (hQ : ∀ o, Q o → Q (o ++ [Event.print "out of bounds IRF\n"]))
    (r : Nat) (hr : r < 6) (w : Work) (hw : Frame Q w) :
    ∃ w1, rowBody f vh ts offset r w = .ok w1 ∧ Frame Q w1 ∧
      w1.currentForce = Function.update w.currentForce ⟨r, hr⟩ (trapezoid f vh ts offset r) := by
  obtain ⟨w1, e1, e2, e3⟩ := stLoop_ok f vh ts offset hK hvh hts Q hQ r hr
    { w with currentForce := Function.update w.currentForce ⟨r, hr⟩ 0 }
    ⟨hw.capT, hw.capS, hw.outQ⟩
  refine ⟨w1, ?_, e2, ?_⟩
  · simp only [rowBody, setComp6, pack_eq, dif_pos hr, ok_bind]
    exact e1
  · rw [e3]
    simp only [Function.update_same, Function.update_idem, trapezoid, zero_sub]

theorem rowLoop_ok (f : BodyFileInfo) (vh : List ChVectorN6) (ts : List ℚ) (offset : Int)
    (hK : f.K_dims 0 * f.K_dims 1 * f.K_dims 2 ≤ f.K_matrix.length)
    (hvh : size ≤ vh.length) (hts : size ≤ ts.length) (Q : List Event → Prop)
    (hQ : ∀ o, Q o → Q (o ++ [Event.print "out of bounds IRF\n"]))
    (w : Work) (hw : Frame Q w) :
    ∃ w1, forLoop 6 (rowBody f vh ts offset) w = .ok w1 ∧ Q w1.out ∧
      w1.currentForce = fun r => trapezoid f vh ts offset r.val := by
  have key := forLoop_inv 6 (rowBody f vh ts offset)
    (fun r w1 => Frame Q w1 ∧
      ∀ q : Fin 6, q.val < r → w1.currentForce q = trapezoid f vh ts offset q.val)
    w ⟨hw, fun q hq => absurd hq (Nat.not_lt_zero _)⟩ ?_
  · obtain ⟨w1, h1, h2, h3⟩ := key
    exact ⟨w1, h1, h2.outQ, funext fun q => h3 q q.isLt⟩
  · intro r w1 hr ⟨i1, i2⟩
    obtain ⟨w2, e1, e2, e3⟩ := rowBody_ok f vh ts offset hK hvh hts Q hQ r hr w1 i1
    refine ⟨w2, e1, e2, fun q hq => ?_⟩
    rw [e3]
    by_cases hqr : q = ⟨r, hr⟩
    · subst hqr
      simp
    · rw [Function.update_noteq hqr]
      apply i2
      have : q.val ≠ r := fun h => hqr (Fin.ext h)
      omega

/-- A recomputation runs to the end and leaves the state `recomputed`. -/
theorem convolutionIntegral_recompute (self : ImpulseResponseForce) (body : ChBody)
    (hv : self.Valid) (ht : body.ChTime ≠ self.prevTime) (Q : List Event → Prop)
    (hQ0 : Q [Event.probe "offset--"])
    (hQ : ∀ o, Q o → Q (o ++ [Event.print "out of bounds IRF\n"])) :
    ∃ out, self.convolutionIntegral body
        = .ok ((self.recomputed body).currentForce, self.recomputed body, out) ∧ Q out := by
  obtain ⟨hvh, hts, hK⟩ := hv
  have hvel := velLoop_ok body (nextOffset self.offset) self.velHistory hvh
  obtain ⟨w1, e1, e2, e3⟩ := rowLoop_ok self.fileInfo
    (self.velHistory.set (slot (nextOffset self.offset)) (velocity body)) self.timeSteps
    (nextOffset self.offset) hK (by simpa using hvh) hts Q hQ
    { currentForce := self.currentForce, timeseries := Buf.alloc (6 * 6 * size),
      tmp_s := Buf.alloc (6 * size), out := [Event.probe "offset--"] }
    ⟨rfl, rfl, hQ0⟩
  refine ⟨w1.out, ?_, e2⟩
  simp only [convolutionIntegral, if_neg ht]
  simp only [nextOffset] at hvel e1
  simp only [hvel, ok_bind, e1]
  simp only [pure, Except.pure, recomputed, nextOffset, e3]

end ImpulseResponseForce

/-! ## LinRestorForce -/

namespace LinRestorForce

theorem matrixMult_cached (self : LinRestorForce) (bobber : ChBody)
    (ht : bobber.ChTime = self.prevTime) :
    self.matrixMult bobber = .ok (self.currentForce, self, []) := by
  simp [matrixMult, ht]

theorem matrixMult_recompute (self : LinRestorForce) (bobber : ChBody)
    (h66 : self.fileInfo.get_lin_matrix.rows = 6 ∧ self.fileInfo.get_lin_matrix.cols = 6)
    (ht : bobber.ChTime ≠ self.prevTime) :
    self.matrixMult bobber
      = .ok (restoringLaw self.fileInfo.get_lin_matrix self.equil bobber.Pos bobber.RotEuler123,
          { self with
            prevTime := bobber.ChTime
            currentForce := restoringLaw self.fileInfo.get_lin_matrix self.equil bobber.Pos
              bobber.RotEuler123 },
          [Event.probe "matrixMult"]) := by
  simp only [matrixMult, if_neg ht, ChMatrixDynamic.mulVec6, if_pos h66]
  rfl

end LinRestorForce

theorem sphereStore_lin_dims :
    (sphereStore 6 6 1001 1001).get_lin_matrix.rows = 6 ∧
    (sphereStore 6 6 1001 1001).get_lin_matrix.cols = 6 := ⟨rfl, rfl⟩

/-- C4, as written, fails: after one call at time 0 with the body at its equilibrium
pose (force 0), a call at the same time 0 with the body moved to (0, 0, 2) returns the
cached zero vector, while `K * (equil - [p, e])` has first component 9810. -/
theorem C4_counterexample :
    sphereRestor.matrixMult (restAt 0 (sphereStore 6 6 1001 1001).cg)
      = .ok (fun _ => 0, sphereRestorAtZero, [Event.probe "matrixMult"]) ∧
    sphereRestorAtZero.matrixMult (restAt 0 ![0, 0, 2])
      = .ok (fun _ => 0, sphereRestorAtZero, []) ∧
    restoringLaw sphereRestorAtZero.fileInfo.get_lin_matrix sphereRestorAtZero.equil
      (restAt 0 ![0, 0, 2]).Pos (restAt 0 ![0, 0, 2]).RotEuler123 0 = 9810 := by
  refine ⟨?_, ?_, ?_⟩
  · have ht : (restAt 0 (sphereStore 6 6 1001 1001).cg).ChTime ≠ sphereRestor.prevTime := by
      simp [restAt, sphereRestor, LinRestorForce.new]
    rw [LinRestorForce.matrixMult_recompute _ _ sphereStore_lin_dims ht]
    have e : restoringLaw sphereRestor.fileInfo.get_lin_matrix sphereRestor.equil
        (restAt 0 (sphereStore 6 6 1001 1001).cg).Pos
        (restAt 0 (sphereStore 6 6 1001 1001).cg).RotEuler123 = fun _ => 0 := by
      funext i
      simp [restoringLaw, sphereRestor, LinRestorForce.new, restAt, BodyFileInfo.get_equil_cg]
    rw [e]
    rfl
  · exact LinRestorForce.matrixMult_cached _ _ rfl
  · simp [restoringLaw, sphereRestorAtZero, sphereRestor, LinRestorForce.new, restAt,
      BodyFileInfo.get_equil_cg, BodyFileInfo.get_lin_matrix, sphereStore, matrixOf,
      ChMatrixDynamic.scale, comma, Fin.sum_univ_succ, List.getD_eq_getElem?_getD,
      List.getElem?_range]
    norm_num

/-- C4 (amended): `equil` is `[cg, 0, 0, 0]` from construction on and `matrixMult` does
not change it; when the body's time differs from the cached time (which is -1 after
construction) `matrixMult` returns and caches `K * (equil - [p, e])`; when the body's
time equals the cached time it returns the cached vector, whatever `p` and `e` are. -/
theorem C4_matrixMult_law_on_new_time (lin : BodyFileInfo) (indet : ChVectorN6)
    (self : LinRestorForce) (bobber : ChBody)
    (h66 : self.fileInfo.get_lin_matrix.rows = 6 ∧ self.fileInfo.get_lin_matrix.cols = 6) :
    (LinRestorForce.new lin indet).equil = comma lin.get_equil_cg (fun _ => 0) ∧
    (LinRestorForce.new lin indet).prevTime = -1 ∧
    (bobber.ChTime ≠ self.prevTime →
      self.matrixMult bobber
        = .ok (restoringLaw self.fileInfo.get_lin_matrix self.equil bobber.Pos
                bobber.RotEuler123,
            { self with
              prevTime := bobber.ChTime
              currentForce := restoringLaw self.fileInfo.get_lin_matrix self.equil bobber.Pos
                bobber.RotEuler123 },
            [Event.probe "matrixMult"])) ∧
    (bobber.ChTime = self.prevTime →
      self.matrixMult bobber = .ok (self.currentForce, self, [])) :=
  ⟨rfl, rfl, LinRestorForce.matrixMult_recompute self bobber h66,
    LinRestorForce.matrixMult_cached self bobber⟩

/-- The restoring force object on `sphereStore`, first called at time 0. -/
theorem C4_matrixMult_law_on_new_time_witness :
    (sphereRestor.fileInfo.get_lin_matrix.rows = 6 ∧
      sphereRestor.fileInfo.get_lin_matrix.cols = 6) ∧
    sphereRestor.matrixMult (restAt 0 ![0, 0, 2])
      = .ok (restoringLaw sphereRestor.fileInfo.get_lin_matrix sphereRestor.equil
              (restAt 0 ![0, 0, 2]).Pos (restAt 0 ![0, 0, 2]).RotEuler123,
          { sphereRestor with
            prevTime := (restAt 0 ![0, 0, 2]).ChTime
            currentForce := restoringLaw sphereRestor.fileInfo.get_lin_matrix
              sphereRestor.equil (restAt 0 ![0, 0, 2]).Pos (restAt 0 ![0, 0, 2]).RotEuler123 },
          [Event.probe "matrixMult"]) :=
  ⟨sphereStore_lin_dims,
   (C4_matrixMult_law_on_new_time (sphereStore 6 6 1001 1001) (fun _ => 0) sphereRestor
      (restAt 0 ![0, 0, 2]) sphereStore_lin_dims).2.2.1
     (by simp [restAt, sphereRestor, LinRestorForce.new])⟩

namespace LinRestorForce

theorem getComp6_eq (v : ChVectorN6) (i : Int) (hi : 0 ≤ i ∧ i < 6) :
    getComp6 v i.toNat = .ok (comp6 v i.toNat) := by
  have : i.toNat < 6 := by omega
  simp [getComp6, comp6, this]

theorem coordinateFunc_outside (self : LinRestorForce) (bobber : ChBody) (i : Int)
    (hi : ¬ (0 ≤ i ∧ i < 6)) :
    self.coordinateFunc bobber i = .ok (0, self, [Event.print "wrong index\n"]) := by
  simp only [coordinateFunc, ge_iff_le, if_neg hi]

theorem coordinateFunc_cached (self : LinRestorForce) (bobber : ChBody) (i : Int)
    (hi : 0 ≤ i ∧ i < 6) (ht : bobber.ChTime = self.prevTime) :
    self.coordinateFunc bobber i = .ok (comp6 self.currentForce i.toNat, self, []) := by
  simp only [coordinateFunc, ge_iff_le, if_pos hi, matrixMult_cached self bobber ht,
    getComp6_eq _ i hi]

theorem coordinateFunc_recompute (self : LinRestorForce) (bobber : ChBody) (i : Int)
    (hi : 0 ≤ i ∧ i < 6)
    (h66 : self.fileInfo.get_lin_matrix.rows = 6 ∧ self.fileInfo.get_lin_matrix.cols = 6)
    (ht : bobber.ChTime ≠ self.prevTime) :
    self.coordinateFunc bobber i
      = .ok (comp6 (restoringLaw self.fileInfo.get_lin_matrix self.equil bobber.Pos
                bobber.RotEuler123) i.toNat,
          { self with
            prevTime := bobber.ChTime
            currentForce := restoringLaw self.fileInfo.get_lin_matrix self.equil bobber.Pos
              bobber.RotEuler123 },
          [Event.probe "matrixMult"]) := by
  simp only [coordinateFunc, ge_iff_le, if_pos hi, matrixMult_recompute self bobber h66 ht,
    getComp6_eq _ i hi]

/-- Queries at the cached time are answered from the cache. -/
theorem queries_cached (qs : List (ChBody × Int)) (self : LinRestorForce)
    (hq : ∀ q ∈ qs, q.1.ChTime = self.prevTime ∧ 0 ≤ q.2 ∧ q.2 < 6) :
    self.queries qs
      = .ok (qs.map (fun q => comp6 self.currentForce q.2.toNat), self, []) := by
  induction qs with
  | nil => rfl
  | cons q rest ih =>
    have h1 := hq q (List.mem_cons_self _ _)
    have h2 := ih (fun q' hq' => hq q' (List.mem_cons_of_mem _ hq'))
    simp only [queries, coordinateFunc_cached self q.1 q.2 h1.2 h1.1, h2, List.map_cons,
      List.append_nil]

end LinRestorForce

/-- C5: for queries `coordinateFunc(i)`, `i` in [0, 6), made while the body's time stays
at one value `t`, every call returns component `i` of one vector (the force cached in
the final state) and `get_lin_matrix() * currentForce` is executed at most once. -/
theorem C5_queries_at_one_time_share_one_multiply (self : LinRestorForce) (t : ℚ)
    (qs : List (ChBody × Int))
    (h66 : self.fileInfo.get_lin_matrix.rows = 6 ∧ self.fileInfo.get_lin_matrix.cols = 6)
    (hq : ∀ q ∈ qs, q.1.ChTime = t ∧ 0 ≤ q.2 ∧ q.2 < 6) :
    ∃ (xs : List ℚ) (self1 : LinRestorForce) (out : List Event),
      self.queries qs = .ok (xs, self1, out) ∧
      xs = qs.map (fun q => comp6 self1.currentForce q.2.toNat) ∧
      out.count (Event.probe "matrixMult") ≤ 1 := by
  by_cases ht : t = self.prevTime
  · subst ht
    exact ⟨_, _, _, LinRestorForce.queries_cached qs self hq, rfl, by simp⟩
  · cases qs with
    | nil => exact ⟨[], self, [], rfl, rfl, by simp⟩
    | cons q rest =>
      have h1 := hq q (List.mem_cons_self _ _)
      have hne : q.1.ChTime ≠ self.prevTime := by rw [h1.1]; exact ht
      have e1 := LinRestorForce.coordinateFunc_recompute self q.1 q.2 h1.2 h66 hne
      have e2 := LinRestorForce.queries_cached rest
        { self with
          prevTime := q.1.ChTime
          currentForce := restoringLaw self.fileInfo.get_lin_matrix self.equil q.1.Pos
            q.1.RotEuler123 }
        (fun q' hq' => by
          have := hq q' (List.mem_cons_of_mem _ hq')
          exact ⟨by rw [this.1, h1.1], this.2⟩)
      have e3 : self.queries (q :: rest)
          = .ok (comp6 (restoringLaw self.fileInfo.get_lin_matrix self.equil q.1.Pos
                  q.1.RotEuler123) q.2.toNat
                :: rest.map (fun q' =>
                  comp6 (restoringLaw self.fileInfo.get_lin_matrix self.equil q.1.Pos
                    q.1.RotEuler123) q'.2.toNat),
              { self with
                prevTime := q.1.ChTime
                currentForce := restoringLaw self.fileInfo.get_lin_matrix self.equil q.1.Pos
                  q.1.RotEuler123 },
              [Event.probe "matrixMult"] ++ []) := by
        simp only [LinRestorForce.queries, e1, e2]
      exact ⟨_, _, _, e3, by simp, by simp⟩

/-- Three queries on `sphereRestor` while the body stays at time 0. -/
theorem C5_queries_at_one_time_share_one_multiply_witness :
    ((sphereRestor.fileInfo.get_lin_matrix.rows = 6 ∧
        sphereRestor.fileInfo.get_lin_matrix.cols = 6) ∧
      ∀ q ∈ [(restAt 0 ![0, 0, 2], (0 : Int)), (restAt 0 ![0, 0, 2], 5),
          (restAt 0 ![1, 0, 2], 0)],
        q.1.ChTime = 0 ∧ 0 ≤ q.2 ∧ q.2 < 6) ∧
    ∃ (xs : List ℚ) (self1 : LinRestorForce) (out : List Event),
      sphereRestor.queries [(restAt 0 ![0, 0, 2], (0 : Int)), (restAt 0 ![0, 0, 2], 5),
          (restAt 0 ![1, 0, 2], 0)] = .ok (xs, self1, out) ∧
      xs = [(restAt 0 ![0, 0, 2], (0 : Int)), (restAt 0 ![0, 0, 2], 5),
          (restAt 0 ![1, 0, 2], 0)].map (fun q => comp6 self1.currentForce q.2.toNat) ∧
      out.count (Event.probe "matrixMult") ≤ 1 := by
  have hq : ∀ q ∈ [(restAt 0 ![0, 0, 2], (0 : Int)), (restAt 0 ![0, 0, 2], 5),
      (restAt 0 ![1, 0, 2], 0)], q.1.ChTime = 0 ∧ 0 ≤ q.2 ∧ q.2 < 6 := by
    intro q hq
    simp only [List.mem_cons, List.mem_singleton, List.not_mem_nil, or_false] at hq
    rcases hq with rfl | rfl | rfl <;> simp [restAt]
  exact ⟨⟨sphereStore_lin_dims, hq⟩,
    C5_queries_at_one_time_share_one_multiply sphereRestor 0 _ sphereStore_lin_dims hq⟩

/-! ## ImpulseResponseForce: construction -/

namespace ImpulseResponseForce

theorem fill_ok {α : Type} (n : Nat) (v : α) (vh : List α) (h : n ≤ vh.length) :
    forLoop n (fun i vh => writeAt vh i v) vh = .ok (List.replicate n v ++ vh.drop n) := by
  have key := forLoop_inv n (fun i vh => writeAt vh i v)
    (fun i w => i ≤ n → w = List.replicate i v ++ vh.drop i) vh (by simp) ?_
  · obtain ⟨w, hw, hI⟩ := key
    rw [hw, hI (Nat.le_refl n)]
  · intro i w hi hI
    have hw := hI (by omega)
    have hl : i < w.length := by
      rw [hw]; simp; omega
    refine ⟨w.set i v, by simp [writeAt, hl], fun _ => ?_⟩
    rw [hw]
    apply List.ext_getElem?
    intro k
    simp only [List.getElem?_set, List.getElem?_append, List.length_replicate,
      List.getElem?_replicate, List.length_append, List.length_drop, List.getElem?_drop]
    by_cases hk : k < i
    · have : i ≠ k := by omega
      simp [hk, this, show k < i + 1 by omega]
    · by_cases hk2 : k = i
      · subst hk2
        simp
        omega
      · have h1 : ¬ k < i + 1 := by omega
        have h2 : i ≠ k := by omega
        simp only [hk, h1, h2, if_false]
        congr 1
        omega

theorem forLoopFrom_append {σ : Type} (body : Nat → σ → Except Fault σ) (a b : Nat) :
    ∀ (i : Nat) (s : σ), forLoopFrom body (a + b) i s =
      match forLoopFrom body a i s with
      | .ok s1 => forLoopFrom body b (i + a) s1
      | .error e => .error e := by
  induction a with
  | zero => intro i s; simp [forLoopFrom]
  | succ n ih =>
    intro i s
    have e : n + 1 + b = (n + b) + 1 := by omega
    rw [e]
    simp only [forLoopFrom]
    cases hb : body i s with
    | error e => rfl
    | ok s1 =>
      simp only []
      rw [ih (i + 1) s1]
      have e2 : i + 1 + n = i + (n + 1) := by omega
      rw [e2]

theorem fill_fault {α : Type} (n : Nat) (v : α) (vh : List α) (h : vh.length < n) :
    forLoop n (fun i vh => writeAt vh i v) vh = .error Fault.undefined := by
  obtain ⟨b, hb⟩ : ∃ b, n = vh.length + (b + 1) := ⟨n - vh.length - 1, by omega⟩
  have h1 := fill_ok vh.length v vh (Nat.le_refl _)
  simp only [forLoop] at h1 ⊢
  rw [hb, forLoopFrom_append, h1]
  simp [forLoopFrom, writeAt]

theorem zeroLoop (a b : ChVectorN6) :
    forLoop 6 (fun i (p : ChVectorN6 × ChVectorN6) => do
      let temp ← setComp6 p.1 i 0
      let currentForce ← setComp6 p.2 i 0
      pure (temp, currentForce)) (a, b) = .ok (fun _ => 0, fun _ => 0) := by
  simp only [forLoop, forLoopFrom, setComp6, pack_eq, bind, Except.bind, pure, Except.pure]
  simp only [show (0 : Nat) < 6 by norm_num, show (0 + 1 : Nat) < 6 by norm_num,
    show (0 + 1 + 1 : Nat) < 6 by norm_num, show (0 + 1 + 1 + 1 : Nat) < 6 by norm_num,
    show (0 + 1 + 1 + 1 + 1 : Nat) < 6 by norm_num,
    show (0 + 1 + 1 + 1 + 1 + 1 : Nat) < 6 by norm_num, dif_pos]
  congr 2
  · funext i; fin_cases i <;> simp [Function.update]
  · funext i; fin_cases i <;> simp [Function.update]

/-- The constructor succeeds when the kernel has at least 1001 steps. -/
theorem new_ok (file : BodyFileInfo) (indet : Nat → ChVectorN6) (indetForce indetTemp : ChVectorN6)
    (h : 1001 ≤ file.K_dims 2) :
    new file indet indetForce indetTemp = .ok
      { fileInfo := file
        velHistory := List.replicate 1001 (fun _ => 0)
          ++ ((List.range (file.K_dims 2)).map indet).drop 1001
        timeSteps := file.timesteps
        currentForce := fun _ => 0
        offset := 0
        prevTime := -1 } := by
  have hz := zeroLoop indetTemp indetForce
  simp only [new, BodyFileInfo.get_K_dims, Int.toNat_ofNat, BodyFileInfo.get_times]
  simp only [bind, Except.bind] at hz ⊢
  rw [hz]
  simp only []
  rw [fill_ok 1001 _ _ (by simpa using h)]
  rfl

/-- The constructor writes outside `velHistory` when the kernel has fewer than 1001 steps. -/
theorem new_fault (file : BodyFileInfo) (indet : Nat → ChVectorN6)
    (indetForce indetTemp : ChVectorN6) (h : file.K_dims 2 < 1001) :
    new file indet indetForce indetTemp = .error Fault.undefined := by
  have hz := zeroLoop indetTemp indetForce
  simp only [new, BodyFileInfo.get_K_dims, Int.toNat_ofNat, BodyFileInfo.get_times]
  simp only [bind, Except.bind] at hz ⊢
  rw [hz]
  simp only []
  rw [fill_fault 1001 _ _ (by simpa using h)]

end ImpulseResponseForce

/-! ## ImpulseResponseForce: calls -/

namespace ImpulseResponseForce

theorem sphereIRF_valid : sphereIRF.Valid := by
  refine ⟨?_, ?_, ?_⟩
  · show 1001 ≤ (List.replicate 1001 (fun _ => (0 : ℚ)) : List ChVectorN6).length
    rw [List.length_replicate]
  · simp only [sphereIRF, sphereStore, List.length_map, List.length_range, size]
    exact le_refl _
  · simp only [sphereIRF, sphereStore, List.length_map, List.length_range]
    exact le_refl _

theorem new_sphere (indet : Nat → ChVectorN6) (indetForce indetTemp : ChVectorN6) :
    new (sphereStore 6 6 1001 1001) indet indetForce indetTemp = .ok sphereIRF := by
  rw [new_ok _ _ _ _ (show 1001 ≤ (sphereStore 6 6 1001 1001).K_dims 2 from le_refl _)]
  have e : (List.map indet (List.range ((sphereStore 6 6 1001 1001).K_dims 2))).drop 1001 = [] := by
    apply List.drop_of_length_le
    rw [List.length_map, List.length_range]
    exact le_refl _
  rw [e, List.append_nil]
  rfl

theorem convolutionIntegral_cached (self : ImpulseResponseForce) (body : ChBody)
    (ht : body.ChTime = self.prevTime) :
    self.convolutionIntegral body = .ok (self.currentForce, self, []) := by
  simp [convolutionIntegral, ht]

theorem recomputed_valid (self : ImpulseResponseForce) (body : ChBody) (hv : self.Valid) :
    (self.recomputed body).Valid := by
  obtain ⟨h1, h2, h3⟩ := hv
  exact ⟨by simpa [recomputed] using h1, h2, h3⟩

theorem conv_coordinateFunc_outside (self : ImpulseResponseForce) (body : ChBody) (i : Int)
    (hi : ¬ (0 ≤ i ∧ i < 6)) :
    self.coordinateFunc body i = .ok (0, self, [Event.print "wrong index\n"]) := by
  simp only [coordinateFunc, ge_iff_le, if_neg hi]

theorem conv_coordinateFunc_cached (self : ImpulseResponseForce) (body : ChBody) (i : Int)
    (hi : 0 ≤ i ∧ i < 6) (ht : body.ChTime = self.prevTime) :
    self.coordinateFunc body i = .ok (comp6 self.currentForce i.toNat, self, []) := by
  simp only [coordinateFunc, ge_iff_le, if_pos hi, convolutionIntegral_cached self body ht,
    LinRestorForce.getComp6_eq _ i hi]

theorem conv_coordinateFunc_recompute (self : ImpulseResponseForce) (body : ChBody) (i : Int)
    (hi : 0 ≤ i ∧ i < 6) (hv : self.Valid) (ht : body.ChTime ≠ self.prevTime) :
    ∃ out, self.coordinateFunc body i
        = .ok (comp6 (self.recomputed body).currentForce i.toNat, self.recomputed body, out) ∧
      out.count (Event.probe "offset--") = 1 := by
  obtain ⟨out, e, hc⟩ := convolutionIntegral_recompute self body hv ht
    (fun o => o.count (Event.probe "offset--") = 1) (by simp)
    (fun o ho => by simpa using ho)
  refine ⟨out, ?_, hc⟩
  simp only [coordinateFunc, ge_iff_le, if_pos hi, e, LinRestorForce.getComp6_eq _ i hi]

end ImpulseResponseForce

/-- A recomputation of `convolutionIntegral` (body time different from the cached time)
runs to the end; the offset and `velHistory` it leaves are those after this step's
velocity has been written, and every row `r` of the returned and cached force is the
trapezoidal sum over the lags `s = 1 .. 1000` of the literal window `size = 1001`,
whatever the kernel's step count and whatever the force cached before. -/
theorem recomputation_is_trapezoid_over_literal_window (self : ImpulseResponseForce)
    (body : ChBody) (hv : self.Valid) (ht : body.ChTime ≠ self.prevTime) :
    ∃ (self1 : ImpulseResponseForce) (out : List Event),
      self.convolutionIntegral body = .ok (self1.currentForce, self1, out) ∧
      self1.prevTime = body.ChTime ∧
      self1.offset = ImpulseResponseForce.nextOffset self.offset ∧
      self1.velHistory
        = self.velHistory.set (ImpulseResponseForce.slot self1.offset)
            (ImpulseResponseForce.velocity body) ∧
      ∀ r : Fin 6, self1.currentForce r =
        - ∑ s ∈ Finset.Ico 1 ImpulseResponseForce.size,
            ((∑ c ∈ Finset.range 6, ImpulseResponseForce.kernel self.fileInfo r c (s - 1)
                * comp6 (self1.velHistory.getD
                    (ImpulseResponseForce.wrap (((s - 1 : Nat) : Int) + self1.offset)).toNat 0) c)
              + (∑ c ∈ Finset.range 6, ImpulseResponseForce.kernel self.fileInfo r c s
                * comp6 (self1.velHistory.getD
                    (ImpulseResponseForce.wrap ((s : Int) + self1.offset)).toNat 0) c)) / 2
            * (self.timeSteps.getD s 0 - self.timeSteps.getD (s - 1) 0) := by
  obtain ⟨out, e, _⟩ := ImpulseResponseForce.convolutionIntegral_recompute self body hv ht
    (fun _ => True) trivial (fun _ _ => trivial)
  exact ⟨self.recomputed body, out, e, rfl, rfl, rfl, fun r => rfl⟩

/-- C10: an index outside [0, 6) makes both `coordinateFunc` functions print the
diagnostic and return 0 with the object unchanged; an index in [0, 6) makes them return
component `i` of the vector `matrixMult()` / `convolutionIntegral()` returns, together
with the state and output of that call. -/
theorem C10_coordinateFunc_index_policy (lr : LinRestorForce) (irf : ImpulseResponseForce)
    (body : ChBody) (i : Int)
    (h66 : lr.fileInfo.get_lin_matrix.rows = 6 ∧ lr.fileInfo.get_lin_matrix.cols = 6)
    (hv : irf.Valid) :
    ((i < 0 ∨ 6 ≤ i) →
      lr.coordinateFunc body i = .ok (0, lr, [Event.print "wrong index\n"]) ∧
      irf.coordinateFunc body i = .ok (0, irf, [Event.print "wrong index\n"])) ∧
    ((0 ≤ i ∧ i < 6) →
      (∃ (F : ChVectorN6) (lr1 : LinRestorForce) (out : List Event),
        lr.matrixMult body = .ok (F, lr1, out) ∧
        lr.coordinateFunc body i = .ok (comp6 F i.toNat, lr1, out)) ∧
      (∃ (F : ChVectorN6) (irf1 : ImpulseResponseForce) (out : List Event),
        irf.convolutionIntegral body = .ok (F, irf1, out) ∧
        irf.coordinateFunc body i = .ok (comp6 F i.toNat, irf1, out))) := by
  refine ⟨fun hi => ?_, fun hi => ⟨?_, ?_⟩⟩
  · have hn : ¬ (0 ≤ i ∧ i < 6) := by omega
    exact ⟨LinRestorForce.coordinateFunc_outside lr body i hn,
      ImpulseResponseForce.conv_coordinateFunc_outside irf body i hn⟩
  · by_cases ht : body.ChTime = lr.prevTime
    · exact ⟨_, _, _, LinRestorForce.matrixMult_cached lr body ht,
        LinRestorForce.coordinateFunc_cached lr body i hi ht⟩
    · exact ⟨_, _, _, LinRestorForce.matrixMult_recompute lr body h66 ht,
        LinRestorForce.coordinateFunc_recompute lr body i hi h66 ht⟩
  · by_cases ht : body.ChTime = irf.prevTime
    · exact ⟨_, _, _, ImpulseResponseForce.convolutionIntegral_cached irf body ht,
        ImpulseResponseForce.conv_coordinateFunc_cached irf body i hi ht⟩
    · obtain ⟨out, e, _⟩ := ImpulseResponseForce.convolutionIntegral_recompute irf body hv ht
        (fun _ => True) trivial (fun _ _ => trivial)
      refine ⟨_, _, out, e, ?_⟩
      simp only [ImpulseResponseForce.coordinateFunc, ge_iff_le, if_pos hi, e,
        LinRestorForce.getComp6_eq _ i hi]

/-- The two objects built on `sphereStore`, queried with the index 7. -/
theorem C10_coordinateFunc_index_policy_witness :
    ((sphereRestor.fileInfo.get_lin_matrix.rows = 6 ∧
        sphereRestor.fileInfo.get_lin_matrix.cols = 6) ∧ sphereIRF.Valid ∧
      ((7 : Int) < 0 ∨ (6 : Int) ≤ 7)) ∧
    sphereRestor.coordinateFunc (movingAt 0 1) 7
      = .ok (0, sphereRestor, [Event.print "wrong index\n"]) ∧
    sphereIRF.coordinateFunc (movingAt 0 1) 7
      = .ok (0, sphereIRF, [Event.print "wrong index\n"]) :=
  ⟨⟨sphereStore_lin_dims, ImpulseResponseForce.sphereIRF_valid, Or.inr (by norm_num)⟩,
   (C10_coordinateFunc_index_policy sphereRestor sphereIRF (movingAt 0 1) 7
      sphereStore_lin_dims ImpulseResponseForce.sphereIRF_valid).1 (Or.inr (by norm_num))⟩

/-! ## ImpulseResponseForce: sequences of queries -/

namespace ImpulseResponseForce

theorem forall₂_of_mem {α β : Type} {R S : α → β → Prop} {l1 : List α} {l2 : List β}
    (h : List.Forall₂ R l1 l2) (himp : ∀ a ∈ l1, ∀ b, R a b → S a b) :
    List.Forall₂ S l1 l2 := by
  induction h with
  | nil => exact List.Forall₂.nil
  | cons hab _ ih =>
    exact List.Forall₂.cons (himp _ (List.mem_cons_self _ _) _ hab)
      (ih (fun a ha b hR => himp a (List.mem_cons_of_mem _ ha) b hR))

/-- Queries with non-decreasing times, none earlier than the cached time. -/
theorem queries_from_cached_time (qs : List (ChBody × Int)) :
    ∀ (self : ImpulseResponseForce), self.Valid →
      qs.Pairwise (fun a b => a.1.ChTime ≤ b.1.ChTime) →
      (∀ q ∈ qs, self.prevTime ≤ q.1.ChTime) →
      ∃ (xs : List ℚ) (self1 : ImpulseResponseForce) (out : List Event),
        self.queries qs = .ok (xs, self1, out) ∧
        out.count (Event.probe "offset--")
          ≤ (((qs.map (fun q => q.1.ChTime)).toFinset).erase self.prevTime).card ∧
        ∀ t : ℚ, ∃ F : ChVectorN6, (self.prevTime = t → F = self.currentForce) ∧
          List.Forall₂ (fun q x => (0 ≤ q.2 ∧ q.2 < 6) → q.1.ChTime = t →
            x = comp6 F q.2.toNat) qs xs := by
  induction qs with
  | nil =>
    intro self _ _ _
    exact ⟨[], self, [], rfl, by simp, fun t => ⟨self.currentForce, fun _ => rfl, List.Forall₂.nil⟩⟩
  | cons q rest ih =>
    intro self hv hsorted hlow
    rw [List.pairwise_cons] at hsorted
    obtain ⟨hq, hrest⟩ := hsorted
    have hlowrest : ∀ q' ∈ rest, self.prevTime ≤ q'.1.ChTime :=
      fun q' hq' => hlow q' (List.mem_cons_of_mem _ hq')
    have hmono : ((rest.map (fun q => q.1.ChTime)).toFinset.erase self.prevTime).card
        ≤ ((((q :: rest).map (fun q => q.1.ChTime)).toFinset).erase self.prevTime).card := by
      apply Finset.card_le_card
      apply Finset.erase_subset_erase
      simp only [List.map_cons, List.toFinset_cons]
      exact Finset.subset_insert _ _
    by_cases hi : 0 ≤ q.2 ∧ q.2 < 6
    · by_cases ht : q.1.ChTime = self.prevTime
      · -- answered from the cache
        obtain ⟨xs, self1, out, e, hc, hF⟩ := ih self hv hrest hlowrest
        refine ⟨comp6 self.currentForce q.2.toNat :: xs, self1, [] ++ out, ?_, ?_, ?_⟩
        · simp only [queries, conv_coordinateFunc_cached self q.1 q.2 hi ht, e]
        · simpa using le_trans hc hmono
        · intro t
          obtain ⟨F, hF1, hF2⟩ := hF t
          refine ⟨F, hF1, List.Forall₂.cons ?_ hF2⟩
          intro _ hqt
          rw [hF1 (by rw [← ht, hqt])]
      · -- recomputation
        obtain ⟨out1, e1, hc1⟩ := conv_coordinateFunc_recompute self q.1 q.2 hi hv ht
        have hlt : self.prevTime < q.1.ChTime :=
          lt_of_le_of_ne (hlow q (List.mem_cons_self _ _)) (Ne.symm ht)
        obtain ⟨xs, self1, out, e, hc, hF⟩ := ih (self.recomputed q.1)
          (recomputed_valid self q.1 hv) hrest (fun q' hq' => hq q' hq')
        refine ⟨comp6 (self.recomputed q.1).currentForce q.2.toNat :: xs, self1, out1 ++ out,
          ?_, ?_, ?_⟩
        · simp only [queries, e1, e]
        · rw [List.count_append, hc1]
          have hp : self.prevTime ∉ ((q :: rest).map (fun q => q.1.ChTime)).toFinset := by
            simp only [List.mem_toFinset, List.mem_map, not_exists, not_and]
            intro q' hq' heq
            have := hlow q' hq'
            rcases List.mem_cons.1 hq' with rfl | hmem
            · exact absurd heq (ne_of_gt hlt)
            · have := hq q' hmem
              rw [heq] at this
              exact absurd (lt_of_lt_of_le hlt this) (lt_irrefl _)
          rw [Finset.erase_eq_of_not_mem hp]
          simp only [List.map_cons, List.toFinset_cons]
          have hc2 : (((rest.map (fun q => q.1.ChTime)).toFinset).erase q.1.ChTime).card
              ≤ (insert q.1.ChTime (rest.map (fun q => q.1.ChTime)).toFinset).card - 1 := by
            rw [← Finset.erase_insert_eq_erase, Finset.card_erase_of_mem (Finset.mem_insert_self _ _)]
          have hpos : 0 < (insert q.1.ChTime (rest.map (fun q => q.1.ChTime)).toFinset).card :=
            Finset.card_pos.2 ⟨_, Finset.mem_insert_self _ _⟩
          have hc3 : List.count (Event.probe "offset--") out
              ≤ (((rest.map (fun q => q.1.ChTime)).toFinset).erase q.1.ChTime).card := hc
          omega
        · intro t
          by_cases htq : q.1.ChTime = t
          · obtain ⟨F, hF1, hF2⟩ := hF t
            have hFe : F = (self.recomputed q.1).currentForce := hF1 htq
            refine ⟨F, fun hp => absurd (hp.trans htq.symm) (Ne.symm ht),
              List.Forall₂.cons (fun _ _ => by rw [hFe]) hF2⟩
          · by_cases hpt : self.prevTime = t
            · obtain ⟨F, _, hF2⟩ := hF t
              refine ⟨self.currentForce, fun _ => rfl,
                List.Forall₂.cons (fun _ h => absurd h htq) ?_⟩
              apply forall₂_of_mem hF2
              intro q' hq' x _ _ hqt
              have := hq q' hq'
              rw [hqt, ← hpt] at this
              exact absurd (lt_of_lt_of_le hlt this) (lt_irrefl _)
            · obtain ⟨F, _, hF2⟩ := hF t
              exact ⟨F, fun h => absurd h hpt, List.Forall₂.cons (fun _ h => absurd h htq) hF2⟩
    · -- index outside [0, 6)
      obtain ⟨xs, self1, out, e, hc, hF⟩ := ih self hv hrest hlowrest
      refine ⟨0 :: xs, self1, [Event.print "wrong index\n"] ++ out, ?_, ?_, ?_⟩
      · simp only [queries, conv_coordinateFunc_outside self q.1 q.2 hi, e]
      · rw [List.count_append]
        have : List.count (Event.probe "offset--") [Event.print "wrong index\n"] = 0 := by
          simp
        rw [this]
        simpa using le_trans hc hmono
      · intro t
        obtain ⟨F, hF1, hF2⟩ := hF t
        exact ⟨F, hF1, List.Forall₂.cons (fun h => absurd h hi) hF2⟩

end ImpulseResponseForce

/-- C7: for `coordinateFunc` queries with non-decreasing body times, all calls return,
the statement `offset--` (and with it the velocity write) is executed at most as often
as there are distinct times among the queries, and for every time `t` the queries made
at `t` with an index in [0, 6) return components of one vector `F`. -/
theorem C7_one_recomputation_per_distinct_time (self : ImpulseResponseForce)
    (qs : List (ChBody × Int)) (hv : self.Valid)
    (hsorted : qs.Pairwise (fun a b => a.1.ChTime ≤ b.1.ChTime)) :
    ∃ (xs : List ℚ) (self1 : ImpulseResponseForce) (out : List Event),
      self.queries qs = .ok (xs, self1, out) ∧
      out.count (Event.probe "offset--") ≤ ((qs.map (fun q => q.1.ChTime)).toFinset).card ∧
      ∀ t : ℚ, ∃ F : ChVectorN6,
        List.Forall₂ (fun q x => (0 ≤ q.2 ∧ q.2 < 6) → q.1.ChTime = t →
          x = comp6 F q.2.toNat) qs xs := by
  induction qs with
  | nil => exact ⟨[], self, [], rfl, by simp, fun _ => ⟨self.currentForce, List.Forall₂.nil⟩⟩
  | cons q rest ih =>
    rw [List.pairwise_cons] at hsorted
    obtain ⟨hq, hrest⟩ := hsorted
    have hmono : ((rest.map (fun q => q.1.ChTime)).toFinset).card
        ≤ (((q :: rest).map (fun q => q.1.ChTime)).toFinset).card := by
      apply Finset.card_le_card
      simp only [List.map_cons, List.toFinset_cons]
      exact Finset.subset_insert _ _
    by_cases hi : 0 ≤ q.2 ∧ q.2 < 6
    · by_cases ht : q.1.ChTime = self.prevTime
      · obtain ⟨xs, self1, out, e, hc, hF⟩ :=
          ImpulseResponseForce.queries_from_cached_time rest self hv hrest
            (fun q' hq' => by rw [← ht]; exact hq q' hq')
        refine ⟨comp6 self.currentForce q.2.toNat :: xs, self1, [] ++ out, ?_, ?_, ?_⟩
        · simp only [ImpulseResponseForce.queries,
            ImpulseResponseForce.conv_coordinateFunc_cached self q.1 q.2 hi ht, e]
        · have := Finset.card_le_card
            (Finset.erase_subset self.prevTime (rest.map (fun q => q.1.ChTime)).toFinset)
          simpa using le_trans hc (le_trans this hmono)
        · intro t
          obtain ⟨F, hF1, hF2⟩ := hF t
          refine ⟨F, List.Forall₂.cons ?_ hF2⟩
          intro _ hqt
          rw [hF1 (by rw [← ht, hqt])]
      · obtain ⟨out1, e1, hc1⟩ :=
          ImpulseResponseForce.conv_coordinateFunc_recompute self q.1 q.2 hi hv ht
        obtain ⟨xs, self1, out, e, hc, hF⟩ :=
          ImpulseResponseForce.queries_from_cached_time rest (self.recomputed q.1)
            (ImpulseResponseForce.recomputed_valid self q.1 hv) hrest (fun q' hq' => hq q' hq')
        refine ⟨comp6 (self.recomputed q.1).currentForce q.2.toNat :: xs, self1, out1 ++ out,
          ?_, ?_, ?_⟩
        · simp only [ImpulseResponseForce.queries, e1, e]
        · rw [List.count_append, hc1]
          simp only [List.map_cons, List.toFinset_cons]
          have hc2 : (((rest.map (fun q => q.1.ChTime)).toFinset).erase q.1.ChTime).card
              ≤ (insert q.1.ChTime (rest.map (fun q => q.1.ChTime)).toFinset).card - 1 := by
            rw [← Finset.erase_insert_eq_erase,
              Finset.card_erase_of_mem (Finset.mem_insert_self _ _)]
          have hpos : 0 < (insert q.1.ChTime (rest.map (fun q => q.1.ChTime)).toFinset).card :=
            Finset.card_pos.2 ⟨_, Finset.mem_insert_self _ _⟩
          have hc3 : List.count (Event.probe "offset--") out
              ≤ (((rest.map (fun q => q.1.ChTime)).toFinset).erase q.1.ChTime).card := hc
          omega
        · intro t
          obtain ⟨F, hF1, hF2⟩ := hF t
          refine ⟨F, List.Forall₂.cons ?_ hF2⟩
          intro _ hqt
          rw [hF1 hqt]
    · obtain ⟨xs, self1, out, e, hc, hF⟩ := ih hrest
      refine ⟨0 :: xs, self1, [Event.print "wrong index\n"] ++ out, ?_, ?_, ?_⟩
      · simp only [ImpulseResponseForce.queries,
          ImpulseResponseForce.conv_coordinateFunc_outside self q.1 q.2 hi, e]
      · rw [List.count_append]
        have : List.count (Event.probe "offset--") [Event.print "wrong index\n"] = 0 := by
          simp
        rw [this]
        simpa using le_trans hc hmono
      · intro t
        obtain ⟨F, hF2⟩ := hF t
        exact ⟨F, List.Forall₂.cons (fun h => absurd h hi) hF2⟩

/-- Four queries on `sphereIRF` at the times 0, 0, 0, 1. -/
theorem C7_one_recomputation_per_distinct_time_witness :
    (sphereIRF.Valid ∧
      [(movingAt 0 1, (0 : Int)), (movingAt 0 1, 5), (movingAt 0 2, 0), (movingAt 1 2, 9)].Pairwise
        (fun a b => a.1.ChTime ≤ b.1.ChTime)) ∧
    ∃ (xs : List ℚ) (self1 : ImpulseResponseForce) (out : List Event),
      sphereIRF.queries
          [(movingAt 0 1, (0 : Int)), (movingAt 0 1, 5), (movingAt 0 2, 0), (movingAt 1 2, 9)]
        = .ok (xs, self1, out) ∧
      out.count (Event.probe "offset--")
        ≤ (([(movingAt 0 1, (0 : Int)), (movingAt 0 1, 5), (movingAt 0 2, 0),
              (movingAt 1 2, 9)].map (fun q => q.1.ChTime)).toFinset).card ∧
      ∀ t : ℚ, ∃ F : ChVectorN6,
        List.Forall₂ (fun q x => (0 ≤ q.2 ∧ q.2 < 6) → q.1.ChTime = t →
          x = comp6 F q.2.toNat)
          [(movingAt 0 1, (0 : Int)), (movingAt 0 1, 5), (movingAt 0 2, 0), (movingAt 1 2, 9)]
          xs := by
  have hs : [(movingAt 0 1, (0 : Int)), (movingAt 0 1, 5), (movingAt 0 2, 0),
      (movingAt 1 2, 9)].Pairwise (fun a b => a.1.ChTime ≤ b.1.ChTime) := by
    simp [movingAt]
  exact ⟨⟨ImpulseResponseForce.sphereIRF_valid, hs⟩,
    C7_one_recomputation_per_distinct_time sphereIRF _ ImpulseResponseForce.sphereIRF_valid hs⟩

/-! ## ImpulseResponseForce: the circular buffer -/

namespace ImpulseResponseForce

theorem nextOffset_emod (o : Int) : nextOffset o % 1001 = (o - 1) % 1001 := by
  have hs : (size : Int) = 1001 := rfl
  simp only [nextOffset, hs]
  split <;> omega

theorem recomputedAll_snoc (self : ImpulseResponseForce) (bs : List ChBody) (b : ChBody) :
    recomputedAll self (bs ++ [b]) = (recomputedAll self bs).recomputed b := by
  simp [recomputedAll, List.foldl_append]

theorem recomputedAll_length (bs : List ChBody) :
    ∀ self : ImpulseResponseForce,
      (recomputedAll self bs).velHistory.length = self.velHistory.length := by
  induction bs with
  | nil => intro self; rfl
  | cons b rest ih =>
    intro self
    have : recomputedAll self (b :: rest) = recomputedAll (self.recomputed b) rest := rfl
    rw [this, ih]
    simp [recomputed]

/-- After any number of recomputations the sample that is `s` steps old sits at
`wrap(s + offset)`, for every lag `s` inside the window that has been written. -/
theorem window_after (self : ImpulseResponseForce) (hlen : size ≤ self.velHistory.length)
    (bs : List ChBody) :
    ∀ s : Nat, s < size → s < bs.length →
      (recomputedAll self bs).velHistory[(wrap ((s : Int) + (recomputedAll self bs).offset)).toNat]?
        = (bs[bs.length - 1 - s]?).map velocity := by
  induction bs using List.reverseRecOn with
  | nil => intro s _ h; simp at h
  | append_singleton init b ih =>
    intro s hs hsl
    have hsz : size = 1001 := rfl
    rw [recomputedAll_snoc]
    have hl : size ≤ (recomputedAll self init).velHistory.length := by
      rw [recomputedAll_length]; exact hlen
    have hno := nextOffset_emod (recomputedAll self init).offset
    simp only [recomputed]
    simp only [List.length_append, List.length_singleton] at hsl ⊢
    have hslot : slot (nextOffset (recomputedAll self init).offset)
        = ((nextOffset (recomputedAll self init).offset) % 1001).toNat := by
      simp only [slot, wrap_eq_emod, hsz]
      congr 1
      omega
    by_cases h0 : s = 0
    · subst h0
      have e1 : (wrap (((0 : Nat) : Int) + nextOffset (recomputedAll self init).offset)).toNat
          = slot (nextOffset (recomputedAll self init).offset) := by
        rw [hslot, wrap_eq_emod]
        congr 1
        omega
      rw [e1, List.getElem?_set]
      have hk : slot (nextOffset (recomputedAll self init).offset)
          < (recomputedAll self init).velHistory.length :=
        lt_of_lt_of_le (slot_lt _) hl
      simp [hk]
    · have hs1 : s - 1 < size := by omega
      have hs2 : s - 1 < init.length := by omega
      have ih1 := ih (s - 1) hs1 hs2
      have e1 : (wrap ((s : Int) + nextOffset (recomputedAll self init).offset)).toNat
          = (wrap (((s - 1 : Nat) : Int) + (recomputedAll self init).offset)).toNat := by
        rw [wrap_eq_emod, wrap_eq_emod]
        congr 1
        omega
      have hne : slot (nextOffset (recomputedAll self init).offset)
          ≠ (wrap ((s : Int) + nextOffset (recomputedAll self init).offset)).toNat := by
        rw [hslot, wrap_eq_emod]
        omega
      rw [List.getElem?_set, if_neg hne, e1, ih1]
      congr 1
      have hidx : init.length + 1 - 1 - s = init.length - 1 - (s - 1) := by omega
      rw [hidx, List.getElem?_append_left (by omega)]

/-- Distinct lags of the window address distinct slots, and every slot is addressed. -/
theorem wrap_bijective (o : Int) :
    (∀ s s1 : Nat, s < size → s1 < size →
      (wrap ((s : Int) + o)).toNat = (wrap ((s1 : Int) + o)).toNat → s = s1) ∧
    (∀ j : Nat, j < size → ∃ s : Nat, s < size ∧ (wrap ((s : Int) + o)).toNat = j) := by
  have hsz : size = 1001 := rfl
  refine ⟨fun s s1 hs hs1 h => ?_, fun j hj => ?_⟩
  · rw [wrap_eq_emod, wrap_eq_emod] at h
    omega
  · refine ⟨(((j : Int) - o) % 1001).toNat, by omega, ?_⟩
    rw [wrap_eq_emod]
    omega

theorem steps_ok (bs : List ChBody) :
    ∀ self : ImpulseResponseForce, self.Valid →
      List.Chain (fun a b => a ≠ b) self.prevTime (bs.map (fun b => b.ChTime)) →
      ∃ out, self.steps bs = .ok (recomputedAll self bs, out) ∧
        out.count (Event.probe "offset--") = bs.length := by
  induction bs with
  | nil => intro self _ _; exact ⟨[], rfl, rfl⟩
  | cons b rest ih =>
    intro self hv hc
    simp only [List.map_cons, List.chain_cons] at hc
    obtain ⟨out1, e1, hc1⟩ := convolutionIntegral_recompute self b hv (Ne.symm hc.1)
      (fun o => o.count (Event.probe "offset--") = 1) (by simp) (fun o ho => by simpa using ho)
    obtain ⟨out2, e2, hc2⟩ := ih (self.recomputed b) (recomputed_valid self b hv) hc.2
    refine ⟨out1 ++ out2, ?_, ?_⟩
    · simp only [steps, e1, e2]
      rfl
    · rw [List.count_append, hc1, hc2, List.length_cons]
      omega

end ImpulseResponseForce

/-- From any state with buffers of at least the literal window length, whatever `offset`
and `velHistory` hold, 1001 calls of `convolutionIntegral` that are all recomputations
leave, for every lag `s` in [0, 1001), the input `v_(1001-s)` at
`velHistory[wrap(s + offset)]`; the lags address the 1001 window slots one to one. Entries
of `velHistory` from index 1001 on are outside this statement. -/
theorem literal_window_holds_last_inputs_in_order (self : ImpulseResponseForce)
    (bs : List ChBody) (hv : self.Valid) (hlen : bs.length = ImpulseResponseForce.size)
    (hrec : List.Chain (fun a b => a ≠ b) self.prevTime (bs.map (fun b => b.ChTime))) :
    ∃ (self1 : ImpulseResponseForce) (out : List Event),
      self.steps bs = .ok (self1, out) ∧
      out.count (Event.probe "offset--") = ImpulseResponseForce.size ∧
      (∀ s : Nat, s < ImpulseResponseForce.size →
        self1.velHistory[(ImpulseResponseForce.wrap ((s : Int) + self1.offset)).toNat]?
          = (bs[ImpulseResponseForce.size - 1 - s]?).map ImpulseResponseForce.velocity) ∧
      (∀ s s1 : Nat, s < ImpulseResponseForce.size → s1 < ImpulseResponseForce.size →
        (ImpulseResponseForce.wrap ((s : Int) + self1.offset)).toNat
          = (ImpulseResponseForce.wrap ((s1 : Int) + self1.offset)).toNat → s = s1) ∧
      (∀ j : Nat, j < ImpulseResponseForce.size →
        ∃ k : Nat, k < ImpulseResponseForce.size ∧
          self1.velHistory[j]? = (bs[k]?).map ImpulseResponseForce.velocity) := by
  obtain ⟨out, e, hc⟩ := ImpulseResponseForce.steps_ok bs self hv hrec
  have hw := ImpulseResponseForce.window_after self hv.1 bs
  have hb := ImpulseResponseForce.wrap_bijective (ImpulseResponseForce.recomputedAll self bs).offset
  refine ⟨_, out, e, by rw [hc, hlen], ?_, hb.1, ?_⟩
  · intro s hs
    have := hw s hs (by rw [hlen]; exact hs)
    rw [hlen] at this
    exact this
  · intro j hj
    obtain ⟨s, hs, hsj⟩ := hb.2 j hj
    refine ⟨ImpulseResponseForce.size - 1 - s, by omega, ?_⟩
    have := hw s hs (by rw [hlen]; exact hs)
    rw [hlen, hsj] at this
    exact this

theorem taggedBodies_chain (n : Nat) :
    List.Chain (fun a b => a ≠ b) (-1 : ℚ) ((taggedBodies n).map (fun b => b.ChTime)) := by
  apply List.Pairwise.chain
  have e : (taggedBodies n).map (fun b => b.ChTime) = (List.range n).map (fun k : Nat => (k : ℚ)) := by
    simp [taggedBodies, movingAt, Function.comp_def]
  rw [e]
  have : ((-1 : ℚ) :: (List.range n).map (fun k : Nat => (k : ℚ))).Nodup := by
    rw [List.nodup_cons]
    refine ⟨?_, (List.nodup_range n).map Nat.cast_injective⟩
    simp only [List.mem_map, not_exists, not_and]
    intro k _ hk
    have : (0 : ℚ) ≤ (k : ℚ) := Nat.cast_nonneg k
    linarith
  exact this

/-- C9 fails on the code: for a kernel with 2000 steps the constructor gives `velHistory`
2000 entries, yet the first recomputation stores the velocity in slot 1000 = 1001 - 1
(not 1999) and leaves entry 1999 as it was, because the wrap modulus and the lag count
are the literal 1001; for a kernel with 500 steps the constructor's loop over
`i < 1001` writes outside the 500 entries. -/
theorem C9_window_length_is_the_literal_1001 :
    (∀ (indet : Nat → ChVectorN6) (indetForce indetTemp : ChVectorN6),
      ∃ st : ImpulseResponseForce,
        ImpulseResponseForce.new (sphereStore 6 6 2000 2000) indet indetForce indetTemp = .ok st ∧
        (sphereStore 6 6 2000 2000).K_dims 2 = 2000 ∧
        st.velHistory.length = 2000 ∧
        ImpulseResponseForce.size = 1001 ∧
        ∃ (st1 : ImpulseResponseForce) (out : List Event),
          st.convolutionIntegral (movingAt 0 1) = .ok (st1.currentForce, st1, out) ∧
          st1.offset = -1 ∧
          st1.velHistory[1000]? = some (ImpulseResponseForce.velocity (movingAt 0 1)) ∧
          st1.velHistory[1999]? = some (indet 1999)) ∧
    (∀ (indet : Nat → ChVectorN6) (indetForce indetTemp : ChVectorN6),
      ImpulseResponseForce.new (sphereStore 6 6 500 500) indet indetForce indetTemp
        = .error Fault.undefined) := by
  refine ⟨fun indet indetForce indetTemp => ?_, fun indet indetForce indetTemp => ?_⟩
  · have hk : (sphereStore 6 6 2000 2000).K_dims 2 = 2000 := rfl
    have hnew := ImpulseResponseForce.new_ok (sphereStore 6 6 2000 2000) indet indetForce
      indetTemp (by rw [hk]; norm_num)
    refine ⟨_, hnew, hk, ?_, rfl, ?_⟩
    · simp only [List.length_append, List.length_replicate, List.length_drop, List.length_map,
        List.length_range, hk]
    · have hlen : (List.replicate 1001 (fun _ => (0 : ℚ)) ++
          ((List.range ((sphereStore 6 6 2000 2000).K_dims 2)).map indet).drop 1001 :
            List ChVectorN6).length = 2000 := by
        simp only [List.length_append, List.length_replicate, List.length_drop, List.length_map,
          List.length_range, hk]
      have hv : ImpulseResponseForce.Valid
          { fileInfo := sphereStore 6 6 2000 2000
            velHistory := List.replicate 1001 (fun _ => 0)
              ++ ((List.range ((sphereStore 6 6 2000 2000).K_dims 2)).map indet).drop 1001
            timeSteps := (sphereStore 6 6 2000 2000).timesteps
            currentForce := fun _ => 0
            offset := 0
            prevTime := -1 } := by
        refine ⟨?_, ?_, ?_⟩
        · show ImpulseResponseForce.size ≤ _
          rw [hlen]
          exact (by decide : (1001 : Nat) ≤ 2000)
        · simp only [sphereStore, List.length_map, List.length_range]
          exact (by decide : (1001 : Nat) ≤ 2000)
        · simp only [sphereStore, List.length_map, List.length_range]
          exact le_refl _
      have ht : (movingAt 0 1).ChTime ≠ (-1 : ℚ) := by
        show (0 : ℚ) ≠ -1
        norm_num
      obtain ⟨out, e, _⟩ := ImpulseResponseForce.convolutionIntegral_recompute _ (movingAt 0 1)
        hv ht (fun _ => True) trivial (fun _ _ => trivial)
      refine ⟨_, out, e, rfl, ?_, ?_⟩
      · simp only [ImpulseResponseForce.recomputed]
        have hs : ImpulseResponseForce.slot (ImpulseResponseForce.nextOffset 0) = 1000 := by
          decide
        rw [hs, List.getElem?_set]
        simp only [if_true, hlen]
        rfl
      · simp only [ImpulseResponseForce.recomputed]
        have hs : ImpulseResponseForce.slot (ImpulseResponseForce.nextOffset 0) = 1000 := by
          decide
        rw [hs, List.getElem?_set, if_neg (by decide)]
        rw [List.getElem?_append_right (by rw [List.length_replicate]; decide)]
        rw [List.length_replicate, List.getElem?_drop, List.getElem?_map]
        rw [List.getElem?_range (by rw [hk]; decide)]
        rfl
  · exact ImpulseResponseForce.new_fault _ _ _ _ (by decide)

/-! ## BuoyancyForce -/

/-- C11: for every store the constructor sets `bf = rho * g * disp_vol`, and the function
installed with `SetF_z` returns `bf` for every time argument, no body state being read;
for `rho = 1000`, `g = 9.81`, `disp_vol = 0.5` (the store `sphereStore`) `bf` is 4905. -/
theorem C11_buoyancy_is_constant_rho_g_volume (file : BodyFileInfo) (t : ℚ) :
    (BuoyancyForce.new file).bf = file.get_rho * file.get_g * file.get_disp_vol ∧
    (BuoyancyForce.new file).getForce_ptr.F_z.Get_y t = (BuoyancyForce.new file).bf ∧
    (sphereStore 6 6 1001 1001).get_rho = 1000 ∧
    (sphereStore 6 6 1001 1001).get_g = 981 / 100 ∧
    (sphereStore 6 6 1001 1001).get_disp_vol = 1 / 2 ∧
    (BuoyancyForce.new (sphereStore 6 6 1001 1001)).bf = 4905 ∧
    (BuoyancyForce.new (sphereStore 6 6 1001 1001)).getForce_ptr.F_z.Get_y t = 4905 := by
  have e : (BuoyancyForce.new (sphereStore 6 6 1001 1001)).bf = 4905 := by
    show (1000 : ℚ) * (981 / 100) * (1 / 2) = 4905
    norm_num
  exact ⟨rfl, rfl, rfl, rfl, rfl, e, e⟩

/-! ## ChLoadAddedMass -/

/-- Every iteration of a loop that ran to the end returned. -/
theorem forLoop_ok_steps {σ : Type} (n : Nat) (body : Nat → σ → Except Fault σ) (s s1 : σ)
    (h : forLoop n body s = .ok s1) : ∀ k, k < n → ∃ t t1, body k t = .ok t1 := by
  have := forLoop_ok_inv n body (fun j _ => ∀ k, k < j → ∃ t t1, body k t = .ok t1) s s1 h
    (fun k hk => absurd hk (Nat.not_lt_zero k))
    (fun j t t1 _ hI hb k hk => by
      by_cases hkj : k < j
      · exact hI k hkj
      · have : k = j := by omega
        subst this
        exact ⟨t, t1, hb⟩)
  exact this

theorem fillMatrix_length (d0 d1 : Nat) (temp : List ℚ) (M0 M : ChMatrixDynamic)
    (h : fillMatrix d0 d1 temp M0 = .ok M) : d0 * d1 ≤ temp.length := by
  rcases Nat.eq_zero_or_pos d0 with h0 | h0
  · simp [h0]
  rcases Nat.eq_zero_or_pos d1 with h1 | h1
  · simp [h1]
  obtain ⟨M1, M2, ho⟩ := forLoop_ok_steps d0 _ M0 M h (d0 - 1) (by omega)
  obtain ⟨M3, M4, hi⟩ := forLoop_ok_steps d1 _ M1 M2 ho (d1 - 1) (by omega)
  have hlt : (d0 - 1) * d1 + (d1 - 1) < temp.length := by
    by_contra hge
    have : temp[(d0 - 1) * d1 + (d1 - 1)]? = none := by
      apply List.getElem?_eq_none
      omega
    simp [readAt, this] at hi
  have e : (d0 - 1) * d1 + (d1 - 1) + 1 = d0 * d1 := by
    have : d0 = (d0 - 1) + 1 := by omega
    conv_rhs => rw [this, Nat.add_mul]
    omega
  omega

namespace BodyFileInfo

/-- What a successful `read_data` has stored for the added mass: the raw entries. -/
theorem read_data_inv_inf_freq (fs : String → Option H5File) (name body : String)
    (store : BodyFileInfo) (h : read_data fs name body = .ok store) :
    ∃ (f : H5File) (dsInf dsRho : H5DataSet),
      openFile fs name = .ok f ∧
      f.openDataSet (body ++ "/hydro_coeffs/added_mass/inf_freq") = .ok dsInf ∧
      f.openDataSet "simulation_parameters/rho" = .ok dsRho ∧
      store.rho = dsRho.elems 0 ∧
      store.inf_freq.rows * store.inf_freq.cols ≤ dsInf.npoints ∧
      ∀ i j : Nat, i < store.inf_freq.rows → j < store.inf_freq.cols →
        store.inf_freq.coeff i j = dsInf.elems (i * store.inf_freq.cols + j) := by
  unfold read_data at h
  simp only [bind_eq_ok] at h
  obtain ⟨f, hf, dsLin, _, pLin, _, d0, _, d1, _, tLin, _, lin, _, h⟩ := h
  obtain ⟨dsInf, hdsInf, pInf, _, e0, _, e1, _, tInf, htInf, inf, hinf, h⟩ := h
  obtain ⟨dsCb, _, pCb, _, b0, _, b1, _, tCb, _, cb, _, h⟩ := h
  obtain ⟨dsCg, _, pCg, _, c0, _, tCg, _, cg, _, h⟩ := h
  obtain ⟨dsV, _, pV, _, v0, _, v1, _, tV, _, vol, _, h⟩ := h
  obtain ⟨dsRho, hdsRho, pRho, _, tRho, htRho, rho, hrho, h⟩ := h
  obtain ⟨dsG, _, pG, _, tG, _, g, _, h⟩ := h
  obtain ⟨dsK, _, pK, _, k0, _, k1, _, k2, _, tK, _, h⟩ := h
  obtain ⟨dsT, _, pT, _, n0, _, n1, _, tT, _, ts, _, h⟩ := h
  simp only [pure, Except.pure, Except.ok.injEq] at h
  obtain ⟨a1, _⟩ := readInto_eq_ok _ _ _ htInf
  obtain ⟨a2, _⟩ := readInto_eq_ok _ _ _ htRho
  subst a1 a2
  have hr := readAt_data_zero _ _ hrho
  have hlen := fillMatrix_length _ _ _ _ _ hinf
  rw [fillMatrix_ok e0 e1 _ hlen] at hinf
  simp only [Except.ok.injEq] at hinf
  subst h
  subst hinf
  refine ⟨f, dsInf, dsRho, hf, hdsInf, hdsRho, hr, ?_, ?_⟩
  · simpa [matrixOf, data_length] using hlen
  · intro i j hi hj
    simp only [matrixOf] at hi hj ⊢
    have hb : i * e1 + j < dsInf.npoints := by
      rw [data_length] at hlen
      have : (i + 1) * e1 ≤ e0 * e1 := Nat.mul_le_mul_right e1 hi
      have : i * e1 + j < (i + 1) * e1 := by rw [Nat.add_mul]; omega
      omega
    simp [hi, hj, H5DataSet.data, List.getD_eq_getElem?_getD, List.getElem?_range hb]

end BodyFileInfo

/-- C12: for a loaded store, `ComputeJacobian` (called with the blocks allocated, any
state and any arguments) leaves the mass block equal to `get_added_mass_matrix()`, that
is every entry is the file's raw added-mass entry times `rho`, with `rho` applied once on
the read of the unscaled stored matrix; every entry of the blocks `R` and `K` is 0. -/
theorem C12_added_mass_jacobian_is_rho_times_raw
    (fs : String → Option H5File) (name body : String) (store : BodyFileInfo)
    (hload : BodyFileInfo.read_data fs name body = .ok store)
    (J : ChLoadJacobians) (state_x state_w : List ℚ) (mK mR mM : ChMatrixDynamic) :
    ∃ (f : H5File) (dsInf dsRho : H5DataSet) (J1 : ChLoadJacobians),
      openFile fs name = .ok f ∧
      f.openDataSet (body ++ "/hydro_coeffs/added_mass/inf_freq") = .ok dsInf ∧
      f.openDataSet "simulation_parameters/rho" = .ok dsRho ∧
      store.get_rho = dsRho.elems 0 ∧
      ChLoadAddedMass.ComputeJacobian
          { ChLoadAddedMass.new store with jacobians := some J } state_x state_w mK mR mM
        = .ok { ChLoadAddedMass.new store with jacobians := some J1 } ∧
      J1.M = store.get_added_mass_matrix ∧
      J1.M.rows = store.inf_freq.rows ∧ J1.M.cols = store.inf_freq.cols ∧
      (∀ i j : Nat, J1.M.coeff i j = store.inf_freq.coeff i j * store.get_rho) ∧
      (∀ i j : Nat, i < store.inf_freq.rows → j < store.inf_freq.cols →
        store.inf_freq.coeff i j = dsInf.elems (i * store.inf_freq.cols + j) ∧
        J1.M.coeff i j = dsInf.elems (i * store.inf_freq.cols + j) * dsRho.elems 0) ∧
      (∀ i j : Nat, J1.R.coeff i j = 0) ∧ (∀ i j : Nat, J1.K.coeff i j = 0) := by
  obtain ⟨f, dsInf, dsRho, hf, hI, hR, hr, _, hc⟩ :=
    BodyFileInfo.read_data_inv_inf_freq fs name body store hload
  refine ⟨f, dsInf, dsRho,
    { K := J.K.setZero, R := J.R.setZero, M := store.get_added_mass_matrix },
    hf, hI, hR, hr, rfl, rfl, rfl, rfl, fun _ _ => rfl, ?_, fun _ _ => rfl, fun _ _ => rfl⟩
  intro i j hi hj
  refine ⟨hc i j hi hj, ?_⟩
  show store.inf_freq.coeff i j * store.rho = _
  rw [hc i j hi hj, hr]

/-- The store loaded from `sphereFile`, with 6 x 6 blocks allocated. -/
theorem C12_added_mass_jacobian_is_rho_times_raw_witness :
    BodyFileInfo.read_data (sphereFs 6 6 1001 1001) "sphere.h5" "body1"
        = .ok (sphereStore 6 6 1001 1001) ∧
    ∃ J1 : ChLoadJacobians,
      ChLoadAddedMass.ComputeJacobian
          { ChLoadAddedMass.new (sphereStore 6 6 1001 1001) with
            jacobians := some ⟨ChMatrixDynamic.resize 6 6, ChMatrixDynamic.resize 6 6,
              ChMatrixDynamic.resize 6 6⟩ } [] [] (ChMatrixDynamic.resize 6 6)
          (ChMatrixDynamic.resize 6 6) (ChMatrixDynamic.resize 6 6)
        = .ok { ChLoadAddedMass.new (sphereStore 6 6 1001 1001) with jacobians := some J1 } ∧
      J1.M = (sphereStore 6 6 1001 1001).get_added_mass_matrix ∧
      (∀ i j : Nat, J1.R.coeff i j = 0) ∧ (∀ i j : Nat, J1.K.coeff i j = 0) := by
  refine ⟨read_data_sphere 6 6 1001 1001, ?_⟩
  obtain ⟨_, _, _, J1, _, _, _, _, h1, h2, _, _, _, _, h3, h4⟩ :=
    C12_added_mass_jacobian_is_rho_times_raw _ _ _ _ (read_data_sphere 6 6 1001 1001)
      ⟨ChMatrixDynamic.resize 6 6, ChMatrixDynamic.resize 6 6, ChMatrixDynamic.resize 6 6⟩
      [] [] (ChMatrixDynamic.resize 6 6) (ChMatrixDynamic.resize 6 6)
      (ChMatrixDynamic.resize 6 6)
  exact ⟨J1, h1, h2, h3, h4⟩

/-! ## Loading: what is and is not checked -/

namespace BodyFileInfo

/-- A successful `read_data` has opened the file and every required dataset. -/
theorem read_data_present (fs : String → Option H5File) (name body : String)
    (store : BodyFileInfo) (h : read_data fs name body = .ok store) :
    ∃ f : H5File, openFile fs name = .ok f ∧
      ∀ p ∈ requiredPaths body, ∃ ds, f.openDataSet p = .ok ds := by
  unfold read_data at h
  simp only [bind_eq_ok] at h
  obtain ⟨f, hf, dsLin, h1, pLin, _, d0, _, d1, _, tLin, _, lin, _, h⟩ := h
  obtain ⟨dsInf, h2, pInf, _, e0, _, e1, _, tInf, _, inf, _, h⟩ := h
  obtain ⟨dsCb, h3, pCb, _, b0, _, b1, _, tCb, _, cb, _, h⟩ := h
  obtain ⟨dsCg, h4, pCg, _, c0, _, tCg, _, cg, _, h⟩ := h
  obtain ⟨dsV, h5, pV, _, v0, _, v1, _, tV, _, vol, _, h⟩ := h
  obtain ⟨dsRho, h6, pRho, _, tRho, _, rho, _, h⟩ := h
  obtain ⟨dsG, h7, pG, _, tG, _, g, _, h⟩ := h
  obtain ⟨dsK, h8, pK, _, k0, _, k1, _, k2, _, tK, _, h⟩ := h
  obtain ⟨dsT, h9, pT, _, n0, _, n1, _, tT, _, ts, _, h⟩ := h
  refine ⟨f, hf, ?_⟩
  intro p hp
  simp only [requiredPaths, List.mem_cons, List.mem_singleton, List.not_mem_nil, or_false] at hp
  rcases hp with rfl | rfl | rfl | rfl | rfl | rfl | rfl | rfl | rfl
  · exact ⟨_, h1⟩
  · exact ⟨_, h2⟩
  · exact ⟨_, h3⟩
  · exact ⟨_, h4⟩
  · exact ⟨_, h5⟩
  · exact ⟨_, h6⟩
  · exact ⟨_, h7⟩
  · exact ⟨_, h8⟩
  · exact ⟨_, h9⟩

end BodyFileInfo

/-- C13, as written, fails: the file `sphereFile 2 2 2 3` has a 6 x 6 stiffness dataset
and a kernel dataset of shape 2 x 2 x 2, and `read_data` returns a store for it, with
`K_dims = (2, 2, 2)` next to a 6 x 6 stiffness matrix. -/
theorem C13_counterexample :
    (sphereFile 2 2 2 3).openDataSet "body1/hydro_coeffs/linear_restoring_stiffness"
      = .ok ⟨[6, 6], fun i => (i : ℚ)⟩ ∧
    (sphereFile 2 2 2 3).openDataSet
        "body1/hydro_coeffs/radiation_damping/impulse_response_fun/K"
      = .ok ⟨[2, 2, 2], fun i => (i : ℚ) + 1⟩ ∧
    BodyFileInfo.read_data (sphereFs 2 2 2 3) "sphere.h5" "body1"
      = .ok (sphereStore 2 2 2 3) ∧
    (sphereStore 2 2 2 3).K_dims 0 = 2 ∧ (sphereStore 2 2 2 3).K_dims 1 = 2 ∧
    (sphereStore 2 2 2 3).get_lin_matrix.rows = 6 ∧
    (sphereStore 2 2 2 3).get_lin_matrix.cols = 6 ∧
    ¬ (∀ (fs : String → Option H5File) (name body : String) (f : H5File)
        (dsLin dsK : H5DataSet),
        openFile fs name = .ok f →
        f.openDataSet (body ++ "/hydro_coeffs/linear_restoring_stiffness") = .ok dsLin →
        f.openDataSet (body ++ "/hydro_coeffs/radiation_damping/impulse_response_fun/K")
          = .ok dsK →
        (dsK.dims[0]? ≠ dsLin.dims[0]? ∨ dsK.dims[1]? ≠ dsLin.dims[1]?) →
        ∃ e, BodyFileInfo.read_data fs name body = .error e) := by
  have o1 : (sphereFile 2 2 2 3).openDataSet "body1/hydro_coeffs/linear_restoring_stiffness"
      = .ok ⟨[6, 6], fun i => (i : ℚ)⟩ := by simp [H5File.openDataSet, sphereFile]
  have o2 : (sphereFile 2 2 2 3).openDataSet
      "body1/hydro_coeffs/radiation_damping/impulse_response_fun/K"
      = .ok ⟨[2, 2, 2], fun i => (i : ℚ) + 1⟩ := by simp [H5File.openDataSet, sphereFile]
  have hl := read_data_sphere 2 2 2 3
  refine ⟨o1, o2, hl, rfl, rfl, rfl, rfl, fun hall => ?_⟩
  have p1 : ("body1" ++ "/hydro_coeffs/linear_restoring_stiffness" : String)
      = "body1/hydro_coeffs/linear_restoring_stiffness" := by decide
  have p2 : ("body1" ++ "/hydro_coeffs/radiation_damping/impulse_response_fun/K" : String)
      = "body1/hydro_coeffs/radiation_damping/impulse_response_fun/K" := by decide
  obtain ⟨e, he⟩ := hall (sphereFs 2 2 2 3) "sphere.h5" "body1" (sphereFile 2 2 2 3)
    ⟨[6, 6], fun i => (i : ℚ)⟩ ⟨[2, 2, 2], fun i => (i : ℚ) + 1⟩
    (by simp [openFile, sphereFs]) (by rw [p1]; exact o1) (by rw [p2]; exact o2)
    (Or.inl (by simp))
  rw [hl] at he
  simp at he

/-- C13 (amended): loading produces no store when the file cannot be opened (the call ends
in the HDF5 exception) or when one of the nine datasets `read_data` opens is missing from
the file. The shape of the kernel is not compared with that of the stiffness matrix: for
every `k0`, `k1`, `k2` and `n` the file with a 6 x 6 stiffness dataset and a kernel
dataset of shape `k0 x k1 x k2` is loaded, into a store with `K_dims = (k0, k1, k2)` next
to a 6 x 6 stiffness matrix. -/
theorem C13_only_a_missing_file_or_dataset_stops_loading (fs : String → Option H5File)
    (name body : String) :
    (fs name = none → BodyFileInfo.read_data fs name body = .error Fault.h5Exception) ∧
    ((∃ f, fs name = some f ∧ ∃ p ∈ requiredPaths body, f.dataSets p = none) →
      ∃ e, BodyFileInfo.read_data fs name body = .error e) ∧
    ∀ k0 k1 k2 n : Nat,
      (sphereFile k0 k1 k2 n).openDataSet "body1/hydro_coeffs/linear_restoring_stiffness"
        = .ok ⟨[6, 6], fun i => (i : ℚ)⟩ ∧
      (sphereFile k0 k1 k2 n).openDataSet
          "body1/hydro_coeffs/radiation_damping/impulse_response_fun/K"
        = .ok ⟨[k0, k1, k2], fun i => (i : ℚ) + 1⟩ ∧
      ∃ store : BodyFileInfo,
        BodyFileInfo.read_data (sphereFs k0 k1 k2 n) "sphere.h5" "body1" = .ok store ∧
        store.K_dims = ![k0, k1, k2] ∧
        store.get_lin_matrix.rows = 6 ∧ store.get_lin_matrix.cols = 6 := by
  refine ⟨fun h => ?_, fun h => ?_, fun k0 k1 k2 n => ⟨?_, ?_, ?_⟩⟩
  · simp only [BodyFileInfo.read_data, openFile, h]
    rfl
  · cases hr : BodyFileInfo.read_data fs name body with
    | error e => exact ⟨e, rfl⟩
    | ok store =>
      exfalso
      obtain ⟨f, hf, hall⟩ := BodyFileInfo.read_data_present fs name body store hr
      obtain ⟨f1, hf1, p, hp, hnone⟩ := h
      simp only [openFile, hf1, Except.ok.injEq] at hf
      subst hf
      obtain ⟨ds, hds⟩ := hall p hp
      simp [H5File.openDataSet, hnone] at hds
  · simp [H5File.openDataSet, sphereFile]
  · simp [H5File.openDataSet, sphereFile]
  · exact ⟨sphereStore k0 k1 k2 n, read_data_sphere k0 k1 k2 n, rfl, rfl, rfl⟩

/-- The file `sphereFile` holds no dataset for `body2`, and no file is called `other.h5`. -/
theorem C13_only_a_missing_file_or_dataset_stops_loading_witness :
    (sphereFs 2 2 2 3 "other.h5" = none ∧
      ∃ f, sphereFs 2 2 2 3 "sphere.h5" = some f ∧
        ∃ p ∈ requiredPaths "body2", f.dataSets p = none) ∧
    BodyFileInfo.read_data (sphereFs 2 2 2 3) "other.h5" "body1" = .error Fault.h5Exception ∧
    ∃ e, BodyFileInfo.read_data (sphereFs 2 2 2 3) "sphere.h5" "body2" = .error e := by
  have h1 : sphereFs 2 2 2 3 "other.h5" = none := by simp [sphereFs]
  have h2 : ∃ f, sphereFs 2 2 2 3 "sphere.h5" = some f ∧
      ∃ p ∈ requiredPaths "body2", f.dataSets p = none := by
    refine ⟨sphereFile 2 2 2 3, by simp [sphereFs],
      "body2/hydro_coeffs/linear_restoring_stiffness", ?_, ?_⟩
    · have : ("body2" ++ "/hydro_coeffs/linear_restoring_stiffness" : String)
          = "body2/hydro_coeffs/linear_restoring_stiffness" := by decide
      simp [requiredPaths, this]
    · simp [sphereFile]
  exact ⟨⟨h1, h2⟩,
    (C13_only_a_missing_file_or_dataset_stops_loading (sphereFs 2 2 2 3) "other.h5" "body1").1 h1,
    (C13_only_a_missing_file_or_dataset_stops_loading (sphereFs 2 2 2 3) "sphere.h5"
      "body2").2.1 h2⟩

/-! ## BodyFileInfo::get_impulse_resp: the guard -/

/-- C17, as written, fails: on the 2 x 2 x 2 store the triple (2^30, 0, 0) has the
flattened position `0 + 2 * (0 + 2^30 * 2) = 2^32`, outside `[0, 8)`, but `int index`
holds its low 32 bits, 0, and the call returns `K_matrix[0] * rho = 1` and prints
nothing. -/
theorem C17_counterexample :
    (0 : Int) + (store222.K_dims 2 : Int) * (0 + 1073741824 * (store222.K_dims 1 : Int))
      = 4294967296 ∧
    ((store222.K_dims 0 * store222.K_dims 1 * store222.K_dims 2 : Nat) : Int) = 8 ∧
    store222.flatIndex 1073741824 0 0 = 0 ∧
    store222.get_impulse_resp 1073741824 0 0 = .ok (1, []) ∧
    ¬ (∀ m n s : Int,
        ¬ (0 ≤ s + (store222.K_dims 2 : Int) * (n + m * (store222.K_dims 1 : Int)) ∧
           s + (store222.K_dims 2 : Int) * (n + m * (store222.K_dims 1 : Int))
             < ((store222.K_dims 0 * store222.K_dims 1 * store222.K_dims 2 : Nat) : Int)) →
        ∃ out : List Event, store222.get_impulse_resp m n s = .ok (0, out)) := by
  have hp : (0 : Int) + (store222.K_dims 2 : Int) * (0 + 1073741824 * (store222.K_dims 1 : Int))
      = 4294967296 := by decide
  have hN : ((store222.K_dims 0 * store222.K_dims 1 * store222.K_dims 2 : Nat) : Int) = 8 := by
    decide
  have hi : store222.flatIndex 1073741824 0 0 = 0 := by decide
  have e : store222.get_impulse_resp 1073741824 0 0 = .ok (1, []) := by
    have h := BodyFileInfo.get_impulse_resp_inside store222 1073741824 0 0 1
      (by rw [hi]) (by rw [hi, hN]; decide) (by rw [hi]; rfl)
    rw [h]
    have hr : (1 : ℚ) * store222.rho = 1 := by norm_num [store222]
    rw [hr]
  refine ⟨hp, hN, hi, e, fun h => ?_⟩
  obtain ⟨out, ho⟩ := h 1073741824 0 0 (by rw [hp, hN]; decide)
  rw [e] at ho
  simp at ho

/-- C17 (amended): `get_impulse_resp(m, n, s)` decides validity on the value of its
variable `int index` alone. That value lies in `[-2^31, 2^31)`, is congruent modulo 2^32
to the flattened position `s + K_dims[2] * (n + m * K_dims[1])`, and is that position
whenever the position fits in an `int`. With `N = K_dims[0] * K_dims[1] * K_dims[2]`, for
all integers `m`, `n`, `s` the call returns `K_matrix[index] * rho` and prints nothing
when `0 <= index < N`, and returns 0 with the warning otherwise; so the value is 0
exactly when `index` is outside `[0, N)` or the addressed element times `rho` is 0. -/
theorem C17_lookup_is_decided_by_the_int_index (self : BodyFileInfo) (m n s : Int)
    (hK : self.K_dims 0 * self.K_dims 1 * self.K_dims 2 ≤ self.K_matrix.length) :
    (-2147483648 ≤ self.flatIndex m n s ∧ self.flatIndex m n s < 2147483648) ∧
    self.flatIndex m n s % 4294967296
      = (s + (self.K_dims 2 : Int) * (n + m * (self.K_dims 1 : Int))) % 4294967296 ∧
    ((-2147483648 ≤ s + (self.K_dims 2 : Int) * (n + m * (self.K_dims 1 : Int)) ∧
        s + (self.K_dims 2 : Int) * (n + m * (self.K_dims 1 : Int)) < 2147483648) →
      self.flatIndex m n s = s + (self.K_dims 2 : Int) * (n + m * (self.K_dims 1 : Int))) ∧
    ((0 ≤ self.flatIndex m n s ∧
        self.flatIndex m n s < ((self.K_dims 0 * self.K_dims 1 * self.K_dims 2 : Nat) : Int)) →
      self.get_impulse_resp m n s
        = .ok (self.K_matrix.getD (self.flatIndex m n s).toNat 0 * self.get_rho, [])) ∧
    (¬ (0 ≤ self.flatIndex m n s ∧
        self.flatIndex m n s < ((self.K_dims 0 * self.K_dims 1 * self.K_dims 2 : Nat) : Int)) →
      self.get_impulse_resp m n s = .ok (0, [Event.print "out of bounds IRF\n"])) ∧
    ∃ (v : ℚ) (out : List Event), self.get_impulse_resp m n s = .ok (v, out) ∧
      (v = 0 ↔
        (self.flatIndex m n s < 0 ∨
          ((self.K_dims 0 * self.K_dims 1 * self.K_dims 2 : Nat) : Int) ≤ self.flatIndex m n s) ∨
        self.K_matrix.getD (self.flatIndex m n s).toNat 0 * self.get_rho = 0) := by
  have hin : (0 ≤ self.flatIndex m n s ∧
        self.flatIndex m n s < ((self.K_dims 0 * self.K_dims 1 * self.K_dims 2 : Nat) : Int)) →
      self.get_impulse_resp m n s
        = .ok (self.K_matrix.getD (self.flatIndex m n s).toNat 0 * self.get_rho, []) := by
    intro h
    have hlt : (self.flatIndex m n s).toNat < self.K_matrix.length := by omega
    have hv : self.K_matrix[(self.flatIndex m n s).toNat]?
        = some (self.K_matrix.getD (self.flatIndex m n s).toNat 0) := by
      simp [List.getD_eq_getElem?_getD, List.getElem?_eq_getElem hlt]
    exact BodyFileInfo.get_impulse_resp_inside self m n s _ h.1 h.2 hv
  have hout : ¬ (0 ≤ self.flatIndex m n s ∧
        self.flatIndex m n s < ((self.K_dims 0 * self.K_dims 1 * self.K_dims 2 : Nat) : Int)) →
      self.get_impulse_resp m n s = .ok (0, [Event.print "out of bounds IRF\n"]) := by
    intro h
    apply BodyFileInfo.get_impulse_resp_outside
    by_contra hc
    push_neg at hc
    exact h ⟨hc.1, hc.2⟩
  refine ⟨BodyFileInfo.toInt32_range _, BodyFileInfo.toInt32_hsize_emod _,
    fun h => BodyFileInfo.flatIndex_of_int self m n s h.1 h.2, hin, hout, ?_⟩
  by_cases h : 0 ≤ self.flatIndex m n s ∧
      self.flatIndex m n s < ((self.K_dims 0 * self.K_dims 1 * self.K_dims 2 : Nat) : Int)
  · refine ⟨_, _, hin h, ?_⟩
    constructor
    · intro hv; exact Or.inr hv
    · rintro (h1 | h1)
      · omega
      · exact h1
  · refine ⟨_, _, hout h, ?_⟩
    constructor
    · intro _
      left
      by_contra hc
      push_neg at hc
      exact h ⟨hc.1, hc.2⟩
    · intro _; rfl

/-- The 2 x 2 x 2 store at the triple (2^30, 0, 1): the position 2^32 + 1 does not fit in
an `int`, `index` is 1, and the call returns `K_matrix[1] * rho`. -/
theorem C17_lookup_is_decided_by_the_int_index_witness :
    store222.K_dims 0 * store222.K_dims 1 * store222.K_dims 2 ≤ store222.K_matrix.length ∧
    store222.flatIndex 1073741824 0 1 = 1 ∧
    store222.get_impulse_resp 1073741824 0 1
      = .ok (store222.K_matrix.getD (store222.flatIndex 1073741824 0 1).toNat 0
          * store222.get_rho, []) := by
  have hK : store222.K_dims 0 * store222.K_dims 1 * store222.K_dims 2
      ≤ store222.K_matrix.length := by decide
  have hi : store222.flatIndex 1073741824 0 1 = 1 := by decide
  refine ⟨hK, hi, ?_⟩
  exact (C17_lookup_is_decided_by_the_int_index store222 1073741824 0 1 hK).2.2.2.1
    (by rw [hi]; decide)

/-! ## ImpulseResponseForce: the first call and the offset -/

namespace ImpulseResponseForce

theorem new_valid (file : BodyFileInfo) (indet : Nat → ChVectorN6)
    (hts : 1001 ≤ file.timesteps.length)
    (hKm : file.K_dims 0 * file.K_dims 1 * file.K_dims 2 ≤ file.K_matrix.length) :
    Valid
      { fileInfo := file
        velHistory := List.replicate 1001 (fun _ => 0)
          ++ ((List.range (file.K_dims 2)).map indet).drop 1001
        timeSteps := file.timesteps
        currentForce := fun _ => 0
        offset := 0
        prevTime := -1 } := by
  refine ⟨?_, hts, hKm⟩
  show 1001 ≤ _
  rw [List.length_append, List.length_replicate]
  omega

theorem new_window_zero (file : BodyFileInfo) (indet : Nat → ChVectorN6) (j : Nat)
    (hj : j < 1001) :
    (List.replicate 1001 (fun _ => (0 : ℚ))
      ++ ((List.range (file.K_dims 2)).map indet).drop 1001 : List ChVectorN6)[j]?
      = some (fun _ => 0) := by
  rw [List.getElem?_append_left (by rw [List.length_replicate]; exact hj),
    List.getElem?_replicate, if_pos hj]

theorem offset_range (bs : List ChBody) :
    ∀ self : ImpulseResponseForce, -1001 ≤ self.offset → self.offset ≤ 0 →
      -1001 ≤ (recomputedAll self bs).offset ∧ (recomputedAll self bs).offset ≤ 0 ∧
      (bs ≠ [] → (recomputedAll self bs).offset ≤ -1) := by
  induction bs with
  | nil => intro self h1 h2; exact ⟨h1, h2, fun h => absurd rfl h⟩
  | cons b rest ih =>
    intro self h1 h2
    have e : recomputedAll self (b :: rest) = recomputedAll (self.recomputed b) rest := rfl
    have hs : (size : Int) = 1001 := rfl
    have hn : -1001 ≤ (self.recomputed b).offset ∧ (self.recomputed b).offset ≤ -1 := by
      show -1001 ≤ nextOffset self.offset ∧ nextOffset self.offset ≤ -1
      simp only [nextOffset, hs]
      split <;> omega
    rw [e]
    obtain ⟨a1, a2, a3⟩ := ih (self.recomputed b) hn.1 (by omega)
    refine ⟨a1, a2, fun _ => ?_⟩
    cases rest with
    | nil => exact hn.2
    | cons c rest2 => exact a3 (by simp)

end ImpulseResponseForce

/-- C16: starting from a state with `offset = 0`, after any positive number of
recomputations the stored offset lies in [-1001, -1], and the write index
`((size + offset) % size + size) % size` and every read index
`((s + offset) % size + size) % size`, `s` in [0, 1001), computed with the truncating
remainder, lie in [0, 1001). -/
theorem C16_offset_and_indices_stay_in_range (self : ImpulseResponseForce) (bs : List ChBody)
    (hv : self.Valid) (h0 : self.offset = 0) (hne : bs ≠ [])
    (hrec : List.Chain (fun a b => a ≠ b) self.prevTime (bs.map (fun b => b.ChTime))) :
    ∃ (self1 : ImpulseResponseForce) (out : List Event),
      self.steps bs = .ok (self1, out) ∧
      -1001 ≤ self1.offset ∧ self1.offset ≤ -1 ∧
      0 ≤ Int.tmod (Int.tmod (1001 + self1.offset) 1001 + 1001) 1001 ∧
      Int.tmod (Int.tmod (1001 + self1.offset) 1001 + 1001) 1001 < 1001 ∧
      ∀ s : Nat, s < 1001 →
        0 ≤ Int.tmod (Int.tmod ((s : Int) + self1.offset) 1001 + 1001) 1001 ∧
        Int.tmod (Int.tmod ((s : Int) + self1.offset) 1001 + 1001) 1001 < 1001 := by
  obtain ⟨out, e, _⟩ := ImpulseResponseForce.steps_ok bs self hv hrec
  obtain ⟨a1, _, a3⟩ := ImpulseResponseForce.offset_range bs self (by omega) (by omega)
  exact ⟨_, out, e, a1, a3 hne,
    ImpulseResponseForce.wrap_nonneg (1001 + _), ImpulseResponseForce.wrap_lt (1001 + _),
    fun s _ => ⟨ImpulseResponseForce.wrap_nonneg _, ImpulseResponseForce.wrap_lt _⟩⟩

/-- The constructed object on `sphereStore`, stepped through the times 0, ..., 1001. -/
theorem C16_offset_and_indices_stay_in_range_witness :
    (sphereIRF.Valid ∧ sphereIRF.offset = 0 ∧ taggedBodies 1002 ≠ [] ∧
      List.Chain (fun a b => a ≠ b) sphereIRF.prevTime
        ((taggedBodies 1002).map (fun b => b.ChTime))) ∧
    ∃ (self1 : ImpulseResponseForce) (out : List Event),
      sphereIRF.steps (taggedBodies 1002) = .ok (self1, out) ∧
      -1001 ≤ self1.offset ∧ self1.offset ≤ -1 := by
  have hne : taggedBodies 1002 ≠ [] := by
    intro h
    have := congrArg List.length h
    simp only [taggedBodies, List.length_map, List.length_range, List.length_nil] at this
    omega
  have hc : List.Chain (fun a b => a ≠ b) sphereIRF.prevTime
      ((taggedBodies 1002).map (fun b => b.ChTime)) := taggedBodies_chain 1002
  refine ⟨⟨ImpulseResponseForce.sphereIRF_valid, rfl, hne, hc⟩, ?_⟩
  obtain ⟨self1, out, e, a1, a2, _⟩ :=
    C16_offset_and_indices_stay_in_range sphereIRF (taggedBodies 1002)
      ImpulseResponseForce.sphereIRF_valid rfl hne hc
  exact ⟨self1, out, e, a1, a2⟩

/-- C18: the constructor leaves cached time -1, zero force, offset 0 and zeros in the
1001 window slots; the first `convolutionIntegral` at body time -1 returns the zero
vector and the unchanged object, whatever the body's velocity; at any other body time it
executes `offset--` once, stores the body's velocity in slot 1000 and recomputes the
force. -/
theorem C18_first_call_recomputes_unless_time_is_minus_one (file : BodyFileInfo)
    (indet : Nat → ChVectorN6) (indetForce indetTemp : ChVectorN6) (body : ChBody)
    (hK2 : 1001 ≤ file.K_dims 2) (hts : 1001 ≤ file.timesteps.length)
    (hKm : file.K_dims 0 * file.K_dims 1 * file.K_dims 2 ≤ file.K_matrix.length) :
    ∃ self0 : ImpulseResponseForce,
      ImpulseResponseForce.new file indet indetForce indetTemp = .ok self0 ∧
      self0.prevTime = -1 ∧ self0.currentForce = (fun _ => 0) ∧ self0.offset = 0 ∧
      (∀ j : Nat, j < 1001 → self0.velHistory[j]? = some (fun _ => 0)) ∧
      (body.ChTime = -1 →
        self0.convolutionIntegral body = .ok (fun _ => 0, self0, [])) ∧
      (body.ChTime ≠ -1 →
        ∃ (self1 : ImpulseResponseForce) (out : List Event),
          self0.convolutionIntegral body = .ok (self1.currentForce, self1, out) ∧
          out.count (Event.probe "offset--") = 1 ∧
          self1.prevTime = body.ChTime ∧ self1.offset = -1 ∧
          self1.velHistory = self0.velHistory.set 1000 (ImpulseResponseForce.velocity body) ∧
          self1.currentForce = fun r =>
            ImpulseResponseForce.trapezoid file self1.velHistory file.timesteps (-1) r.val) := by
  refine ⟨_, ImpulseResponseForce.new_ok file indet indetForce indetTemp hK2, rfl, rfl, rfl,
    fun j hj => ImpulseResponseForce.new_window_zero file indet j hj, fun ht => ?_, fun ht => ?_⟩
  · exact ImpulseResponseForce.convolutionIntegral_cached _ body ht
  · obtain ⟨out, e, hc⟩ := ImpulseResponseForce.convolutionIntegral_recompute _ body
      (ImpulseResponseForce.new_valid file indet hts hKm) ht
      (fun o => o.count (Event.probe "offset--") = 1) (by simp) (fun o ho => by simpa using ho)
    exact ⟨_, out, e, hc, rfl, rfl, rfl, rfl⟩

/-- The constructor on `sphereStore` and a body moving at time -1. -/
theorem C18_first_call_recomputes_unless_time_is_minus_one_witness :
    (1001 ≤ (sphereStore 6 6 1001 1001).K_dims 2 ∧
      1001 ≤ (sphereStore 6 6 1001 1001).timesteps.length ∧
      (sphereStore 6 6 1001 1001).K_dims 0 * (sphereStore 6 6 1001 1001).K_dims 1
          * (sphereStore 6 6 1001 1001).K_dims 2
        ≤ (sphereStore 6 6 1001 1001).K_matrix.length) ∧
    ∃ self0 : ImpulseResponseForce,
      ImpulseResponseForce.new (sphereStore 6 6 1001 1001) (fun _ _ => 7) (fun _ => 7)
          (fun _ => 7) = .ok self0 ∧
      self0.convolutionIntegral (movingAt (-1) 1) = .ok (fun _ => 0, self0, []) := by
  have h1 : 1001 ≤ (sphereStore 6 6 1001 1001).K_dims 2 := le_refl _
  have h2 : 1001 ≤ (sphereStore 6 6 1001 1001).timesteps.length := by
    simp only [sphereStore, List.length_map, List.length_range]
    exact le_refl _
  have h3 : (sphereStore 6 6 1001 1001).K_dims 0 * (sphereStore 6 6 1001 1001).K_dims 1
      * (sphereStore 6 6 1001 1001).K_dims 2 ≤ (sphereStore 6 6 1001 1001).K_matrix.length := by
    simp only [sphereStore, List.length_map, List.length_range]
    exact le_refl _
  refine ⟨⟨h1, h2, h3⟩, ?_⟩
  obtain ⟨self0, e, _, _, _, _, hc, _⟩ :=
    C18_first_call_recomputes_unless_time_is_minus_one (sphereStore 6 6 1001 1001)
      (fun _ _ => 7) (fun _ => 7) (fun _ => 7) (movingAt (-1) 1) h1 h2 h3
  exact ⟨self0, e, hc rfl⟩

/-! ## ImpulseResponseForce: the lag-0 identity kernel -/

namespace ImpulseResponseForce

end ImpulseResponseForce

namespace ImpulseResponseForce

theorem slot_eq_emod (o : Int) : slot o = (o % 1001).toNat := by
  have hsz : size = 1001 := rfl
  simp only [slot, wrap_eq_emod, hsz]
  congr 1
  omega

theorem offset_after (self : ImpulseResponseForce) (bs : List ChBody) :
    (recomputedAll self bs).offset % 1001 = (self.offset - (bs.length : Int)) % 1001 := by
  induction bs using List.reverseRecOn with
  | nil => simp [recomputedAll]
  | append_singleton init b ih =>
    rw [recomputedAll_snoc]
    have hno := nextOffset_emod (recomputedAll self init).offset
    have e : ((recomputedAll self init).recomputed b).offset
        = nextOffset (recomputedAll self init).offset := rfl
    rw [e, List.length_append, List.length_singleton]
    push_cast
    omega

/-- A window slot whose lag is at least the number of recomputations still holds what it
held before the first of them. -/
theorem window_untouched (self : ImpulseResponseForce) (bs : List ChBody) :
    ∀ s : Nat, bs.length ≤ s → s < size →
      (recomputedAll self bs).velHistory[(wrap ((s : Int) + (recomputedAll self bs).offset)).toNat]?
        = self.velHistory[(wrap (((s - bs.length : Nat) : Int) + self.offset)).toNat]? := by
  induction bs using List.reverseRecOn with
  | nil => intro s _ _; rfl
  | append_singleton init b ih =>
    intro s hsl hs
    have hsz : size = 1001 := rfl
    simp only [List.length_append, List.length_singleton] at hsl ⊢
    rw [recomputedAll_snoc]
    have hno := nextOffset_emod (recomputedAll self init).offset
    simp only [recomputed]
    have ih1 := ih (s - 1) (by omega) (by omega)
    have e1 : (wrap ((s : Int) + nextOffset (recomputedAll self init).offset)).toNat
        = (wrap (((s - 1 : Nat) : Int) + (recomputedAll self init).offset)).toNat := by
      rw [wrap_eq_emod, wrap_eq_emod]
      congr 1
      omega
    have hne : slot (nextOffset (recomputedAll self init).offset)
        ≠ (wrap ((s : Int) + nextOffset (recomputedAll self init).offset)).toNat := by
      rw [slot_eq_emod, wrap_eq_emod]
      omega
    have e2 : s - 1 - init.length = s - (init.length + 1) := by omega
    rw [List.getElem?_set, if_neg hne, e1, ih1, e2]

theorem chain_take {α : Type} (R : α → α → Prop) (l : List α) :
    ∀ (a : α) (n : Nat), List.Chain R a l → List.Chain R a (l.take n) := by
  induction l with
  | nil => intro a n h; simp
  | cons b rest ih =>
    intro a n h
    cases n with
    | zero => exact List.Chain.nil
    | succ n =>
      rw [List.chain_cons] at h
      rw [List.take_succ_cons, List.chain_cons]
      exact ⟨h.1, ih b n h.2⟩

end ImpulseResponseForce

/-- For a freshly constructed object and every number `m` of recomputations with the
inputs `bs[0], ..., bs[m-1]`, for every lag `s` in [0, 1001) of the literal window the slot
`velHistory[wrap(s + offset)]` holds the velocity of `bs[m-1-s]` when `s < m` and the zero
vector when `s >= m`; the slot written by recomputation `j` still holds that sample after
every recomputation `m` with `j <= m < j + 1001`, none of the recomputations
`j+1, ..., j+1000` writes it, and recomputation `j + 1001` writes it. -/
theorem fresh_literal_window_holds_inputs_then_zeros (file : BodyFileInfo)
    (indet : Nat → ChVectorN6) (indetForce indetTemp : ChVectorN6) (bs : List ChBody)
    (hK2 : 1001 ≤ file.K_dims 2) (hts : 1001 ≤ file.timesteps.length)
    (hKm : file.K_dims 0 * file.K_dims 1 * file.K_dims 2 ≤ file.K_matrix.length)
    (hrec : List.Chain (fun a b => a ≠ b) (-1 : ℚ) (bs.map (fun b => b.ChTime))) :
    ∃ self0 : ImpulseResponseForce,
      ImpulseResponseForce.new file indet indetForce indetTemp = .ok self0 ∧
      ∀ m : Nat, m ≤ bs.length →
        ∃ (selfm : ImpulseResponseForce) (out : List Event),
          self0.steps (bs.take m) = .ok (selfm, out) ∧
          out.count (Event.probe "offset--") = m ∧
          (∀ s : Nat, s < ImpulseResponseForce.size →
            (s < m →
              selfm.velHistory[(ImpulseResponseForce.wrap ((s : Int) + selfm.offset)).toNat]?
                = (bs[m - 1 - s]?).map ImpulseResponseForce.velocity) ∧
            (m ≤ s →
              selfm.velHistory[(ImpulseResponseForce.wrap ((s : Int) + selfm.offset)).toNat]?
                = some (fun _ => 0))) ∧
          ∀ j : Nat, 1 ≤ j → j ≤ m →
            ∃ (selfj : ImpulseResponseForce) (outj : List Event),
              self0.steps (bs.take j) = .ok (selfj, outj) ∧
              (m < j + ImpulseResponseForce.size →
                selfm.velHistory[ImpulseResponseForce.slot selfj.offset]?
                  = (bs[j - 1]?).map ImpulseResponseForce.velocity) ∧
              (j < m → m < j + ImpulseResponseForce.size →
                ImpulseResponseForce.slot selfm.offset
                  ≠ ImpulseResponseForce.slot selfj.offset) ∧
              (m = j + ImpulseResponseForce.size →
                ImpulseResponseForce.slot selfm.offset = ImpulseResponseForce.slot selfj.offset ∧
                selfm.velHistory[ImpulseResponseForce.slot selfj.offset]?
                  = (bs[m - 1]?).map ImpulseResponseForce.velocity) := by
  have hsz : ImpulseResponseForce.size = 1001 := rfl
  have hv0 := ImpulseResponseForce.new_valid file indet hts hKm
  refine ⟨_, ImpulseResponseForce.new_ok file indet indetForce indetTemp hK2, ?_⟩
  generalize hself : ({ fileInfo := file
                        velHistory := List.replicate 1001 (fun _ => 0)
                          ++ ((List.range (file.K_dims 2)).map indet).drop 1001
                        timeSteps := file.timesteps
                        currentForce := fun _ => 0
                        offset := 0
                        prevTime := -1 } : ImpulseResponseForce) = self0 at hv0 ⊢
  have hoff0 : self0.offset = 0 := by rw [← hself]
  have hprev0 : self0.prevTime = -1 := by rw [← hself]
  have hzero : ∀ j : Nat, j < 1001 → self0.velHistory[j]? = some (fun _ => 0) := by
    intro j hj
    rw [← hself]
    exact ImpulseResponseForce.new_window_zero file indet j hj
  have hsteps : ∀ n : Nat, ∃ out : List Event,
      self0.steps (bs.take n) = .ok (ImpulseResponseForce.recomputedAll self0 (bs.take n), out) ∧
      out.count (Event.probe "offset--") = (bs.take n).length := by
    intro n
    apply ImpulseResponseForce.steps_ok (bs.take n) self0 hv0
    rw [hprev0, List.map_take]
    exact ImpulseResponseForce.chain_take _ _ _ n hrec
  have hlen : ∀ n : Nat, n ≤ bs.length → (bs.take n).length = n := by
    intro n hn
    rw [List.length_take]
    omega
  have hoff : ∀ n : Nat, n ≤ bs.length →
      (ImpulseResponseForce.recomputedAll self0 (bs.take n)).offset % 1001
        = (-(n : Int)) % 1001 := by
    intro n hn
    rw [ImpulseResponseForce.offset_after, hoff0, hlen n hn]
    congr 1
    omega
  have hwin : ∀ m : Nat, m ≤ bs.length → ∀ s : Nat, s < ImpulseResponseForce.size → s < m →
      (ImpulseResponseForce.recomputedAll self0 (bs.take m)).velHistory[(ImpulseResponseForce.wrap
          ((s : Int) + (ImpulseResponseForce.recomputedAll self0 (bs.take m)).offset)).toNat]?
        = (bs[m - 1 - s]?).map ImpulseResponseForce.velocity := by
    intro m hm s hs hsm
    have h := ImpulseResponseForce.window_after self0 hv0.1 (bs.take m) s hs
      (by rw [hlen m hm]; exact hsm)
    rw [h, hlen m hm, List.getElem?_take_of_lt (by omega)]
  intro m hm
  obtain ⟨out, e, hc⟩ := hsteps m
  refine ⟨_, out, e, by rw [hc, hlen m hm], fun s hs => ⟨hwin m hm s hs, fun hms => ?_⟩,
    fun j hj1 hjm => ?_⟩
  · have h := ImpulseResponseForce.window_untouched self0 (bs.take m) s
      (by rw [hlen m hm]; exact hms) hs
    rw [h, hoff0]
    apply hzero
    have := ImpulseResponseForce.wrap_toNat_lt (((s - (bs.take m).length : Nat) : Int) + 0)
    omega
  · obtain ⟨outj, ej, _⟩ := hsteps j
    have hoj := hoff j (le_trans hjm hm)
    have hom := hoff m hm
    refine ⟨_, outj, ej, fun hlt => ?_, fun hjlt hlt => ?_, fun heq => ⟨?_, ?_⟩⟩
    · have h := hwin m hm (m - j) (by omega) (by omega)
      have e1 : (ImpulseResponseForce.wrap (((m - j : Nat) : Int)
            + (ImpulseResponseForce.recomputedAll self0 (bs.take m)).offset)).toNat
          = ImpulseResponseForce.slot
              (ImpulseResponseForce.recomputedAll self0 (bs.take j)).offset := by
        rw [ImpulseResponseForce.slot_eq_emod, ImpulseResponseForce.wrap_eq_emod]
        congr 1
        omega
      have e2 : m - 1 - (m - j) = j - 1 := by omega
      rw [e1, e2] at h
      exact h
    · rw [ImpulseResponseForce.slot_eq_emod, ImpulseResponseForce.slot_eq_emod]
      omega
    · rw [ImpulseResponseForce.slot_eq_emod, ImpulseResponseForce.slot_eq_emod]
      congr 1
      omega
    · have h := hwin m hm 0 (by omega) (by omega)
      have e1 : (ImpulseResponseForce.wrap (((0 : Nat) : Int)
            + (ImpulseResponseForce.recomputedAll self0 (bs.take m)).offset)).toNat
          = ImpulseResponseForce.slot
              (ImpulseResponseForce.recomputedAll self0 (bs.take j)).offset := by
        rw [ImpulseResponseForce.slot_eq_emod, ImpulseResponseForce.wrap_eq_emod]
        congr 1
        omega
      rw [e1] at h
      exact h

/-! ## ImpulseResponseForce: a kernel of shape 6 x 6 x 1001 -/

namespace ImpulseResponseForce

theorem lookup_in_range (f : BodyFileInfo) (h0 : f.K_dims 0 = 6) (h1 : f.K_dims 1 = 6)
    (h2 : f.K_dims 2 = 1001) (hKm : f.K_matrix.length = 6 * 6 * 1001)
    (r c s : Nat) (hr : r < 6) (hc : c < 6) (hs : s < size) :
    0 ≤ f.flatIndex r c s ∧
    f.flatIndex r c s < ((f.K_dims 0 * f.K_dims 1 * f.K_dims 2 : Nat) : Int) ∧
    ∃ v : ℚ, f.get_impulse_resp r c s = .ok (v, []) := by
  have hsz : size = 1001 := rfl
  have hlt : s + 1001 * (c + r * 6) < 6 * 6 * 1001 := by omega
  have hpos : (s : Int) + (f.K_dims 2 : Int) * ((c : Int) + (r : Int) * (f.K_dims 1 : Int))
      = ((s + 1001 * (c + r * 6) : Nat) : Int) := by
    rw [h1, h2]
    push_cast
    ring
  have hidx : f.flatIndex r c s = ((s + 1001 * (c + r * 6) : Nat) : Int) := by
    rw [BodyFileInfo.flatIndex_of_int f r c s (by rw [hpos]; omega) (by rw [hpos]; omega), hpos]
  have a : 0 ≤ f.flatIndex r c s := by rw [hidx]; exact Int.ofNat_nonneg _
  have b : f.flatIndex r c s < ((f.K_dims 0 * f.K_dims 1 * f.K_dims 2 : Nat) : Int) := by
    rw [hidx, h0, h1, h2]
    exact Int.ofNat_lt.mpr hlt
  have hl : (f.flatIndex r c s).toNat < f.K_matrix.length := by
    rw [hidx, Int.toNat_ofNat, hKm]
    exact hlt
  exact ⟨a, b, _, BodyFileInfo.get_impulse_resp_inside f r c s _ a b
    (List.getElem?_eq_getElem hl)⟩

theorem colBody_out (f : BodyFileInfo) (vh : List ChVectorN6) (vi : Int) (r st c : Nat)
    (w w1 : Work) (v : ℚ) (hget : f.get_impulse_resp r c st = .ok (v, []))
    (h : colBody f vh vi r st c w = .ok w1) : w1.out = w.out := by
  simp only [colBody, hget, ok_bind, bind_eq_ok, pure, Except.pure, Except.ok.injEq] at h
  obtain ⟨_, _, _, _, _, _, _, _, _, _, h⟩ := h
  rw [← h]
  simp

theorem stBody_out (f : BodyFileInfo) (vh : List ChVectorN6) (ts : List ℚ) (offset : Int)
    (r st : Nat) (w w1 : Work)
    (hget : ∀ c : Nat, c < 6 → ∃ v : ℚ, f.get_impulse_resp r c st = .ok (v, []))
    (h : stBody f vh ts offset r st w = .ok w1) : w1.out = w.out := by
  simp only [stBody, bind_eq_ok] at h
  obtain ⟨tmp, _, w2, hloop, hrest⟩ := h
  have h2 : w2.out = w.out :=
    forLoop_ok_inv 6 (colBody f vh (wrap ((st : Int) + offset)) r st)
      (fun _ t => t.out = w.out) _ w2 hloop rfl
      (fun c t t1 hc hI hb => by
        obtain ⟨v, hv⟩ := hget c hc
        show t1.out = w.out
        rw [colBody_out f vh _ r st c t t1 v hv hb]
        exact hI)
  by_cases h0 : st > 0
  · rw [if_pos h0] at hrest
    simp only [bind_eq_ok, pure, Except.pure, Except.ok.injEq] at hrest
    obtain ⟨_, _, _, _, _, _, _, _, _, _, _, _, hrest⟩ := hrest
    rw [← hrest]
    exact h2
  · rw [if_neg h0] at hrest
    simp only [pure, Except.pure, Except.ok.injEq] at hrest
    rw [← hrest]
    exact h2

theorem rowBody_out (f : BodyFileInfo) (vh : List ChVectorN6) (ts : List ℚ) (offset : Int)
    (r : Nat) (w w1 : Work)
    (hget : ∀ c st : Nat, c < 6 → st < size → ∃ v : ℚ, f.get_impulse_resp r c st = .ok (v, []))
    (h : rowBody f vh ts offset r w = .ok w1) : w1.out = w.out := by
  simp only [rowBody, bind_eq_ok] at h
  obtain ⟨cf, _, hloop⟩ := h
  exact forLoop_ok_inv size (stBody f vh ts offset r)
    (fun _ t => t.out = w.out) _ w1 hloop rfl
    (fun st t t1 hst hI hb => by
      show t1.out = w.out
      rw [stBody_out f vh ts offset r st t t1 (fun c hc => hget c st hc hst) hb]
      exact hI)

/-- With every lookup of the window in range, a recomputation prints nothing. -/
theorem convolutionIntegral_out (self : ImpulseResponseForce) (body : ChBody)
    (ht : body.ChTime ≠ self.prevTime)
    (hget : ∀ r c st : Nat, r < 6 → c < 6 → st < size →
      ∃ v : ℚ, self.fileInfo.get_impulse_resp r c st = .ok (v, []))
    (x : ChVectorN6) (self1 : ImpulseResponseForce) (out : List Event)
    (h : self.convolutionIntegral body = .ok (x, self1, out)) :
    out = [Event.probe "offset--"] := by
  simp only [convolutionIntegral, if_neg ht, bind_eq_ok, pure, Except.pure, Except.ok.injEq,
    Prod.mk.injEq] at h
  obtain ⟨vh, _, w, hloop, _, _, hout⟩ := h
  rw [← hout]
  exact forLoop_ok_inv 6 (rowBody self.fileInfo vh self.timeSteps _)
    (fun _ t => t.out = [Event.probe "offset--"]) _ w hloop rfl
    (fun r t t1 hr hI hb => by
      show t1.out = [Event.probe "offset--"]
      rw [rowBody_out self.fileInfo vh self.timeSteps _ r t t1
        (fun c st hc hst => hget r c st hr hc hst) hb]
      exact hI)

theorem steps_out (bs : List ChBody) :
    ∀ self : ImpulseResponseForce, self.Valid →
      (∀ r c st : Nat, r < 6 → c < 6 → st < size →
        ∃ v : ℚ, self.fileInfo.get_impulse_resp r c st = .ok (v, [])) →
      List.Chain (fun a b => a ≠ b) self.prevTime (bs.map (fun b => b.ChTime)) →
      self.steps bs = .ok (recomputedAll self bs,
        List.replicate bs.length (Event.probe "offset--")) := by
  induction bs with
  | nil => intro self _ _ _; rfl
  | cons b rest ih =>
    intro self hv hget hc
    simp only [List.map_cons, List.chain_cons] at hc
    obtain ⟨out1, e1, _⟩ := convolutionIntegral_recompute self b hv (Ne.symm hc.1)
      (fun _ => True) trivial (fun _ _ => trivial)
    have ho := convolutionIntegral_out self b (Ne.symm hc.1) hget _ _ _ e1
    have e2 := ih (self.recomputed b) (recomputed_valid self b hv) hget hc.2
    simp only [steps, e1, e2, ho]
    rfl

end ImpulseResponseForce

/-- C19: for a store whose kernel has the shape 6 x 6 x 1001 and whose time samples
number 1001, the constructor returns an object and every sequence of recomputations
returns a state; in this embedding every access to `velHistory`, `timeSteps`,
`timeseries` and `tmp_s` is checked against the bounds of the block and a call returns a
value only when all of them passed. Every lookup `get_impulse_resp(row, col, st)` with
`row`, `col` in [0, 6) and `st` in [0, 1001) has its flat index in `[0, 6 * 6 * 1001)` and
prints nothing, so the output of the recomputations holds no warning. -/
theorem C19_shape_6_6_1001_keeps_every_access_in_bounds (file : BodyFileInfo)
    (indet : Nat → ChVectorN6) (indetForce indetTemp : ChVectorN6) (bs : List ChBody)
    (h0 : file.K_dims 0 = 6) (h1 : file.K_dims 1 = 6) (h2 : file.K_dims 2 = 1001)
    (hKm : file.K_matrix.length = 6 * 6 * 1001) (hts : file.timesteps.length = 1001)
    (hrec : List.Chain (fun a b => a ≠ b) (-1 : ℚ) (bs.map (fun b => b.ChTime))) :
    ∃ self0 self1 : ImpulseResponseForce,
      ImpulseResponseForce.new file indet indetForce indetTemp = .ok self0 ∧
      self0.velHistory.length = 1001 ∧ self0.timeSteps.length = 1001 ∧
      self0.steps bs = .ok (self1, List.replicate bs.length (Event.probe "offset--")) ∧
      self1.velHistory.length = 1001 ∧ self1.timeSteps.length = 1001 ∧
      (∀ row col st : Nat, row < 6 → col < 6 → st < ImpulseResponseForce.size →
        0 ≤ file.flatIndex row col st ∧
        file.flatIndex row col st
          < ((file.K_dims 0 * file.K_dims 1 * file.K_dims 2 : Nat) : Int) ∧
        (∃ v : ℚ, file.get_impulse_resp row col st = .ok (v, [])) ∧
        row * 6 * ImpulseResponseForce.size + col * ImpulseResponseForce.size + st
          < 6 * 6 * ImpulseResponseForce.size ∧
        row * ImpulseResponseForce.size + st < 6 * ImpulseResponseForce.size ∧
        (ImpulseResponseForce.wrap ((st : Int) + self1.offset)).toNat < self1.velHistory.length) ∧
      ImpulseResponseForce.slot self1.offset < self1.velHistory.length := by
  have hsz : ImpulseResponseForce.size = 1001 := rfl
  have hK2 : 1001 ≤ file.K_dims 2 := by rw [h2]
  have hv0 := ImpulseResponseForce.new_valid file indet (le_of_eq hts.symm)
    (by rw [h0, h1, h2, hKm])
  have hl0 : (List.replicate 1001 (fun _ => (0 : ℚ))
      ++ ((List.range (file.K_dims 2)).map indet).drop 1001 : List ChVectorN6).length
        = 1001 := by
    rw [List.length_append, List.length_replicate, List.length_drop, List.length_map,
      List.length_range, h2]
  have hget := ImpulseResponseForce.lookup_in_range file h0 h1 h2 hKm
  have hs := ImpulseResponseForce.steps_out bs _ hv0
    (fun r c st hr hc hst => (hget r c st hr hc hst).2.2) hrec
  have hl1 := ImpulseResponseForce.recomputedAll_length bs
    { fileInfo := file
      velHistory := List.replicate 1001 (fun _ => 0)
        ++ ((List.range (file.K_dims 2)).map indet).drop 1001
      timeSteps := file.timesteps
      currentForce := fun _ => 0
      offset := 0
      prevTime := -1 }
  have hts1 : ∀ (l : List ChBody) (s : ImpulseResponseForce),
      (ImpulseResponseForce.recomputedAll s l).timeSteps = s.timeSteps := by
    intro l
    induction l with
    | nil => intro s; rfl
    | cons b rest ih => intro s; exact ih (s.recomputed b)
  refine ⟨_, _, ImpulseResponseForce.new_ok file indet indetForce indetTemp hK2, hl0, hts, hs,
    by rw [hl1]; exact hl0, by rw [hts1]; exact hts, fun row col st hr hc hst => ?_, ?_⟩
  · obtain ⟨a, b, c⟩ := hget row col st hr hc hst
    have hst1 : st < 1001 := hst
    refine ⟨a, b, c, by rw [hsz]; omega, by rw [hsz]; omega, ?_⟩
    rw [hl1, hl0]
    exact ImpulseResponseForce.wrap_toNat_lt _
  · rw [hl1, hl0]
    exact ImpulseResponseForce.slot_lt _

/-- The constructor on `sphereStore` (kernel 6 x 6 x 1001, 1001 time samples) followed by
two recomputations: the output is the two `offset--` marks and no warning. -/
theorem C19_shape_6_6_1001_keeps_every_access_in_bounds_witness :
    ((sphereStore 6 6 1001 1001).K_dims 0 = 6 ∧ (sphereStore 6 6 1001 1001).K_dims 1 = 6 ∧
      (sphereStore 6 6 1001 1001).K_dims 2 = 1001 ∧
      (sphereStore 6 6 1001 1001).K_matrix.length = 6 * 6 * 1001 ∧
      (sphereStore 6 6 1001 1001).timesteps.length = 1001 ∧
      List.Chain (fun a b => a ≠ b) (-1 : ℚ) ((taggedBodies 2).map (fun b => b.ChTime))) ∧
    ∃ self0 self1 : ImpulseResponseForce,
      ImpulseResponseForce.new (sphereStore 6 6 1001 1001) (fun _ _ => 7) (fun _ => 7)
          (fun _ => 7) = .ok self0 ∧
      self0.steps (taggedBodies 2)
        = .ok (self1, List.replicate (taggedBodies 2).length (Event.probe "offset--")) := by
  have h3 : (sphereStore 6 6 1001 1001).K_matrix.length = 6 * 6 * 1001 := by
    simp only [sphereStore, List.length_map, List.length_range]
  have h4 : (sphereStore 6 6 1001 1001).timesteps.length = 1001 := by
    simp only [sphereStore, List.length_map, List.length_range]
  have h5 : List.Chain (fun a b => a ≠ b) (-1 : ℚ) ((taggedBodies 2).map (fun b => b.ChTime)) :=
    taggedBodies_chain 2
  refine ⟨⟨rfl, rfl, rfl, h3, h4, h5⟩, ?_⟩
  obtain ⟨self0, self1, e0, _, _, e1, _⟩ :=
    C19_shape_6_6_1001_keeps_every_access_in_bounds (sphereStore 6 6 1001 1001)
      (fun _ _ => 7) (fun _ => 7) (fun _ => 7) (taggedBodies 2) rfl rfl rfl h3 h4 h5
  exact ⟨self0, self1, e0, e1⟩

/-! ## ImpulseResponseForce: a kernel with 2000 steps -/

namespace ImpulseResponseForce

theorem specWrap_2000_eq_emod (k : Int) : specWrap 2000 k = k % 2000 := by
  have hs : ((2000 : Nat) : Int) = 2000 := rfl
  simp only [specWrap, hs]
  have hneg : ∀ j : Int, j < 0 → Int.tmod j 2000 = -((-j) % 2000) := by
    intro j hj
    obtain ⟨m, rfl⟩ := Int.eq_negSucc_of_lt_zero hj
    have e : -(Int.negSucc m) = ((m + 1 : Nat) : Int) := rfl
    rw [e]
    rfl
  rcases le_or_lt 0 k with hk | hk
  · have e : Int.tmod k 2000 = k % 2000 := Int.tmod_eq_emod hk (by norm_num)
    rw [e]
    have h2 : 0 ≤ k % 2000 + 2000 := by omega
    rw [Int.tmod_eq_emod h2 (by norm_num)]
    omega
  · rw [hneg k hk]
    have h2 : 0 ≤ -(-k % 2000) + 2000 := by omega
    rw [Int.tmod_eq_emod h2 (by norm_num)]
    omega

/-- With `S` the literal window length the parametrised law is the one the loops compute. -/
theorem specForce_size (f : BodyFileInfo) (vh : List ChVectorN6) (ts : List ℚ) (offset : Int)
    (r : Nat) : specForce size f vh ts offset r = trapezoid f vh ts offset r := rfl

theorem lateKernelStore_kernel (r c s : Nat) (hr : r < 6) (hc : c < 6) (hs : s < 2000) :
    kernel lateKernelStore r c s = if r = 0 ∧ c = 0 ∧ s = 1001 then 1 else 0 := by
  have hlt : s + 2000 * (c + r * 6) < 72000 := by omega
  have hpos : (s : Int) + (lateKernelStore.K_dims 2 : Int)
      * ((c : Int) + (r : Int) * (lateKernelStore.K_dims 1 : Int))
        = ((s + 2000 * (c + r * 6) : Nat) : Int) := by
    show (s : Int) + ((2000 : Nat) : Int) * ((c : Int) + (r : Int) * ((6 : Nat) : Int)) = _
    push_cast
    ring
  have hidx : lateKernelStore.flatIndex r c s = ((s + 2000 * (c + r * 6) : Nat) : Int) := by
    rw [BodyFileInfo.flatIndex_of_int lateKernelStore r c s (by rw [hpos]; omega)
      (by rw [hpos]; omega), hpos]
  have hget : lateKernelStore.K_matrix[(lateKernelStore.flatIndex r c s).toNat]?
      = some (if r = 0 ∧ c = 0 ∧ s = 1001 then 1 else 0) := by
    rw [hidx, Int.toNat_ofNat]
    simp only [lateKernelStore]
    rw [List.getElem?_map, List.getElem?_range hlt, Option.map_some']
    congr 1
    have hiff : (s + 2000 * (c + r * 6) = 1001) ↔ (r = 0 ∧ c = 0 ∧ s = 1001) := by
      constructor
      · intro h; omega
      · intro h; omega
    by_cases h : r = 0 ∧ c = 0 ∧ s = 1001
    · rw [if_pos h, if_pos (hiff.mpr h)]
    · rw [if_neg h, if_neg (fun h1 => h (hiff.mp h1))]
  have e := BodyFileInfo.get_impulse_resp_inside lateKernelStore r c s _
    (by rw [hidx]; exact Int.ofNat_nonneg _)
    (by rw [hidx]; show ((s + 2000 * (c + r * 6) : Nat) : Int) < ((6 * 6 * 2000 : Nat) : Int)
        exact Int.ofNat_lt.mpr hlt) hget
  unfold kernel
  rw [e]
  show (if r = 0 ∧ c = 0 ∧ s = 1001 then (1 : ℚ) else 0) * 1 = _
  rw [mul_one]

theorem lateKernelStore_times (s : Nat) (hs : s < 2000) :
    lateKernelStore.timesteps.getD s 0 = (s : ℚ) := by
  simp only [lateKernelStore]
  rw [List.getD_eq_getElem?_getD, List.getElem?_map, List.getElem?_range hs]
  rfl

/-- The fields of the object the constructor returns. -/
theorem new_fields (file : BodyFileInfo) (indet : Nat → ChVectorN6)
    (indetForce indetTemp : ChVectorN6) (hK : 1001 ≤ file.K_dims 2) :
    ∃ st : ImpulseResponseForce,
      new file indet indetForce indetTemp = .ok st ∧
      st.fileInfo = file ∧ st.timeSteps = file.timesteps ∧ st.offset = 0 ∧ st.prevTime = -1 ∧
      st.velHistory = List.replicate 1001 (fun _ => 0)
        ++ ((List.range (file.K_dims 2)).map indet).drop 1001 :=
  ⟨_, new_ok file indet indetForce indetTemp hK, rfl, rfl, rfl, rfl, rfl⟩

/-- The object the constructor builds on `lateKernelStore`, every indeterminate vector
being (7, 7, 7, 7, 7, 7). -/
theorem new_late :
    ∃ st : ImpulseResponseForce,
      new lateKernelStore (fun _ _ => 7) (fun _ => 7) (fun _ => 7) = .ok st ∧
      st.Valid ∧ st.offset = 0 ∧ st.prevTime = -1 ∧ st.fileInfo = lateKernelStore ∧
      st.timeSteps = lateKernelStore.timesteps ∧ st.velHistory.length = 2000 := by
  have hk : lateKernelStore.K_dims 2 = 2000 := rfl
  obtain ⟨st, hnew, hf, hts, ho, hp, hvh⟩ := new_fields lateKernelStore (fun _ _ => 7)
    (fun _ => 7) (fun _ => 7) (by rw [hk]; norm_num)
  have hlen : st.velHistory.length = 2000 := by
    rw [hvh]
    simp only [List.length_append, List.length_replicate, List.length_drop, List.length_map,
      List.length_range, hk]
  refine ⟨st, hnew, ⟨?_, ?_, ?_⟩, ho, hp, hf, hts, hlen⟩
  · show size ≤ _
    rw [hlen]
    exact (by decide : (1001 : Nat) ≤ 2000)
  · rw [hts]
    simp only [lateKernelStore, List.length_map, List.length_range]
    exact (by decide : (1001 : Nat) ≤ 2000)
  · rw [hf]
    simp only [lateKernelStore, List.length_map, List.length_range]
    exact le_refl _

end ImpulseResponseForce

/-- C6 fails on the code: on a store whose kernel has `S = 2000` steps, with the single
nonzero entry `kernel(0, 0, 1001) = 1` and the time samples 0, 1, ..., 1999, the first
recomputation of a freshly constructed object, for a body with velocity
(1, 1, 1, 0, 0, 0), returns `force[0] = 0`, because the loop over `st` stops at the
literal 1001, while the sum over `s = 1 .. S-1` with `S = 2000`, on the `velHistory` and
`offset` this recomputation leaves, is -1. -/
theorem C6_lags_beyond_1000_are_not_integrated :
    ∃ (st0 st1 : ImpulseResponseForce) (out : List Event),
      ImpulseResponseForce.new lateKernelStore (fun _ _ => 7) (fun _ => 7) (fun _ => 7)
        = .ok st0 ∧
      st0.fileInfo.K_dims 2 = 2000 ∧ st0.velHistory.length = 2000 ∧
      st0.timeSteps.length = 2000 ∧
      ImpulseResponseForce.kernel st0.fileInfo 0 0 1001 = 1 ∧
      st0.convolutionIntegral (movingAt 0 1) = .ok (st1.currentForce, st1, out) ∧
      st1.offset = -1 ∧
      st1.velHistory[1000]? = some (ImpulseResponseForce.velocity (movingAt 0 1)) ∧
      ImpulseResponseForce.velocity (movingAt 0 1) 0 = 1 ∧
      st1.currentForce 0 = 0 ∧
      ImpulseResponseForce.specForce 2000 st1.fileInfo st1.velHistory st1.timeSteps
        st1.offset 0 = -1 := by
  obtain ⟨st0, hnew, hv, hoff, hprev, hfile, hts, hlen⟩ := ImpulseResponseForce.new_late
  have hsz : ImpulseResponseForce.size = 1001 := rfl
  have ht : (movingAt 0 1).ChTime ≠ st0.prevTime := by
    rw [hprev]
    show (0 : ℚ) ≠ -1
    norm_num
  obtain ⟨out, e, _⟩ := ImpulseResponseForce.convolutionIntegral_recompute st0
    (movingAt 0 1) hv ht (fun _ => True) trivial (fun _ _ => trivial)
  have hno : ImpulseResponseForce.nextOffset st0.offset = -1 := by
    rw [hoff]
    decide
  have hslot : ImpulseResponseForce.slot (-1) = 1000 := by decide
  have hv0 : ImpulseResponseForce.velocity (movingAt 0 1) 0 = 1 := by
    simp [ImpulseResponseForce.velocity, movingAt, comma]
  have hc0 : comp6 (ImpulseResponseForce.velocity (movingAt 0 1)) 0 = 1 := by
    simp [comp6, ImpulseResponseForce.velocity, movingAt, comma]
  have hvh : (st0.recomputed (movingAt 0 1)).velHistory
      = st0.velHistory.set 1000 (ImpulseResponseForce.velocity (movingAt 0 1)) := by
    show List.set _ (ImpulseResponseForce.slot (ImpulseResponseForce.nextOffset st0.offset)) _ = _
    rw [hno, hslot]
  have hget : (st0.velHistory.set 1000 (ImpulseResponseForce.velocity (movingAt 0 1)))[1000]?
      = some (ImpulseResponseForce.velocity (movingAt 0 1)) := by
    rw [List.getElem?_set, if_pos rfl, if_pos (by rw [hlen]; decide)]
  have hf1 : (st0.recomputed (movingAt 0 1)).fileInfo = lateKernelStore := hfile
  have hts1 : (st0.recomputed (movingAt 0 1)).timeSteps = lateKernelStore.timesteps := hts
  have hoff1 : (st0.recomputed (movingAt 0 1)).offset = -1 := hno
  refine ⟨st0, _, out, hnew, ?_, hlen, ?_, ?_, e, hoff1, ?_, hv0, ?_, ?_⟩
  · rw [hfile]
    rfl
  · rw [hts]
    simp only [lateKernelStore, List.length_map, List.length_range]
  · rw [hfile, ImpulseResponseForce.lateKernelStore_kernel 0 0 1001 (by decide) (by decide)
      (by decide)]
    simp
  · rw [hvh]
    exact hget
  · show ImpulseResponseForce.trapezoid st0.fileInfo _ _ _ 0 = 0
    rw [hfile]
    unfold ImpulseResponseForce.trapezoid
    rw [neg_eq_zero]
    apply Finset.sum_eq_zero
    intro s hs
    have h1 := (Finset.mem_Ico.mp hs).1
    have h2 := (Finset.mem_Ico.mp hs).2
    have hz : ∀ (vh : List ChVectorN6) (o : Int) (t : Nat), t < 1001 →
        ImpulseResponseForce.integrand lateKernelStore vh o 0 t = 0 := by
      intro vh o t ht1
      unfold ImpulseResponseForce.integrand
      apply Finset.sum_eq_zero
      intro c hc
      rw [ImpulseResponseForce.lateKernelStore_kernel 0 c t (by decide)
        (Finset.mem_range.mp hc) (by omega), if_neg (by omega), zero_mul]
    rw [hz _ _ (s - 1) (by omega), hz _ _ s (by omega)]
    simp
  · rw [hf1, hts1, hoff1, hvh]
    unfold ImpulseResponseForce.specForce
    have hg : ∀ t : Nat, t < 2000 → ImpulseResponseForce.specIntegrand 2000 lateKernelStore
        (st0.velHistory.set 1000 (ImpulseResponseForce.velocity (movingAt 0 1))) (-1) 0 t
        = if t = 1001 then 1 else 0 := by
      intro t ht1
      unfold ImpulseResponseForce.specIntegrand
      have ec : ∀ c ∈ Finset.range 6,
          ImpulseResponseForce.kernel lateKernelStore 0 c t
            * comp6 ((st0.velHistory.set 1000 (ImpulseResponseForce.velocity (movingAt 0 1))).getD
                (ImpulseResponseForce.specWrap 2000 ((t : Int) + -1)).toNat 0) c
            = if c = 0 then (if t = 1001 then 1 else 0) else 0 := by
        intro c hc
        rw [ImpulseResponseForce.lateKernelStore_kernel 0 c t (by decide)
          (Finset.mem_range.mp hc) ht1]
        by_cases h0 : c = 0
        · subst h0
          by_cases h9 : t = 1001
          · subst h9
            have hi : (ImpulseResponseForce.specWrap 2000 (((1001 : Nat) : Int) + -1)).toNat
                = 1000 := by decide
            rw [hi, List.getD_eq_getElem?_getD, hget]
            simp [hc0]
          · simp [h9]
        · simp [h0]
      rw [Finset.sum_congr rfl ec, Finset.sum_ite_eq' (Finset.range 6) 0
        (fun _ => if t = 1001 then (1 : ℚ) else 0), if_pos (by decide)]
    have et : ∀ s ∈ Finset.Ico 1 2000,
        (ImpulseResponseForce.specIntegrand 2000 lateKernelStore
            (st0.velHistory.set 1000 (ImpulseResponseForce.velocity (movingAt 0 1))) (-1) 0 (s - 1)
          + ImpulseResponseForce.specIntegrand 2000 lateKernelStore
            (st0.velHistory.set 1000 (ImpulseResponseForce.velocity (movingAt 0 1))) (-1) 0 s) / 2
          * (lateKernelStore.timesteps.getD s 0 - lateKernelStore.timesteps.getD (s - 1) 0)
        = (if s = 1002 then (1 : ℚ) / 2 else 0) + (if s = 1001 then (1 : ℚ) / 2 else 0) := by
      intro s hs
      have h1 := (Finset.mem_Ico.mp hs).1
      have h2 := (Finset.mem_Ico.mp hs).2
      rw [hg (s - 1) (by omega), hg s h2,
        ImpulseResponseForce.lateKernelStore_times s h2,
        ImpulseResponseForce.lateKernelStore_times (s - 1) (by omega)]
      have hd : ((s : ℚ) - ((s - 1 : Nat) : ℚ)) = 1 := by
        rw [Nat.cast_sub h1]
        simp
      rw [hd]
      by_cases h9 : s = 1001
      · subst h9
        norm_num
      · by_cases h8 : s = 1002
        · subst h8
          norm_num
        · have h7 : s - 1 ≠ 1001 := by omega
          rw [if_neg h7, if_neg h9, if_neg h8, if_neg h9]
          norm_num
    rw [Finset.sum_congr rfl et, Finset.sum_add_distrib,
      Finset.sum_ite_eq' (Finset.Ico 1 2000) 1002 (fun _ => (1 : ℚ) / 2),
      Finset.sum_ite_eq' (Finset.Ico 1 2000) 1001 (fun _ => (1 : ℚ) / 2),
      if_pos (Finset.mem_Ico.mpr ⟨by decide, by decide⟩),
      if_pos (Finset.mem_Ico.mpr ⟨by decide, by decide⟩)]
    norm_num

namespace ImpulseResponseForce

/-- Entries of `velHistory` from index 1001 on are never written by a recomputation. -/
theorem beyond_window_untouched (bs : List ChBody) :
    ∀ (self : ImpulseResponseForce) (j : Nat), size ≤ j →
      (recomputedAll self bs).velHistory[j]? = self.velHistory[j]? := by
  induction bs with
  | nil => intro self j _; rfl
  | cons b rest ih =>
    intro self j hj
    have e : recomputedAll self (b :: rest) = recomputedAll (self.recomputed b) rest := rfl
    rw [e, ih (self.recomputed b) j hj]
    show (self.velHistory.set (slot (nextOffset self.offset)) (velocity b))[j]? = _
    have hne : slot (nextOffset self.offset) ≠ j := by
      have := slot_lt (nextOffset self.offset)
      omega
    rw [List.getElem?_set, if_neg hne]

/-- The object the constructor builds on a store with 2000 kernel steps, every
indeterminate vector being (7, 7, 7, 7, 7, 7). -/
theorem new_long :
    ∃ st : ImpulseResponseForce,
      new (sphereStore 6 6 2000 2000) (fun _ _ => 7) (fun _ => 7) (fun _ => 7) = .ok st ∧
      st.Valid ∧ st.offset = 0 ∧ st.prevTime = -1 ∧ st.fileInfo.K_dims 2 = 2000 ∧
      st.velHistory.length = 2000 ∧
      ∀ j : Nat, 1001 ≤ j → j < 2000 → st.velHistory[j]? = some (fun _ => 7) := by
  have hk : (sphereStore 6 6 2000 2000).K_dims 2 = 2000 := rfl
  have hnew := new_ok (sphereStore 6 6 2000 2000) (fun _ _ => 7) (fun _ => 7) (fun _ => 7)
    (by rw [hk]; norm_num)
  have hlen : (List.replicate 1001 (fun _ => (0 : ℚ)) ++
      ((List.range ((sphereStore 6 6 2000 2000).K_dims 2)).map
        (fun _ _ => (7 : ℚ))).drop 1001 : List ChVectorN6).length = 2000 := by
    simp only [List.length_append, List.length_replicate, List.length_drop, List.length_map,
      List.length_range, hk]
  refine ⟨_, hnew, ?_, rfl, rfl, hk, hlen, ?_⟩
  · refine ⟨?_, ?_, ?_⟩
    · show size ≤ _
      rw [hlen]
      exact (by decide : (1001 : Nat) ≤ 2000)
    · simp only [sphereStore, List.length_map, List.length_range]
      exact (by decide : (1001 : Nat) ≤ 2000)
    · simp only [sphereStore, List.length_map, List.length_range]
      exact le_refl _
  · intro j h1 h2
    show (List.replicate 1001 (fun _ => (0 : ℚ)) ++
      ((List.range ((sphereStore 6 6 2000 2000).K_dims 2)).map
        (fun _ _ => (7 : ℚ))).drop 1001 : List ChVectorN6)[j]? = _
    rw [List.getElem?_append_right (by rw [List.length_replicate]; exact h1),
      List.length_replicate, List.getElem?_drop, List.getElem?_map,
      List.getElem?_range (by rw [hk]; omega)]
    rfl

/-- The offset after a non-empty run of recomputations from offset 0 is the number in
[-1001, -1] that is congruent to minus their count. -/
theorem offset_of_fresh (self : ImpulseResponseForce) (bs : List ChBody)
    (h0 : self.offset = 0) (hne : bs ≠ []) (o : Int) (ho1 : -1001 ≤ o) (ho2 : o ≤ -1)
    (hm : o % 1001 = (0 - (bs.length : Int)) % 1001) :
    (recomputedAll self bs).offset = o := by
  have hr := offset_range bs self (by omega) (by omega)
  have ha := offset_after self bs
  rw [h0] at ha
  have h3 := hr.2.2 hne
  have h1 := hr.1
  omega

theorem taggedBodies_ne_nil (n : Nat) (h : 0 < n) : taggedBodies n ≠ [] := by
  intro e
  have hl := congrArg List.length e
  simp only [taggedBodies, List.length_map, List.length_range, List.length_nil] at hl
  omega

theorem taggedBodies_length (n : Nat) : (taggedBodies n).length = n := by
  simp only [taggedBodies, List.length_map, List.length_range]

theorem taggedBodies_get (n k : Nat) (h : k < n) :
    (taggedBodies n)[k]? = some (movingAt (k : ℚ) ((k : ℚ) + 1)) := by
  simp only [taggedBodies]
  rw [List.getElem?_map, List.getElem?_range h]
  rfl

theorem velocity_movingAt_ne_seven (t v : ℚ) : velocity (movingAt t v) ≠ fun _ => 7 := by
  intro h
  have h3 := congrFun h ⟨3, by decide⟩
  simp [velocity, movingAt, comma] at h3

end ImpulseResponseForce

/-- C8 fails on the code: on a store whose kernel has `S = 2000` steps the constructor
gives `velHistory` 2000 entries, and after 2000 recomputations with tagged inputs the
entries 1001, ..., 1999 still hold their initial content (7, ..., 7), which is none of
the inputs; the slot `wrap(0 + offset, 2000)` where the claim puts the newest input
`v_2000` is one of them. Only the 1001 slots of the literal window are written: they hold
the last 1001 inputs in time order. -/
theorem C8_initial_content_remains_beyond_slot_1000 :
    ∃ (st0 st1 : ImpulseResponseForce) (out : List Event),
      ImpulseResponseForce.new (sphereStore 6 6 2000 2000) (fun _ _ => 7) (fun _ => 7)
        (fun _ => 7) = .ok st0 ∧
      st0.fileInfo.K_dims 2 = 2000 ∧ st0.velHistory.length = 2000 ∧
      st0.steps (taggedBodies 2000) = .ok (st1, out) ∧
      out.count (Event.probe "offset--") = 2000 ∧
      st1.offset = -999 ∧
      (∀ j : Nat, 1001 ≤ j → j < 2000 → st1.velHistory[j]? = some (fun _ => 7)) ∧
      (ImpulseResponseForce.specWrap 2000 (0 + st1.offset)).toNat = 1001 ∧
      st1.velHistory[(ImpulseResponseForce.specWrap 2000 (0 + st1.offset)).toNat]?
        = some (fun _ => 7) ∧
      (∀ b ∈ taggedBodies 2000, ImpulseResponseForce.velocity b ≠ fun _ => 7) ∧
      ∀ s : Nat, s < 1001 →
        st1.velHistory[(ImpulseResponseForce.wrap ((s : Int) + st1.offset)).toNat]?
          = ((taggedBodies 2000)[2000 - 1 - s]?).map ImpulseResponseForce.velocity := by
  obtain ⟨st0, hnew, hv, hoff, hprev, hK, hlen, hinit⟩ := ImpulseResponseForce.new_long
  have hl := ImpulseResponseForce.taggedBodies_length 2000
  have hc : List.Chain (fun a b => a ≠ b) st0.prevTime
      ((taggedBodies 2000).map (fun b => b.ChTime)) := by
    rw [hprev]
    exact taggedBodies_chain 2000
  obtain ⟨out, e, hcount⟩ := ImpulseResponseForce.steps_ok (taggedBodies 2000) st0 hv hc
  have hoff1 : (ImpulseResponseForce.recomputedAll st0 (taggedBodies 2000)).offset = -999 :=
    ImpulseResponseForce.offset_of_fresh st0 (taggedBodies 2000) hoff
      (ImpulseResponseForce.taggedBodies_ne_nil 2000 (by decide)) (-999) (by decide) (by decide)
      (by rw [hl]; decide)
  have hbeyond : ∀ j : Nat, 1001 ≤ j → j < 2000 →
      (ImpulseResponseForce.recomputedAll st0 (taggedBodies 2000)).velHistory[j]?
        = some (fun _ => 7) := by
    intro j h1 h2
    rw [ImpulseResponseForce.beyond_window_untouched (taggedBodies 2000) st0 j h1]
    exact hinit j h1 h2
  have hw : (ImpulseResponseForce.specWrap 2000
      (0 + (ImpulseResponseForce.recomputedAll st0 (taggedBodies 2000)).offset)).toNat
        = 1001 := by
    rw [hoff1]
    decide
  refine ⟨st0, _, out, hnew, hK, hlen, e, by rw [hcount, hl], hoff1, hbeyond, hw, ?_, ?_, ?_⟩
  · rw [hw]
    exact hbeyond 1001 (le_refl _) (by decide)
  · intro b hb
    simp only [taggedBodies, List.mem_map] at hb
    obtain ⟨k, _, rfl⟩ := hb
    exact ImpulseResponseForce.velocity_movingAt_ne_seven _ _
  · intro s hs
    have h := ImpulseResponseForce.window_after st0 hv.1 (taggedBodies 2000) s hs
      (by rw [hl]; omega)
    rw [hl] at h
    exact h

/-- C15 fails on the code: on a store whose kernel has `S = 2000` steps, after the first
recomputation of a fresh object the input `v_1` sits in slot 1000, while the slot
`wrap(0 + offset, 2000) = 1999` of the claim and the slot `wrap(1500 + offset, 2000) = 1499`
of a lag `s >= k` hold the unassigned content (7, ..., 7) of the `resize`, neither `v_1`
nor the zero vector; and the sample written by recomputation 1 is overwritten by
recomputation 1002 = 1 + 1001, not by recomputation 1 + 2000. -/
theorem C15_fresh_window_is_the_literal_1001_of_2000 :
    ∃ (st0 st1 st2 : ImpulseResponseForce) (out1 out2 : List Event),
      ImpulseResponseForce.new (sphereStore 6 6 2000 2000) (fun _ _ => 7) (fun _ => 7)
        (fun _ => 7) = .ok st0 ∧
      st0.fileInfo.K_dims 2 = 2000 ∧ st0.velHistory.length = 2000 ∧
      st0.steps (taggedBodies 1) = .ok (st1, out1) ∧
      st1.offset = -1 ∧
      st1.velHistory[1000]? = some (ImpulseResponseForce.velocity (movingAt 0 1)) ∧
      (ImpulseResponseForce.specWrap 2000 (0 + st1.offset)).toNat = 1999 ∧
      st1.velHistory[1999]? = some (fun _ => 7) ∧
      (ImpulseResponseForce.specWrap 2000 (1500 + st1.offset)).toNat = 1499 ∧
      st1.velHistory[1499]? = some (fun _ => 7) ∧
      ImpulseResponseForce.velocity (movingAt 0 1) ≠ (fun _ => 7) ∧
      ((fun _ => 7) : ChVectorN6) ≠ (fun _ => 0) ∧
      st0.steps (taggedBodies 1002) = .ok (st2, out2) ∧
      out2.count (Event.probe "offset--") = 1002 ∧
      st2.velHistory[1000]? = some (ImpulseResponseForce.velocity (movingAt 1001 1002)) ∧
      ImpulseResponseForce.velocity (movingAt 1001 1002)
        ≠ ImpulseResponseForce.velocity (movingAt 0 1) := by
  obtain ⟨st0, hnew, hv, hoff, hprev, hK, hlen, hinit⟩ := ImpulseResponseForce.new_long
  have hsz : ImpulseResponseForce.size = 1001 := rfl
  have hc : ∀ n : Nat, List.Chain (fun a b => a ≠ b) st0.prevTime
      ((taggedBodies n).map (fun b => b.ChTime)) := by
    intro n
    rw [hprev]
    exact taggedBodies_chain n
  obtain ⟨out1, e1, _⟩ := ImpulseResponseForce.steps_ok (taggedBodies 1) st0 hv (hc 1)
  obtain ⟨out2, e2, hcount2⟩ := ImpulseResponseForce.steps_ok (taggedBodies 1002) st0 hv (hc 1002)
  have hl1 := ImpulseResponseForce.taggedBodies_length 1
  have hl2 := ImpulseResponseForce.taggedBodies_length 1002
  have hoff1 : (ImpulseResponseForce.recomputedAll st0 (taggedBodies 1)).offset = -1 :=
    ImpulseResponseForce.offset_of_fresh st0 (taggedBodies 1) hoff
      (ImpulseResponseForce.taggedBodies_ne_nil 1 (by decide)) (-1) (by decide) (by decide)
      (by rw [hl1]; decide)
  have hoff2 : (ImpulseResponseForce.recomputedAll st0 (taggedBodies 1002)).offset = -1 :=
    ImpulseResponseForce.offset_of_fresh st0 (taggedBodies 1002) hoff
      (ImpulseResponseForce.taggedBodies_ne_nil 1002 (by decide)) (-1) (by decide) (by decide)
      (by rw [hl2]; decide)
  have hw1 := ImpulseResponseForce.window_after st0 hv.1 (taggedBodies 1) 0 (by decide)
    (by rw [hl1]; decide)
  have hw2 := ImpulseResponseForce.window_after st0 hv.1 (taggedBodies 1002) 0 (by decide)
    (by rw [hl2]; decide)
  have i1 : (ImpulseResponseForce.wrap (((0 : Nat) : Int)
      + (ImpulseResponseForce.recomputedAll st0 (taggedBodies 1)).offset)).toNat = 1000 := by
    rw [hoff1]
    decide
  have i2 : (ImpulseResponseForce.wrap (((0 : Nat) : Int)
      + (ImpulseResponseForce.recomputedAll st0 (taggedBodies 1002)).offset)).toNat = 1000 := by
    rw [hoff2]
    decide
  rw [i1, hl1, ImpulseResponseForce.taggedBodies_get 1 0 (by decide)] at hw1
  rw [i2, hl2, ImpulseResponseForce.taggedBodies_get 1002 1001 (by decide)] at hw2
  have hb : ∀ j : Nat, 1001 ≤ j → j < 2000 →
      (ImpulseResponseForce.recomputedAll st0 (taggedBodies 1)).velHistory[j]?
        = some (fun _ => 7) := by
    intro j h1 h2
    rw [ImpulseResponseForce.beyond_window_untouched (taggedBodies 1) st0 j h1]
    exact hinit j h1 h2
  refine ⟨st0, _, _, out1, out2, hnew, hK, hlen, e1, hoff1, ?_, ?_, hb 1999 (by decide) (by decide),
    ?_, hb 1499 (by decide) (by decide),
    ImpulseResponseForce.velocity_movingAt_ne_seven 0 1, ?_, e2, by rw [hcount2, hl2], ?_, ?_⟩
  · rw [hw1]
    simp
  · rw [hoff1]
    decide
  · rw [hoff1]
    decide
  · intro h
    have h0 := congrFun h 0
    norm_num at h0
  · rw [hw2]
    norm_num
  · intro h
    have h0 := congrFun h 0
    simp [ImpulseResponseForce.velocity, movingAt, comma] at h0

end HydroChrono
